import Mathlib

/-!
# HDR / VR render pipeline: a shallow embedding

The definitions below transcribe the parts of the repository that drive the
multi-pass frame pipeline:

* `src/examples/sandbox_app.hpp`: `luminance_offset_2x2`, `luminance_offset_4x4`,
  `ExperimentalApp` (constructor, `on_input`, `on_update`, `decodeRE8`, `on_draw`);
* `src/virtual-reality/renderer.cpp`: `Renderer::Renderer`, `set_eye_data`, the `run_*_pass`
  stage functions, `run_post_pass`, `render_frame`;
* `src/virtual-reality/vr_app.cpp`: `VirtualRealityApp::VirtualRealityApp`, `on_update`, `on_draw`;
* `src/vr-environment/vr_app.cpp`: the track-pad loop of `VirtualRealityApp::on_update`.

Conventions.  C++ `float` values are modelled by exact numbers (`ℚ`, or a field
`F` where a library function such as `exp2` is involved), C++ `int` by `Int`,
loop counters by `Nat`; a `float` handed to an integer parameter of a GL call is
converted by `toGLint`.  GL is modelled by the ordered list of calls a function
issues (`Cmd`); what the driver answers (framebuffer completeness, read-back
pixels, the indeterminate contents of an uninitialised local array) is an explicit
input.  A C++ exception is the `Except.error` branch.
-/

namespace Sandbox

/-! ## Vectors -/

/-- The linalg `float4`: four components, indexed `[0]..[3]` as `x y z w`. -/
structure float4 (F : Type) where
  x : F
  y : F
  z : F
  w : F
deriving DecidableEq, Repr

/-- The linalg `float2`. -/
structure float2 (F : Type) where
  x : F
  y : F
deriving DecidableEq, Repr

/-- The linalg `int2`; also a pair of `GLsizei` values. -/
structure int2 where
  x : Int
  y : Int
deriving DecidableEq, Repr

/-- The implicit conversion of a `float` to `GLint` / `GLsizei` where a float expression is passed
to an integer parameter of a GL call: the fractional part is discarded (rounding toward zero). -/
def toGLint (v : ℚ) : Int := if 0 ≤ v then ⌊v⌋ else ⌈v⌉

/-! ## `luminance_offset_2x2` and `luminance_offset_4x4` -/

/-- One `shader->uniform(name, value)` call with a `float4` value. -/
structure UniformUpload where
  name : String
  value : float4 ℚ
deriving DecidableEq, Repr

/-- The locals of the fill loops: the array `float4 offsets[16]` and the counter `num`. -/
structure OffsetFill where
  offsets : List (float4 ℚ)
  num : Nat
deriving DecidableEq, Repr

/-- The assignment `offsets[i][0] = v`; `none` when `i` is outside the array. -/
def writeX (offsets : List (float4 ℚ)) (i : Nat) (v : ℚ) : Option (List (float4 ℚ)) :=
  match offsets[i]? with
  | some e => some (offsets.set i { e with x := v })
  | none => none

/-- The assignment `offsets[i][1] = v`; `none` when `i` is outside the array. -/
def writeY (offsets : List (float4 ℚ)) (i : Nat) (v : ℚ) : Option (List (float4 ℚ)) :=
  match offsets[i]? with
  | some e => some (offsets.set i { e with y := v })
  | none => none

/-- The upload loop `for (int n = 0; n < num; ++n) shader->uniform("u_offset[" + std::to_string(n) + "]", offsets[n])`;
`none` when a read falls outside the array. -/
def uploadOffsets (st : OffsetFill) : Option (List UniformUpload) :=
  (List.range st.num).mapM (fun n =>
    (st.offsets[n]?).map (fun v => { name := "u_offset[" ++ toString n ++ "]", value := v }))

/-- The fill loops of `luminance_offset_2x2`, started on the uninitialised array: `stack n` is the
indeterminate initial content of `offsets[n]`.  `none` when a write falls outside the array. -/
def fill_2x2 (stack : Nat → float4 ℚ) (size : float2 ℚ) : Option OffsetFill :=
  let du := 1 / size.x
  let dv := 1 / size.y
  (List.range 3).foldlM (fun (st : OffsetFill) yy =>
    (List.range 3).foldlM (fun (st : OffsetFill) xx => do
      let o1 ← writeX st.offsets st.num ((xx : ℚ) * du)
      let o2 ← writeY o1 st.num ((yy : ℚ) * dv)
      pure { offsets := o2, num := st.num + 1 }) st) { offsets := (List.range 16).map stack, num := 0 }

/-- `luminance_offset_2x2(shader, size)`: the list of uniform uploads issued on `shader`. -/
def luminance_offset_2x2 (stack : Nat → float4 ℚ) (size : float2 ℚ) : Option (List UniformUpload) := do
  let st ← fill_2x2 stack size
  uploadOffsets st

/-- The fill loops of `luminance_offset_4x4`, started on the uninitialised array.  In `(xx - 1.0f)`
the unsigned counter is converted to `float` before the subtraction. -/
def fill_4x4 (stack : Nat → float4 ℚ) (size : float2 ℚ) : Option OffsetFill :=
  let du := 1 / size.x
  let dv := 1 / size.y
  (List.range 4).foldlM (fun (st : OffsetFill) yy =>
    (List.range 4).foldlM (fun (st : OffsetFill) xx => do
      let o1 ← writeX st.offsets st.num (((xx : ℚ) - 1) * du)
      let o2 ← writeY o1 st.num (((yy : ℚ) - 1) * dv)
      pure { offsets := o2, num := st.num + 1 }) st) { offsets := (List.range 16).map stack, num := 0 }

/-- `luminance_offset_4x4(shader, size)`: the list of uniform uploads issued on `shader`. -/
def luminance_offset_4x4 (stack : Nat → float4 ℚ) (size : float2 ℚ) : Option (List UniformUpload) := do
  let st ← fill_4x4 stack size
  uploadOffsets st

/-! ## `decodeRE8` -/

/-- `ExperimentalApp::decodeRE8`, over a field `F`; `exp2` is the C library function. -/
def decodeRE8 {F : Type} [Field F] (exp2 : F → F) (re8 : float4 F) : F :=
  let exponent := re8.w * 255 - 128
  re8.x * exp2 exponent

/-! ## `ExperimentalApp`: GPU objects -/

/-- The `GlTexture` members of `ExperimentalApp`. -/
inductive Texture
  | middleGreyTex
  | sceneColorTexture
  | sceneDepthTexture
  | luminanceTex_0
  | luminanceTex_1
  | luminanceTex_2
  | luminanceTex_3
  | luminanceTex_4
  | brightTex
  | blurTex
  | emptyTex
deriving DecidableEq, Repr

/-- The `GlFramebuffer` members of `ExperimentalApp`. -/
inductive Framebuffer
  | sceneFramebuffer
  | luminance_0
  | luminance_1
  | luminance_2
  | luminance_3
  | luminance_4
  | brightFramebuffer
  | blurFramebuffer
deriving DecidableEq, Repr

/-- The `GlShader` members of `ExperimentalApp`. -/
inductive Shader
  | hdr_meshShader
  | hdr_lumShader
  | hdr_avgLumShader
  | hdr_blurShader
  | hdr_brightShader
  | hdr_tonemapShader
deriving DecidableEq, Repr

/-- The GL enumerants the application passes. -/
inductive GLenum
  | GL_SRGB8_ALPHA8
  | GL_BGRA
  | GL_UNSIGNED_BYTE
  | GL_DEPTH_COMPONENT
  | GL_FLOAT
  | GL_RGBA
  | GL_COLOR_ATTACHMENT0
  | GL_DEPTH_ATTACHMENT
  | GL_FRAMEBUFFER_SRGB
  | GL_CULL_FACE
  | GL_DEPTH_TEST
  | GL_BLEND
deriving DecidableEq, Repr

/-- The host buffer handed to `GlTexture::load_data`. -/
inductive PixelSource
  | white
  | pixel
  | null
deriving DecidableEq, Repr

/-- The arguments of one `GlTexture::load_data(width, height, internal, format, type, data)`. -/
structure TexImage where
  width : Int
  height : Int
  internalFormat : GLenum
  format : GLenum
  type : GLenum
  data : PixelSource
deriving DecidableEq, Repr

/-- One `GlFramebuffer::attach(point, texture)`. -/
structure Attachment where
  fb : Framebuffer
  point : GLenum
  tex : Texture
deriving DecidableEq, Repr

/-- A `LightObject` of the scene: colour and position. -/
structure LightObject where
  color : ℚ × ℚ × ℚ
  position : ℚ × ℚ × ℚ
deriving DecidableEq, Repr

/-- The members of `ExperimentalApp` the pipeline reads or writes.  The camera, its controller,
the sky dome, the grid and the shader monitor are collaborators and carry no state here;
`white` is the length of the byte vector of that name and `models` the number of renderables. -/
structure ExperimentalApp where
  frameCount : Nat
  models : Nat
  lights : List LightObject
  middleGrey : ℚ
  whitePoint : ℚ
  threshold : ℚ
  time : ℚ
  white : Nat
  textures : List (Texture × TexImage)
  attachments : List Attachment
  views : List Texture
deriving DecidableEq, Repr

namespace ExperimentalApp

/-- The image last loaded into texture `t`, if any. -/
def image (app : ExperimentalApp) (t : Texture) : Option TexImage :=
  (app.textures.find? (fun e => e.1 = t)).map Prod.snd

/-- The texture attached to colour attachment 0 of framebuffer `fb`, if any. -/
def colorAttachment (app : ExperimentalApp) (fb : Framebuffer) : Option Texture :=
  (app.attachments.find? (fun a => a.fb = fb ∧ a.point = GLenum.GL_COLOR_ATTACHMENT0)).map Attachment.tex

/-- The luminance reduction chain: the five luminance textures in member order. -/
def luminanceChain (app : ExperimentalApp) : List (Option TexImage) :=
  [app.image .luminanceTex_0, app.image .luminanceTex_1, app.image .luminanceTex_2,
   app.image .luminanceTex_3, app.image .luminanceTex_4]

/-- `tex.load_data(...)` on member texture `t`: records the image, replacing an earlier one. -/
def load_data (app : ExperimentalApp) (t : Texture) (img : TexImage) : ExperimentalApp :=
  { app with textures := app.textures.filter (fun e => e.1 ≠ t) ++ [(t, img)] }

/-- `fb.attach(point, tex)` on member framebuffer `fb`. -/
def attach (app : ExperimentalApp) (fb : Framebuffer) (point : GLenum) (tex : Texture) : ExperimentalApp :=
  { app with attachments := app.attachments.filter (fun a => ¬ (a.fb = fb ∧ a.point = point)) ++ [⟨fb, point, tex⟩] }

/-- The default member initialisers of `ExperimentalApp` (empty vectors, default-constructed GL objects). -/
def members : ExperimentalApp :=
  { frameCount := 0, models := 0, lights := [], middleGrey := 18 / 100, whitePoint := 11 / 10,
    threshold := 15 / 10, time := 0, white := 0, textures := [], attachments := [], views := [] }

/-- The loop `for (int i = 0; i < width * height; i++)` with its four `white.push_back(255)`. -/
def fill_white (app : ExperimentalApp) (width height : Int) : ExperimentalApp :=
  { app with white := app.white + 4 * (width * height).toNat }

/-- The six `xxxView.reset(new GLTextureView(tex.get_gl_handle()))`, in member order
`luminanceView, averageLuminanceView, brightnessView, blurView, tonemapView, middleGreyView`. -/
def reset_views (app : ExperimentalApp) (texs : List Texture) : ExperimentalApp :=
  { app with views := texs }

/-- The statements `lights.resize(2)` and the assignments to `lights[0]`, `lights[1]`. -/
def set_lights (app : ExperimentalApp) (ls : List LightObject) : ExperimentalApp :=
  { app with lights := ls }

/-- The statement `models.push_back(Renderable(make_icosahedron()))`. -/
def push_back_model (app : ExperimentalApp) : ExperimentalApp :=
  { app with models := app.models + 1 }

end ExperimentalApp

/-! ## `ExperimentalApp`: callbacks -/

/-- The value handed to one `GlShader::uniform` call.  Matrices are kept as their entry list. -/
inductive UniformValue
  | f4 (v : float4 ℚ)
  | f3 (v : ℚ × ℚ × ℚ)
  | f2 (v : float2 ℚ)
  | int (n : Int)
  | float4x4 (m : List ℚ)
  | Identity4x4
deriving DecidableEq, Repr

/-- The calls `on_draw` issues, in the vocabulary of the source: raw GL calls, `GlFramebuffer`,
`GlShader`, `GlMesh`, `GLTextureView` methods, collaborator renders and the two `std::cout` lines. -/
inductive Cmd
  | glfwMakeContextCurrent
  | glEnable (cap : GLenum)
  | glDisable (cap : GLenum)
  | glBlendFunc
  | glViewport (x y width height : Int)
  | glClearColor
  | glClear
  | gl_check_error
  | bind_to_draw (fb : Framebuffer)
  | glBindFramebuffer0
  | skydome_render
  | grid_render
  | bind (s : Shader)
  | unbind (s : Shader)
  | uniform (s : Shader) (name : String) (v : UniformValue)
  | texture (s : Shader) (name : String) (unit : Nat) (t : Texture)
  | model_draw (i : Nat)
  | draw_elements
  | glActiveTexture0
  | glBindTexture (t : Texture)
  | glReadPixels (x y width height : Int)
  | cout_float (v : ℚ)
  | cout_float4 (v : float4 ℚ)
  | view_draw (t : Texture) (child : Nat)
  | glfwSwapBuffers
deriving DecidableEq, Repr

/-- What the surroundings hand to one `on_draw`: the window size, the camera-derived values, the
indeterminate initial contents of `offsets` in the k-th `luminance_offset` call, the pixel that
`glReadPixels` stores into `lumValue`, and the library function `exp2`. -/
structure Frame where
  width : Int
  height : Int
  eye : ℚ × ℚ × ℚ
  viewProj : List ℚ
  model : Nat → List ℚ
  modelIT : Nat → List ℚ
  stack : Nat → Nat → float4 ℚ
  lumValue : float4 ℚ
  exp2 : ℚ → ℚ

/-- The uniform uploads of a `luminance_offset` call as calls on shader `s`. -/
def offsetCmds (s : Shader) (ups : List UniformUpload) : List Cmd :=
  ups.map (fun u => Cmd.uniform s u.name (.f4 u.value))

namespace ExperimentalApp

/-- `ExperimentalApp::on_input`: forwards to the camera controller; both remaining branches are empty. -/
def on_input (app : ExperimentalApp) : ExperimentalApp := app

/-- `ExperimentalApp::on_update`: `time += e.timestep_ms / 1000`. -/
def on_update (timestep_ms : ℚ) (app : ExperimentalApp) : ExperimentalApp :=
  { app with time := app.time + timestep_ms / 1000 }

/-- The statement `frameCount++`. -/
def next_frame (app : ExperimentalApp) : ExperimentalApp :=
  { app with frameCount := app.frameCount + 1 }

/-- The loop over `lights` in `on_draw`. -/
def lightCmds (app : ExperimentalApp) : List Cmd :=
  (app.lights.enum.map (fun (il : Nat × LightObject) =>
    [ Cmd.uniform .hdr_meshShader ("u_lights[" ++ toString il.1 ++ "].position") (.f3 il.2.position),
      Cmd.uniform .hdr_meshShader ("u_lights[" ++ toString il.1 ++ "].color") (.f3 il.2.color) ])).flatten

/-- The loop over `models` in `on_draw`. -/
def modelCmds (f : Frame) (app : ExperimentalApp) : List Cmd :=
  ((List.range app.models).map (fun i =>
    [ Cmd.uniform .hdr_meshShader "u_modelMatrix" (.float4x4 (f.model i)),
      Cmd.uniform .hdr_meshShader "u_modelMatrixIT" (.float4x4 (f.modelIT i)),
      Cmd.model_draw i ])).flatten

/-- The first part of `on_draw`: GL state, clear, sky dome, meshes and grid into `sceneFramebuffer`. -/
def forwardCmds (f : Frame) (app : ExperimentalApp) : List Cmd :=
  [ .glfwMakeContextCurrent, .glEnable .GL_CULL_FACE, .glEnable .GL_DEPTH_TEST,
    .glEnable .GL_FRAMEBUFFER_SRGB, .glEnable .GL_BLEND, .glBlendFunc,
    .glViewport 0 0 f.width f.height, .glClearColor, .glClear, .gl_check_error,
    .bind_to_draw .sceneFramebuffer, .glClear, .skydome_render,
    .bind .hdr_meshShader,
    .uniform .hdr_meshShader "u_eye" (.f3 f.eye),
    .uniform .hdr_meshShader "u_viewProj" (.float4x4 f.viewProj),
    .uniform .hdr_meshShader "u_emissive" (.f3 (1 / 10, 1 / 10, 1 / 10)),
    .uniform .hdr_meshShader "u_diffuse" (.f3 (4 / 10, 425 / 1000, 415 / 1000)),
    .uniform .hdr_meshShader "useNormal" (.int 0) ]
  ++ app.lightCmds ++ modelCmds f app ++
  [ .gl_check_error, .unbind .hdr_meshShader, .grid_render, .gl_check_error,
    .glDisable .GL_CULL_FACE, .glDisable .GL_DEPTH_TEST ]

/-- One averaging stage of `on_draw`: bind `fb`, upload the offsets `ups`, sample `src`, draw the quad. -/
def avgStageCmds (fb : Framebuffer) (ups : List UniformUpload) (src : Texture) : List Cmd :=
  [ .bind_to_draw fb, .bind .hdr_avgLumShader ] ++ offsetCmds .hdr_avgLumShader ups ++
  [ .texture .hdr_avgLumShader "s_texColor" 0 src,
    .uniform .hdr_avgLumShader "u_modelViewProj" .Identity4x4,
    .draw_elements, .unbind .hdr_avgLumShader, .gl_check_error ]

/-- Luminance stage 0 of `on_draw` (128x128 surface area - calculate luminance). -/
def lumStageCmds (ups : List UniformUpload) : List Cmd :=
  [ .bind_to_draw .luminance_0, .bind .hdr_lumShader ] ++ offsetCmds .hdr_lumShader ups ++
  [ .texture .hdr_lumShader "s_texColor" 0 .sceneColorTexture,
    .uniform .hdr_lumShader "u_modelViewProj" .Identity4x4,
    .draw_elements, .unbind .hdr_lumShader, .gl_check_error ]

/-- The read-back of the 1x1 luminance texture into `lumValue`. -/
def readbackCmds : List Cmd :=
  [ .glActiveTexture0, .glBindTexture .luminanceTex_4, .glReadPixels 0 0 1 1, .gl_check_error ]

/-- The local `float4 tonemap = { middleGrey, whitePoint * whitePoint, threshold, time }`. -/
def tonemap (app : ExperimentalApp) : float4 ℚ :=
  ⟨app.middleGrey, app.whitePoint * app.whitePoint, app.threshold, app.time⟩

/-- The bright pass of `on_draw` (1/2 size). -/
def brightCmds (app : ExperimentalApp) : List Cmd :=
  [ .gl_check_error,
    .bind_to_draw .brightFramebuffer, .bind .hdr_brightShader,
    .texture .hdr_brightShader "s_texColor" 0 .sceneColorTexture,
    .texture .hdr_brightShader "s_texLum" 1 .luminanceTex_4,
    .uniform .hdr_brightShader "u_tonemap" (.f4 app.tonemap),
    .uniform .hdr_brightShader "u_modelViewProj" .Identity4x4,
    .draw_elements, .unbind .hdr_brightShader, .gl_check_error ]

/-- The blur pass of `on_draw` (1/8 size). -/
def blurCmds (f : Frame) : List Cmd :=
  [ .bind_to_draw .blurFramebuffer, .bind .hdr_blurShader,
    .texture .hdr_blurShader "s_texColor" 0 .brightTex,
    .uniform .hdr_blurShader "u_viewTexel" (.f2 ⟨1 / ((f.width : ℚ) / 8), 1 / ((f.height : ℚ) / 8)⟩),
    .uniform .hdr_blurShader "u_modelViewProj" .Identity4x4,
    .draw_elements, .unbind .hdr_blurShader, .gl_check_error ]

/-- The tonemap pass of `on_draw` (output to default screen framebuffer on the last pass). -/
def tonemapCmds (f : Frame) (app : ExperimentalApp) : List Cmd :=
  [ .glBindFramebuffer0, .glViewport 0 0 f.width f.height,
    .bind .hdr_tonemapShader,
    .texture .hdr_tonemapShader "s_texColor" 0 .sceneColorTexture,
    .texture .hdr_tonemapShader "s_texLum" 1 .luminanceTex_4,
    .texture .hdr_tonemapShader "s_texBlur" 2 .blurTex,
    .uniform .hdr_tonemapShader "u_tonemap" (.f4 app.tonemap),
    .uniform .hdr_tonemapShader "u_modelViewProj" .Identity4x4,
    .uniform .hdr_tonemapShader "u_viewTexel" (.f2 ⟨1 / (f.width : ℚ), 1 / (f.height : ℚ)⟩),
    .uniform .hdr_tonemapShader "u_tonemap" (.f4 app.tonemap),
    .draw_elements, .unbind .hdr_tonemapShader, .gl_check_error ]

/-- The end of `on_draw`: the two `std::cout` lines, the five debug views, the buffer swap. -/
def debugCmds (f : Frame) (app : ExperimentalApp) : List Cmd :=
  [ .cout_float (decodeRE8 f.exp2 f.lumValue), .cout_float4 app.tonemap, .gl_check_error ] ++
  ((app.views.take 5).enum.map (fun (iv : Nat × Texture) => Cmd.view_draw iv.2 iv.1)) ++
  [ .gl_check_error, .glfwSwapBuffers ]

/-- `ExperimentalApp::on_draw`: the new state and the calls issued, in source order; `none` if a
`luminance_offset` call steps outside its local array. -/
def on_draw (f : Frame) (app : ExperimentalApp) : Option (ExperimentalApp × List Cmd) := do
  let ups0 ← luminance_offset_2x2 (f.stack 0) ⟨128, 128⟩
  let ups1 ← luminance_offset_4x4 (f.stack 1) ⟨128, 128⟩
  let ups2 ← luminance_offset_4x4 (f.stack 2) ⟨64, 64⟩
  let ups3 ← luminance_offset_4x4 (f.stack 3) ⟨16, 16⟩
  let ups4 ← luminance_offset_4x4 (f.stack 4) ⟨4, 4⟩
  pure (app.next_frame,
    forwardCmds f app ++ lumStageCmds ups0 ++
    avgStageCmds .luminance_1 ups1 .luminanceTex_0 ++
    avgStageCmds .luminance_2 ups2 .luminanceTex_1 ++
    avgStageCmds .luminance_3 ups3 .luminanceTex_2 ++
    avgStageCmds .luminance_4 ups4 .luminanceTex_3 ++
    readbackCmds ++ brightCmds app ++ blurCmds f ++ tonemapCmds f app ++ debugCmds f app)

/-- The state at the end of the constructor for a window of `width` by `height`, written out. -/
def built (width height : Int) : ExperimentalApp :=
  { frameCount := 0
    models := 1
    lights := [ { color := (249 / 255, 228 / 255, 157 / 255), position := (25, 15, 0) },
                { color := (255 / 255, 242 / 255, 254 / 255), position := (-25, 15, 0) } ]
    middleGrey := 18 / 100
    whitePoint := 11 / 10
    threshold := 15 / 10
    time := 0
    white := 0 + 4 * (width * height).toNat
    textures :=
      [ (.sceneColorTexture, ⟨width, height, .GL_SRGB8_ALPHA8, .GL_BGRA, .GL_UNSIGNED_BYTE, .white⟩),
        (.sceneDepthTexture, ⟨width, height, .GL_DEPTH_COMPONENT, .GL_DEPTH_COMPONENT, .GL_FLOAT, .white⟩),
        (.luminanceTex_0, ⟨128, 128, .GL_SRGB8_ALPHA8, .GL_BGRA, .GL_UNSIGNED_BYTE, .white⟩),
        (.luminanceTex_1, ⟨64, 64, .GL_SRGB8_ALPHA8, .GL_BGRA, .GL_UNSIGNED_BYTE, .white⟩),
        (.luminanceTex_2, ⟨16, 16, .GL_SRGB8_ALPHA8, .GL_BGRA, .GL_UNSIGNED_BYTE, .white⟩),
        (.luminanceTex_3, ⟨4, 4, .GL_SRGB8_ALPHA8, .GL_BGRA, .GL_UNSIGNED_BYTE, .white⟩),
        (.luminanceTex_4, ⟨1, 1, .GL_SRGB8_ALPHA8, .GL_BGRA, .GL_UNSIGNED_BYTE, .white⟩),
        (.brightTex, ⟨Int.tdiv width 2, Int.tdiv height 2, .GL_SRGB8_ALPHA8, .GL_BGRA, .GL_UNSIGNED_BYTE, .white⟩),
        (.blurTex, ⟨Int.tdiv width 8, Int.tdiv height 8, .GL_SRGB8_ALPHA8, .GL_BGRA, .GL_UNSIGNED_BYTE, .white⟩),
        (.middleGreyTex, ⟨1, 1, .GL_SRGB8_ALPHA8, .GL_BGRA, .GL_UNSIGNED_BYTE, .null⟩),
        (.emptyTex, ⟨1, 1, .GL_RGBA, .GL_RGBA, .GL_UNSIGNED_BYTE, .pixel⟩) ]
    attachments :=
      [ ⟨.sceneFramebuffer, .GL_COLOR_ATTACHMENT0, .sceneColorTexture⟩,
        ⟨.sceneFramebuffer, .GL_DEPTH_ATTACHMENT, .sceneDepthTexture⟩,
        ⟨.luminance_0, .GL_COLOR_ATTACHMENT0, .luminanceTex_0⟩,
        ⟨.luminance_1, .GL_COLOR_ATTACHMENT0, .luminanceTex_1⟩,
        ⟨.luminance_2, .GL_COLOR_ATTACHMENT0, .luminanceTex_2⟩,
        ⟨.luminance_3, .GL_COLOR_ATTACHMENT0, .luminanceTex_3⟩,
        ⟨.luminance_4, .GL_COLOR_ATTACHMENT0, .luminanceTex_4⟩,
        ⟨.brightFramebuffer, .GL_COLOR_ATTACHMENT0, .brightTex⟩,
        ⟨.blurFramebuffer, .GL_COLOR_ATTACHMENT0, .blurTex⟩ ]
    views := [.luminanceTex_0, .luminanceTex_4, .brightTex, .blurTex, .sceneColorTexture, .middleGreyTex] }

end ExperimentalApp

/-! ## `ExperimentalApp`: constructor

Declared after the callbacks: from here on the name `ExperimentalApp` inside the namespace of the
same name denotes the constructor. -/

/-- The statement `if (!complete) throw std::runtime_error(what)`. -/
def check (complete : Bool) (what : String) : Except String Unit :=
  if !complete then throw what else pure ()

set_option linter.dupNamespace false in
/-- `ExperimentalApp::ExperimentalApp()` for a window that `glfwGetWindowSize` reports as `width` by
`height`.  `check_complete fb` is the answer of `fb.check_complete()`; a failed check throws
`std::runtime_error` with the message given.  Shader loading, UI layout and camera set-up are left out. -/
def ExperimentalApp.ExperimentalApp (check_complete : Framebuffer → Bool) (width height : Int) :
    Except String Sandbox.ExperimentalApp := do
  let app : Sandbox.ExperimentalApp := ExperimentalApp.members
  let app := app.fill_white width height
  let app := app.load_data .sceneColorTexture ⟨width, height, .GL_SRGB8_ALPHA8, .GL_BGRA, .GL_UNSIGNED_BYTE, .white⟩
  let app := app.load_data .sceneDepthTexture ⟨width, height, .GL_DEPTH_COMPONENT, .GL_DEPTH_COMPONENT, .GL_FLOAT, .white⟩
  let app := app.load_data .luminanceTex_0 ⟨128, 128, .GL_SRGB8_ALPHA8, .GL_BGRA, .GL_UNSIGNED_BYTE, .white⟩
  let app := app.load_data .luminanceTex_1 ⟨64, 64, .GL_SRGB8_ALPHA8, .GL_BGRA, .GL_UNSIGNED_BYTE, .white⟩
  let app := app.load_data .luminanceTex_2 ⟨16, 16, .GL_SRGB8_ALPHA8, .GL_BGRA, .GL_UNSIGNED_BYTE, .white⟩
  let app := app.load_data .luminanceTex_3 ⟨4, 4, .GL_SRGB8_ALPHA8, .GL_BGRA, .GL_UNSIGNED_BYTE, .white⟩
  let app := app.load_data .luminanceTex_4 ⟨1, 1, .GL_SRGB8_ALPHA8, .GL_BGRA, .GL_UNSIGNED_BYTE, .white⟩
  let app := app.load_data .brightTex ⟨Int.tdiv width 2, Int.tdiv height 2, .GL_SRGB8_ALPHA8, .GL_BGRA, .GL_UNSIGNED_BYTE, .white⟩
  let app := app.load_data .blurTex ⟨Int.tdiv width 8, Int.tdiv height 8, .GL_SRGB8_ALPHA8, .GL_BGRA, .GL_UNSIGNED_BYTE, .white⟩
  let app := app.attach .sceneFramebuffer .GL_COLOR_ATTACHMENT0 .sceneColorTexture
  let app := app.attach .sceneFramebuffer .GL_DEPTH_ATTACHMENT .sceneDepthTexture
  check (check_complete .sceneFramebuffer) "incomplete scene framebuffer"
  let app := app.attach .luminance_0 .GL_COLOR_ATTACHMENT0 .luminanceTex_0
  check (check_complete .luminance_0) "incomplete lum0 framebuffer"
  let app := app.attach .luminance_1 .GL_COLOR_ATTACHMENT0 .luminanceTex_1
  check (check_complete .luminance_1) "incomplete lum1 framebuffer"
  let app := app.attach .luminance_2 .GL_COLOR_ATTACHMENT0 .luminanceTex_2
  check (check_complete .luminance_2) "incomplete lum2 framebuffer"
  let app := app.attach .luminance_3 .GL_COLOR_ATTACHMENT0 .luminanceTex_3
  check (check_complete .luminance_3) "incomplete lum3 framebuffer"
  let app := app.attach .luminance_4 .GL_COLOR_ATTACHMENT0 .luminanceTex_4
  check (check_complete .luminance_4) "incomplete lum4 framebuffer"
  let app := app.attach .brightFramebuffer .GL_COLOR_ATTACHMENT0 .brightTex
  check (check_complete .brightFramebuffer) "incomplete bright framebuffer"
  let app := app.attach .blurFramebuffer .GL_COLOR_ATTACHMENT0 .blurTex
  check (check_complete .blurFramebuffer) "incomplete blur framebuffer"
  let app := app.load_data .middleGreyTex ⟨1, 1, .GL_SRGB8_ALPHA8, .GL_BGRA, .GL_UNSIGNED_BYTE, .null⟩
  let app := app.reset_views [.luminanceTex_0, .luminanceTex_4, .brightTex, .blurTex, .sceneColorTexture, .middleGreyTex]
  let app := app.load_data .emptyTex ⟨1, 1, .GL_RGBA, .GL_RGBA, .GL_UNSIGNED_BYTE, .pixel⟩
  let app := app.set_lights
    [ { color := (249 / 255, 228 / 255, 157 / 255), position := (25, 15, 0) },
      { color := (255 / 255, 242 / 255, 254 / 255), position := (-25, 15, 0) } ]
  let app := app.push_back_model
  pure app

/-- A frame of a 1280 by 720 window: the camera at its initial eye point, a zeroed stack, and a
read-back pixel with mantissa 1 and biased exponent 128. -/
def Frame.still : Frame :=
  { width := 1280, height := 720, eye := (0, 8, 24), viewProj := [], model := fun _ => [],
    modelIT := fun _ => [], stack := fun _ _ => ⟨0, 0, 0, 0⟩, lumValue := ⟨1, 0, 0, 128 / 255⟩,
    exp2 := fun e => 2 ^ ⌊e⌋ }

/-- The states `ExperimentalApp` can be in: built by the constructor for completeness answers
`check_complete` and window size `width` by `height`, then driven by the three callbacks. -/
inductive Reachable (check_complete : Framebuffer → Bool) (width height : Int) : ExperimentalApp → Prop
  | constructed {app : ExperimentalApp} :
      ExperimentalApp.ExperimentalApp check_complete width height = .ok app →
      Reachable check_complete width height app
  | on_input {app : ExperimentalApp} :
      Reachable check_complete width height app →
      Reachable check_complete width height (ExperimentalApp.on_input app)
  | on_update {app : ExperimentalApp} (timestep_ms : ℚ) :
      Reachable check_complete width height app →
      Reachable check_complete width height (ExperimentalApp.on_update timestep_ms app)
  | on_draw {app app' : ExperimentalApp} {cmds : List Cmd} (f : Frame) :
      Reachable check_complete width height app →
      ExperimentalApp.on_draw f app = some (app', cmds) →
      Reachable check_complete width height app'

/-! ## Passes of a call list

A pass is one draw call together with the draw target bound when it is issued and what was set on
the bound shader since its `bind()`. -/

/-- Where a draw call lands: the window (GL framebuffer 0) or a member framebuffer. -/
inductive Target
  | window
  | fbo (fb : Framebuffer)
deriving DecidableEq, Repr

/-- The draw calls of `on_draw`. -/
inductive DrawKind
  | skydome
  | model (i : Nat)
  | grid
  | quad
  | view (t : Texture) (child : Nat)
deriving DecidableEq, Repr

/-- One draw call in context.  `samplers` and `uniforms` are in call order. -/
structure Pass where
  kind : DrawKind
  target : Target
  shader : Option Shader
  samplers : List (String × Nat × Texture)
  uniforms : List (String × UniformValue)
deriving DecidableEq, Repr

/-- The part of the GL state the passes depend on. -/
structure GlState where
  draw : Target
  program : Option Shader
  samplers : List (String × Nat × Texture)
  uniforms : List (String × UniformValue)
deriving DecidableEq, Repr

/-- The state before the first call of a frame. -/
def GlState.init : GlState := ⟨.window, none, [], []⟩

/-- The effect of one call on the state. -/
def GlState.step (st : GlState) : Cmd → GlState
  | .bind_to_draw fb => { st with draw := .fbo fb }
  | .glBindFramebuffer0 => { st with draw := .window }
  | .bind s => { st with program := some s, samplers := [], uniforms := [] }
  | .unbind _ => { st with program := none, samplers := [], uniforms := [] }
  | .uniform s name v =>
      if st.program = some s then { st with uniforms := st.uniforms ++ [(name, v)] } else st
  | .texture s name unit t =>
      if st.program = some s then { st with samplers := st.samplers ++ [(name, unit, t)] } else st
  | _ => st

/-- The state after a list of calls. -/
def GlState.run (st : GlState) (cmds : List Cmd) : GlState := cmds.foldl GlState.step st

/-- The draw a call performs, if it is a draw call. -/
def drawKind : Cmd → Option DrawKind
  | .skydome_render => some .skydome
  | .grid_render => some .grid
  | .model_draw i => some (.model i)
  | .draw_elements => some .quad
  | .view_draw t child => some (.view t child)
  | _ => none

/-- The passes of a call list issued from state `st`, in order. -/
def passesFrom (st : GlState) : List Cmd → List Pass
  | [] => []
  | c :: cs =>
    (match drawKind c with
     | some k => [⟨k, st.draw, st.program, st.samplers, st.uniforms⟩]
     | none => []) ++ passesFrom (st.step c) cs

/-- The passes of one frame. -/
def passes (cmds : List Cmd) : List Pass := passesFrom GlState.init cmds

/-- The full-screen quad passes of one frame: the post-processing pipeline. -/
def quadPasses (cmds : List Cmd) : List Pass := (passes cmds).filter (fun p => p.kind = .quad)

/-- The texture a pass samples through sampler `name` (the last one set). -/
def Pass.sampler (p : Pass) (name : String) : Option Texture :=
  (p.samplers.reverse.find? (fun e => e.1 = name)).map (fun e => e.2.2)

/-- The value a pass sees in uniform `name` (the last one uploaded). -/
def Pass.uniform (p : Pass) (name : String) : Option UniformValue :=
  (p.uniforms.reverse.find? (fun e => e.1 = name)).map (fun e => e.2)

/-- The sixteen uploads of `luminance_offset_4x4`: tap `n` sits in column `n % 4`, row `n / 4`. -/
def taps_4x4 (stack : Nat → float4 ℚ) (size : float2 ℚ) : List UniformUpload :=
  (List.range 16).map (fun n =>
    { name := "u_offset[" ++ toString n ++ "]",
      value := ⟨(((n % 4 : ℕ) : ℚ) - 1) * (1 / size.x), (((n / 4 : ℕ) : ℚ) - 1) * (1 / size.y),
                (stack n).z, (stack n).w⟩ })

/-- The nine uploads of `luminance_offset_2x2`: tap `n` sits in column `n % 3`, row `n / 3`. -/
def taps_2x2 (stack : Nat → float4 ℚ) (size : float2 ℚ) : List UniformUpload :=
  (List.range 9).map (fun n =>
    { name := "u_offset[" ++ toString n ++ "]",
      value := ⟨((n % 3 : ℕ) : ℚ) * (1 / size.x), ((n / 3 : ℕ) : ℚ) * (1 / size.y),
                (stack n).z, (stack n).w⟩ })

/-- Uploads as entries of a pass. -/
def offsetUniforms (ups : List UniformUpload) : List (String × UniformValue) :=
  ups.map (fun u => (u.name, UniformValue.f4 u.value))

/-- The pass drawn by luminance stage 0. -/
def lumPass (ups : List UniformUpload) : Pass :=
  { kind := .quad, target := .fbo .luminance_0, shader := some .hdr_lumShader,
    samplers := [("s_texColor", 0, .sceneColorTexture)],
    uniforms := offsetUniforms ups ++ [("u_modelViewProj", .Identity4x4)] }

/-- The pass drawn by an averaging stage. -/
def avgPass (fb : Framebuffer) (ups : List UniformUpload) (src : Texture) : Pass :=
  { kind := .quad, target := .fbo fb, shader := some .hdr_avgLumShader,
    samplers := [("s_texColor", 0, src)],
    uniforms := offsetUniforms ups ++ [("u_modelViewProj", .Identity4x4)] }

/-- The bright pass. -/
def brightPass (app : ExperimentalApp) : Pass :=
  { kind := .quad, target := .fbo .brightFramebuffer, shader := some .hdr_brightShader,
    samplers := [("s_texColor", 0, .sceneColorTexture), ("s_texLum", 1, .luminanceTex_4)],
    uniforms := [("u_tonemap", .f4 app.tonemap), ("u_modelViewProj", .Identity4x4)] }

/-- The blur pass. -/
def blurPass (f : Frame) : Pass :=
  { kind := .quad, target := .fbo .blurFramebuffer, shader := some .hdr_blurShader,
    samplers := [("s_texColor", 0, .brightTex)],
    uniforms := [("u_viewTexel", .f2 ⟨1 / ((f.width : ℚ) / 8), 1 / ((f.height : ℚ) / 8)⟩),
                 ("u_modelViewProj", .Identity4x4)] }

/-- The tonemap pass. -/
def tonemapPass (f : Frame) (app : ExperimentalApp) : Pass :=
  { kind := .quad, target := .window, shader := some .hdr_tonemapShader,
    samplers := [("s_texColor", 0, .sceneColorTexture), ("s_texLum", 1, .luminanceTex_4),
                 ("s_texBlur", 2, .blurTex)],
    uniforms := [("u_tonemap", .f4 app.tonemap), ("u_modelViewProj", .Identity4x4),
                 ("u_viewTexel", .f2 ⟨1 / (f.width : ℚ), 1 / (f.height : ℚ)⟩),
                 ("u_tonemap", .f4 app.tonemap)] }

/-- The eight full-screen quad passes of a frame, in order. -/
def pipelinePasses (f : Frame) (app : ExperimentalApp) : List Pass :=
  [ lumPass (taps_2x2 (f.stack 0) ⟨128, 128⟩),
    avgPass .luminance_1 (taps_4x4 (f.stack 1) ⟨128, 128⟩) .luminanceTex_0,
    avgPass .luminance_2 (taps_4x4 (f.stack 2) ⟨64, 64⟩) .luminanceTex_1,
    avgPass .luminance_3 (taps_4x4 (f.stack 3) ⟨16, 16⟩) .luminanceTex_2,
    avgPass .luminance_4 (taps_4x4 (f.stack 4) ⟨4, 4⟩) .luminanceTex_3,
    brightPass app, blurPass f, tonemapPass f app ]

/-- The calls of one frame, with the uploads of the five `luminance_offset` calls written out. -/
def frameCmds (f : Frame) (app : ExperimentalApp) : List Cmd :=
  ExperimentalApp.forwardCmds f app ++
  ExperimentalApp.lumStageCmds (taps_2x2 (f.stack 0) ⟨128, 128⟩) ++
  ExperimentalApp.avgStageCmds .luminance_1 (taps_4x4 (f.stack 1) ⟨128, 128⟩) .luminanceTex_0 ++
  ExperimentalApp.avgStageCmds .luminance_2 (taps_4x4 (f.stack 2) ⟨64, 64⟩) .luminanceTex_1 ++
  ExperimentalApp.avgStageCmds .luminance_3 (taps_4x4 (f.stack 3) ⟨16, 16⟩) .luminanceTex_2 ++
  ExperimentalApp.avgStageCmds .luminance_4 (taps_4x4 (f.stack 4) ⟨4, 4⟩) .luminanceTex_3 ++
  ExperimentalApp.readbackCmds ++ ExperimentalApp.brightCmds app ++ ExperimentalApp.blurCmds f ++
  ExperimentalApp.tonemapCmds f app ++ ExperimentalApp.debugCmds f app

/-! ## `Renderer::Renderer` and `VirtualRealityApp::VirtualRealityApp` -/

/-- The enum `Eye`. -/
inductive Eye
  | LeftEye
  | RightEye
deriving DecidableEq, Repr

/-- The framebuffers a `Renderer` owns. -/
inductive RendererFramebuffer
  | multisampleFramebuffer
  | eyeFramebuffers (eye : Eye)
deriving DecidableEq, Repr

/-- The members of `Renderer` its constructor sets: the render size and, per eye, the size of the
image given to `eyeTextures[eye]` (the `GLsizei` width and height of `glTextureImage2DEXT`). -/
structure Renderer where
  renderSize : float2 ℚ
  eyeTextures : List (Eye × int2)
deriving DecidableEq, Repr

/-- Modelled from the spec: `GlFramebuffer::check_complete()` as `renderer.cpp` calls it, a bare
statement that uses no result.  The class is declared in a header that is not among the sources.
The spec has completeness validated at creation and an incomplete surface fatal, never silently
tolerated: the call throws when the driver reports the framebuffer incomplete. -/
def GlFramebuffer.check_complete (complete : Bool) : Except String Unit :=
  if complete then pure () else throw "incomplete framebuffer"

set_option linter.dupNamespace false in
/-- `Renderer::Renderer(renderSize)`.  `complete fb` is the driver's answer for framebuffer `fb`:
`glCheckNamedFramebufferStatusEXT(..) == GL_FRAMEBUFFER_COMPLETE` for the multisample framebuffer,
what `eyeFramebuffers[eye].check_complete()` finds for an eye framebuffer.  The loop over the two
eyes is written out; `glTextureImage2DEXT` receives `renderSize.x`, `renderSize.y` as `GLsizei`. -/
def Renderer.Renderer (complete : RendererFramebuffer → Bool) (renderSize : float2 ℚ) :
    Except String Sandbox.Renderer := do
  check (complete .multisampleFramebuffer) "Framebuffer incomplete!"
  GlFramebuffer.check_complete (complete (.eyeFramebuffers .LeftEye))
  GlFramebuffer.check_complete (complete (.eyeFramebuffers .RightEye))
  pure { renderSize := renderSize,
         eyeTextures := [(.LeftEye, ⟨toGLint renderSize.x, toGLint renderSize.y⟩),
                         (.RightEye, ⟨toGLint renderSize.x, toGLint renderSize.y⟩)] }

/-- An `OpenVR_HMD` as far as the constructor of the application uses it. -/
structure OpenVR_HMD where
  recommended_render_target_size : Nat × Nat
deriving DecidableEq, Repr

/-- The members of `VirtualRealityApp` its constructor decides, and what it wrote to `std::cout`. -/
structure VirtualRealityApp where
  hmd : Option OpenVR_HMD
  renderer : Renderer
  swapInterval0 : Bool
  cout : List String
deriving DecidableEq, Repr

/-- The handler `catch (const std::exception & e)` of the constructor, entered with `hmd` as the
try block left it. -/
def VirtualRealityApp.handler (complete : float2 ℚ → RendererFramebuffer → Bool)
    (windowWidth windowHeight : Int) (hmd : Option OpenVR_HMD) (what : String) :
    Except String VirtualRealityApp := do
  let renderSize : float2 ℚ := ⟨(windowWidth : ℚ) * (1 / 2), (windowHeight : ℚ)⟩
  let renderer ← Renderer.Renderer (complete renderSize) renderSize
  pure { hmd := hmd, renderer := renderer, swapInterval0 := false, cout := ["OpenVR Exception: " ++ what] }

set_option linter.dupNamespace false in
/-- `VirtualRealityApp::VirtualRealityApp()` up to `setup_physics()`.  `openvr` is the outcome of
`new OpenVR_HMD()` (the exceptions thrown are `std::exception`s, kept by their `what()`),
`complete size fb` the driver's completeness answer for framebuffer `fb` of a renderer of that size.
The class the application names `VR_Renderer` is the `Renderer` of `renderer.cpp`. -/
def VirtualRealityApp.VirtualRealityApp (openvr : Except String OpenVR_HMD)
    (complete : float2 ℚ → RendererFramebuffer → Bool) (windowWidth windowHeight : Int) :
    Except String Sandbox.VirtualRealityApp :=
  match openvr with
  | .error what => VirtualRealityApp.handler complete windowWidth windowHeight none what
  | .ok hmd =>
    let targetSize := hmd.recommended_render_target_size
    let renderSize : float2 ℚ := ⟨(targetSize.1 : ℚ), (targetSize.2 : ℚ)⟩
    match Renderer.Renderer (complete renderSize) renderSize with
    | .error what => VirtualRealityApp.handler complete windowWidth windowHeight (some hmd) what
    | .ok renderer => .ok { hmd := some hmd, renderer := renderer, swapInterval0 := true, cout := [] }

/-! ## The luminance encoder -/

/-- Modelled from the spec: the exponent chosen by the luminance encoder of the shader
`hdr_lum_frag.glsl`, which is not among the sources.  The spec describes an 8-bit mantissa/exponent
split with exponent bias 128: the exponent is the least integer `e` with `L ≤ 2 ^ e`, kept in the
range `-128 .. 127` of the biased byte. -/
def encodeExponent (L : ℚ) : ℤ := max (-128) (min 127 (Int.clog 2 L))

/-- Modelled from the spec: the luminance encoder paired with `decodeRE8`.  Channel 4 holds the
biased exponent as an 8-bit normalised value, channel 1 the mantissa `L / 2 ^ e` rounded to the
nearest of the 255 steps of an 8-bit channel (clamped to the channel range `0 .. 1`). -/
def encodeRE8 (L : ℚ) : float4 ℚ :=
  let e := encodeExponent L
  let mantissa := L / 2 ^ e
  ⟨(min 255 (max 0 (round (mantissa * 255))) : ℤ) / 255, 0, 0, ((e + 128 : ℤ) : ℚ) / 255⟩

/-! ## `Renderer`: one frame

`Renderer::render_frame` and the stage functions of `renderer.cpp`, as the ordered list of calls
they issue (`Call`).  A call list comes with an outcome: a null pointer that is dereferenced ends
the run with a `Fault`, and what was issued before it is kept. -/

/-- The linalg `Pose`: an orientation quaternion and a position. -/
structure Pose where
  orientation : ℚ × ℚ × ℚ × ℚ
  position : ℚ × ℚ × ℚ
deriving DecidableEq, Repr

/-- `EyeData`: the pose and the projection matrix of one eye. -/
structure EyeData where
  pose : Pose
  projectionMatrix : List ℚ
deriving DecidableEq, Repr

/-- `uniforms::per_view`. -/
structure per_view where
  view : List ℚ
  viewProj : List ℚ
  eyePos : ℚ × ℚ × ℚ
deriving DecidableEq, Repr

/-- The linalg and pose functions the renderer and the application call; their definitions are in
headers that are not among the sources, so they are taken as given. -/
structure Linalg where
  inverse : Pose → Pose
  matrix : Pose → List ℚ
  mul : List ℚ → List ℚ → List ℚ
  make_scaling_matrix : ℚ × ℚ × ℚ → List ℚ
  pose_mul : Pose → Pose → Pose
  qzdir : ℚ × ℚ × ℚ × ℚ → ℚ × ℚ × ℚ
  identity : Pose

/-- A `Renderable *` of the render set: the object, its pose and scale, and what `get_material()`
returns (`none` for a null pointer). -/
structure Renderable where
  object : Nat
  pose : Pose
  scale : ℚ × ℚ × ℚ
  material : Option Nat
deriving DecidableEq, Repr

/-- `uniforms::point_light`. -/
structure point_light where
  color : ℚ × ℚ × ℚ
  position : ℚ × ℚ × ℚ
  radius : ℚ
deriving DecidableEq, Repr

/-- A `LightCollection`: the directional light, if any, and the point lights. -/
structure LightCollection where
  directionalLight : Option (ℚ × ℚ × ℚ)
  pointLights : List point_light
deriving DecidableEq, Repr

/-- A `Renderer` between frames: what the constructor set, the eye data, the render set, the lights
and the pass toggles.  The initial values of the members the constructor does not set are in
`renderer.hpp`, which is not among the sources; a state is taken as given. -/
structure RendererState extends Renderer where
  eyes : EyeData × EyeData
  renderSet : List Renderable
  lights : LightCollection
  renderPost : Bool
  renderBloom : Bool
  renderReflection : Bool
  renderSSAO : Bool
  renderSMAA : Bool
  renderBlackout : Bool
  renderWireframe : Bool
  renderShadows : Bool
deriving DecidableEq, Repr

/-- The functions of `renderer.cpp` whose invocation is recorded. -/
inductive Stage
  | run_skybox_pass
  | run_forward_pass
  | run_forward_wireframe_pass
  | run_shadow_pass
  | run_bloom_pass
  | run_reflection_pass
  | run_ssao_pass
  | run_smaa_pass
  | run_blackout_pass
  | run_post_pass
  | render_frame
deriving DecidableEq, Repr

/-- The GL object names the renderer and the application bind. -/
inductive GLName
  | zero
  | multisampleFramebuffer
  | eyeTextures (eye : Eye)
  | eyeFramebuffers (eye : Eye)
deriving DecidableEq, Repr

/-- The GL binding points and capabilities used by the renderer and the application. -/
inductive GLconst
  | GL_CULL_FACE
  | GL_DEPTH_TEST
  | GL_MULTISAMPLE
  | GL_TEXTURE_2D
  | GL_FRAMEBUFFER
  | GL_DRAW_FRAMEBUFFER
  | GL_READ_FRAMEBUFFER
deriving DecidableEq, Repr

/-- The enum `vr::ETrackedControllerRole` as far as it is used: role 1 and role 2. -/
inductive TrackedControllerRole
  | LeftHand
  | RightHand
deriving DecidableEq, Repr

/-- The methods of the head-mounted display the application calls through `hmd->`. -/
inductive HmdMethod
  | get_controller (role : TrackedControllerRole)
  | get_world_pose
  | set_world_pose (p : Pose)
  | get_hmd_pose
  | get_eye_pose (eye : Eye)
  | get_proj_matrix (eye : Eye)
  | submit
  | update
deriving DecidableEq, Repr

/-- The calls of the renderer and of `VirtualRealityApp`, in the vocabulary of the sources. -/
inductive Call
  | enter (s : Stage)
  | glClear
  | glClearColor
  | glEnable (cap : GLconst)
  | glDisable (cap : GLconst)
  | perScene_set_buffer_data
  | glBindBufferBase_perScene
  | glBindBufferBase_perView
  | perView_set_buffer_data (v : per_view)
  | glViewport (x y width height : Int)
  | glBindFramebuffer (target : GLconst) (name : GLName)
  | glBlitFramebuffer (width height : Int)
  | update_uniforms (material : Nat)
  | use (material : Nat) (modelMatrix : List ℚ)
  | draw (object : Nat)
  | hmd (m : HmdMethod)
  | glfwMakeContextCurrent
  | cameraController_update
  | shaderMonitor_handle_recompile
  | igm_begin_frame
  | igm_end_frame
  | imgui
  | debugDrawWorld
  | add_debug_renderable
  | add_renderables (n : Nat)
  | set_lights
  | draw_sphere
  | gpuTimer_start
  | gpuTimer_stop
  | debugCam_set_pose (p : Pose)
  | glUseProgram0
  | glActiveTexture0
  | glBindTexture (name : GLName)
  | glQuad
  | physicsDebugRenderer_clear
  | physicsEngine_update
  | controller_update (role : TrackedControllerRole) (p : Pose)
  | controller_set_pose (role : TrackedControllerRole) (p : Pose)
  | teleportationArc_set_static_mesh (empty : Bool)
  | glfwSwapBuffers
  | gl_check_error
deriving DecidableEq, Repr

/-- A null pointer dereferenced at the named expression. -/
inductive Fault
  | null_material
  | null_hmd (m : HmdMethod)
deriving DecidableEq, Repr

/-- The calls issued by a piece of code and how it ended. -/
structure Run (α : Type) where
  calls : List Call
  result : Except Fault α

/-- Sequencing: the second piece runs only if the first one returned. -/
def Run.bind {α β : Type} (r : Run α) (k : α → Run β) : Run β :=
  match r.result with
  | .error e => ⟨r.calls, .error e⟩
  | .ok a => ⟨r.calls ++ (k a).calls, (k a).result⟩

instance : Monad Run where
  pure a := ⟨[], .ok a⟩
  bind := Run.bind

/-- One call. -/
def emit (c : Call) : Run Unit := ⟨[c], .ok ()⟩

/-- Several calls. -/
def emits (cs : List Call) : Run Unit := ⟨cs, .ok ()⟩

/-- The dereference of a null pointer. -/
def fault {α : Type} (e : Fault) : Run α := ⟨[], .error e⟩

/-- `Renderer::set_eye_data`. -/
def RendererState.set_eye_data (r : RendererState) (left right : EyeData) : RendererState :=
  { r with eyes := (left, right) }

/-- The element `eyes[eye]`. -/
def RendererState.eye (r : RendererState) : Eye → EyeData
  | .LeftEye => r.eyes.1
  | .RightEye => r.eyes.2

/-- `Renderer::run_skybox_pass`: empty. -/
def run_skybox_pass : Run Unit := emit (.enter .run_skybox_pass)

/-- The loop body of `Renderer::run_forward_pass` over the render set: `mat->update_uniforms()`
dereferences the pointer `get_material()` returned without a test. -/
def forward_objects (m : Linalg) : List Renderable → Run Unit
  | [] => pure ()
  | obj :: rest =>
    let modelMatrix := m.mul (m.matrix obj.pose) (m.make_scaling_matrix obj.scale)
    match obj.material with
    | none => fault .null_material
    | some mat =>
      Run.bind (emits [.update_uniforms mat, .use mat modelMatrix, .draw obj.object])
        (fun _ => forward_objects m rest)

/-- `Renderer::run_forward_pass`. -/
def run_forward_pass (m : Linalg) (r : RendererState) : Run Unit := do
  emit (.enter .run_forward_pass)
  forward_objects m r.renderSet

/-- `Renderer::run_forward_wireframe_pass`: empty. -/
def run_forward_wireframe_pass : Run Unit := emit (.enter .run_forward_wireframe_pass)

/-- `Renderer::run_shadow_pass`: empty. -/
def run_shadow_pass : Run Unit := emit (.enter .run_shadow_pass)

/-- `Renderer::run_bloom_pass`: empty. -/
def run_bloom_pass : Run Unit := emit (.enter .run_bloom_pass)

/-- `Renderer::run_reflection_pass`: empty. -/
def run_reflection_pass : Run Unit := emit (.enter .run_reflection_pass)

/-- `Renderer::run_ssao_pass`: empty. -/
def run_ssao_pass : Run Unit := emit (.enter .run_ssao_pass)

/-- `Renderer::run_smaa_pass`: empty. -/
def run_smaa_pass : Run Unit := emit (.enter .run_smaa_pass)

/-- `Renderer::run_blackout_pass`: empty. -/
def run_blackout_pass : Run Unit := emit (.enter .run_blackout_pass)

/-- `Renderer::run_post_pass`. -/
def run_post_pass (r : RendererState) : Run Unit := do
  emit (.enter .run_post_pass)
  if !r.renderPost then return
  if r.renderBloom then run_bloom_pass
  if r.renderReflection then run_reflection_pass
  if r.renderSSAO then run_ssao_pass
  if r.renderSMAA then run_smaa_pass
  if r.renderBlackout then run_blackout_pass

/-- The body of the loop over the eyes in `Renderer::render_frame`.  The draw binding before the
blit is given the name `eyeTextures[eye]`, as in the source; `glViewport` and `glBlitFramebuffer`
receive `renderSize.x`, `renderSize.y` as integers. -/
def eye_pass (m : Linalg) (r : RendererState) (eye : Eye) : Run Unit := do
  let v : per_view :=
    { view := m.matrix (m.inverse (r.eye eye).pose),
      viewProj := m.mul (r.eye eye).projectionMatrix (m.matrix (m.inverse (r.eye eye).pose)),
      eyePos := (r.eye eye).pose.position }
  emits [.perView_set_buffer_data v, .glViewport 0 0 (toGLint r.renderSize.x) (toGLint r.renderSize.y),
    .glEnable .GL_MULTISAMPLE, .glBindFramebuffer .GL_DRAW_FRAMEBUFFER .multisampleFramebuffer]
  run_skybox_pass
  run_forward_pass m r
  if r.renderWireframe then run_forward_wireframe_pass
  if r.renderShadows then run_shadow_pass
  emits [.glDisable .GL_MULTISAMPLE,
    .glBindFramebuffer .GL_READ_FRAMEBUFFER .multisampleFramebuffer,
    .glBindFramebuffer .GL_DRAW_FRAMEBUFFER (.eyeTextures eye),
    .glBlitFramebuffer (toGLint r.renderSize.x) (toGLint r.renderSize.y)]
  run_post_pass r

/-- The statement `renderSet.clear()`. -/
def RendererState.clear_renderSet (r : RendererState) : RendererState :=
  { r with renderSet := [] }

/-- `Renderer::render_frame`. -/
def render_frame (m : Linalg) (r : RendererState) : Run RendererState := do
  emits [.enter .render_frame, .glClear, .glClearColor, .glEnable .GL_CULL_FACE,
    .glEnable .GL_DEPTH_TEST, .perScene_set_buffer_data, .glBindBufferBase_perScene,
    .glBindBufferBase_perView]
  eye_pass m r .LeftEye
  eye_pass m r .RightEye
  pure r.clear_renderSet

/-- The calls of one iteration of the loop in `run_forward_pass`, for an object with a material. -/
def object_calls (m : Linalg) (obj : Renderable) : List Call :=
  match obj.material with
  | none => []
  | some mat =>
    [.update_uniforms mat,
     .use mat (m.mul (m.matrix obj.pose) (m.make_scaling_matrix obj.scale)), .draw obj.object]

/-- The calls of `run_post_pass`, written out. -/
def post_calls (r : RendererState) : List Call :=
  .enter .run_post_pass ::
    (if r.renderPost then
      (if r.renderBloom then [Call.enter .run_bloom_pass] else []) ++
      (if r.renderReflection then [Call.enter .run_reflection_pass] else []) ++
      (if r.renderSSAO then [Call.enter .run_ssao_pass] else []) ++
      (if r.renderSMAA then [Call.enter .run_smaa_pass] else []) ++
      (if r.renderBlackout then [Call.enter .run_blackout_pass] else [])
    else [])

/-- The calls that open the loop body for one eye, up to the binding of the multisample target. -/
def eye_head (m : Linalg) (r : RendererState) (eye : Eye) : List Call :=
  [ .perView_set_buffer_data
      { view := m.matrix (m.inverse (r.eye eye).pose),
        viewProj := m.mul (r.eye eye).projectionMatrix (m.matrix (m.inverse (r.eye eye).pose)),
        eyePos := (r.eye eye).pose.position },
    .glViewport 0 0 (toGLint r.renderSize.x) (toGLint r.renderSize.y), .glEnable .GL_MULTISAMPLE,
    .glBindFramebuffer .GL_DRAW_FRAMEBUFFER .multisampleFramebuffer ]

/-- The multisample resolve of one eye. -/
def resolve_calls (r : RendererState) (eye : Eye) : List Call :=
  [ .glDisable .GL_MULTISAMPLE, .glBindFramebuffer .GL_READ_FRAMEBUFFER .multisampleFramebuffer,
    .glBindFramebuffer .GL_DRAW_FRAMEBUFFER (.eyeTextures eye),
    .glBlitFramebuffer (toGLint r.renderSize.x) (toGLint r.renderSize.y) ]

/-- The calls of the loop body for one eye when no material is null, written out. -/
def eye_calls (m : Linalg) (r : RendererState) (eye : Eye) : List Call :=
  eye_head m r eye ++ [.enter .run_skybox_pass, .enter .run_forward_pass] ++
  (r.renderSet.map (object_calls m)).flatten ++
  (if r.renderWireframe then [Call.enter .run_forward_wireframe_pass] else []) ++
  (if r.renderShadows then [Call.enter .run_shadow_pass] else []) ++
  resolve_calls r eye ++ post_calls r

/-- The calls of `render_frame` before the loop over the eyes. -/
def frame_head : List Call :=
  [ .enter .render_frame, .glClear, .glClearColor, .glEnable .GL_CULL_FACE, .glEnable .GL_DEPTH_TEST,
    .perScene_set_buffer_data, .glBindBufferBase_perScene, .glBindBufferBase_perView ]

/-- The calls that mark the pass sequence: the entry of a stage function and the resolve blit. -/
def Call.isMarker : Call → Bool
  | .enter _ => true
  | .glBlitFramebuffer _ _ => true
  | _ => false

/-- The pass sequence of one eye: sky box, forward geometry, the optional wireframe and shadow
passes, the resolve, the post pass and its optional stages. -/
def eye_sequence (r : RendererState) : List Call :=
  [.enter .run_skybox_pass, .enter .run_forward_pass] ++
  (if r.renderWireframe then [Call.enter .run_forward_wireframe_pass] else []) ++
  (if r.renderShadows then [Call.enter .run_shadow_pass] else []) ++
  [.glBlitFramebuffer (toGLint r.renderSize.x) (toGLint r.renderSize.y)] ++ post_calls r

/-! ## `VirtualRealityApp`: callbacks -/

/-- `OpenVR_Controller::ButtonState` as far as it is used. -/
structure ButtonState where
  down : Bool
  released : Bool
deriving DecidableEq, Repr

/-- A `ScreenViewport`: a rectangle of the window and the texture shown in it. -/
structure ScreenViewport where
  bmin : float2 ℚ
  bmax : float2 ℚ
  texture : GLName
deriving DecidableEq, Repr

/-- The members of `VirtualRealityApp` and of its `scene` that `on_update` and `on_draw` read or
write.  `world_pose` is the world pose kept inside the `OpenVR_HMD` object and `angle` the
function-local `static float angle`. -/
structure VirtualRealityAppState where
  hmd : Option OpenVR_HMD
  world_pose : Pose
  renderer : RendererState
  debugCam : Pose
  needsTeleport : Bool
  teleportLocation : ℚ × ℚ × ℚ
  params_position : ℚ × ℚ × ℚ
  params_forward : ℚ × ℚ × ℚ
  pointLights : List point_light
  angle : ℚ
  viewports : List ScreenViewport
deriving DecidableEq, Repr

/-- What the surroundings hand to one `on_update`: the time step, the device readings (controller
and head poses as functions of the world pose, the two track pads), the outcome of
`make_parabolic_pointer` (its return value and what it leaves in `scene.teleportLocation`), the
library functions `sin` and `cos`, and what `scene.gather` collects. -/
structure UpdateInput where
  timestep_ms : ℚ
  controller_pose : TrackedControllerRole → Pose → Pose
  pad : TrackedControllerRole → ButtonState
  hmd_pose : Pose → Pose
  make_parabolic_pointer : ℚ × ℚ × ℚ → ℚ × ℚ × ℚ → ℚ × ℚ × ℚ → Bool × (ℚ × ℚ × ℚ)
  sin : ℚ → ℚ
  cos : ℚ → ℚ
  renderables : List Renderable
  lightCollection : List point_light → LightCollection

/-- What the surroundings hand to one `on_draw`: the window size, the eye poses and projection
matrices the head-mounted display reports, and the projection matrix of the debug camera. -/
structure DrawInput where
  width : Int
  height : Int
  eye_pose : Eye → Pose
  proj_matrix : Eye → List ℚ
  debug_projection : List ℚ

namespace VirtualRealityAppState

/-- An access `hmd->m(...)`: a fault when `hmd` is empty. -/
def hmd_call (st : VirtualRealityAppState) (m : HmdMethod) : Run Unit :=
  match st.hmd with
  | none => fault (.null_hmd m)
  | some _ => emit (.hmd m)

/-- The assignments to `scene.params.position` and `scene.params.forward`. -/
def set_params (st : VirtualRealityAppState) (position forward : ℚ × ℚ × ℚ) : VirtualRealityAppState :=
  { st with params_position := position, params_forward := forward }

/-- An assignment to `scene.teleportLocation`. -/
def set_teleportLocation (st : VirtualRealityAppState) (l : ℚ × ℚ × ℚ) : VirtualRealityAppState :=
  { st with teleportLocation := l }

/-- An assignment to `scene.needsTeleport`. -/
def set_needsTeleport (st : VirtualRealityAppState) (b : Bool) : VirtualRealityAppState :=
  { st with needsTeleport := b }

/-- The effect of `hmd->set_world_pose(p)` on the state. -/
def set_world_pose (st : VirtualRealityAppState) (p : Pose) : VirtualRealityAppState :=
  { st with world_pose := p }

/-- A replacement of the renderer's state. -/
def set_renderer (st : VirtualRealityAppState) (r : RendererState) : VirtualRealityAppState :=
  { st with renderer := r }

/-- The statement `debugCam.set_pose(p)`. -/
def set_debugCam (st : VirtualRealityAppState) (p : Pose) : VirtualRealityAppState :=
  { st with debugCam := p }

/-- The assignments to the positions of `scene.pointLights[0]` and `[1]` and `angle += 0.01f`. -/
def move_lights (inp : UpdateInput) (st : VirtualRealityAppState) : VirtualRealityAppState :=
  { st with
    pointLights := st.pointLights.enum.map (fun (il : Nat × point_light) =>
      if il.1 = 0 then
        { il.2 with position := (15 / 10 * inp.sin st.angle, 15 / 10, 15 / 10 * inp.cos st.angle) }
      else if il.1 = 1 then
        { il.2 with position := (15 / 10 * inp.sin (-st.angle), 15 / 10, 15 / 10 * inp.cos (-st.angle)) }
      else il.2)
    angle := st.angle + 1 / 100 }

/-- The statements `viewports.clear()` and the two `viewports.push_back`. -/
def set_viewports (st : VirtualRealityAppState) (vs : List ScreenViewport) : VirtualRealityAppState :=
  { st with viewports := vs }

end VirtualRealityAppState

/-- Modelled from the spec: `Renderer::add_renderables` is defined in `renderer.hpp`, which is not
among the sources.  The spec has the frame's RenderableSet gathered from the scene and consumed by
the frame: the renderables are appended to the render set. -/
def RendererState.add_renderables (r : RendererState) (set : List Renderable) : RendererState :=
  { r with renderSet := r.renderSet ++ set }

/-- Modelled from the spec: `Renderer::set_lights` is defined in `renderer.hpp`, which is not among
the sources.  The spec has the frame's LightSet handed over by the scene: the collection replaces
the renderer's lights. -/
def RendererState.set_lights (r : RendererState) (lights : LightCollection) : RendererState :=
  { r with lights := lights }

/-- The branch `if (state.down)` of the track-pad loop in `on_update`. -/
def aim (m : Linalg) (inp : UpdateInput) (st : VirtualRealityAppState)
    (role : TrackedControllerRole) : Run VirtualRealityAppState := do
  st.hmd_call (.get_controller role)
  st.hmd_call .get_world_pose
  let pose := inp.controller_pose role st.world_pose
  let fwd := m.qzdir pose.orientation
  let st := st.set_params pose.position (-fwd.1, -fwd.2.1, -fwd.2.2)
  let found := inp.make_parabolic_pointer st.params_position st.params_forward st.teleportLocation
  let st := st.set_teleportLocation found.2
  if found.1 then
    emit (.teleportationArc_set_static_mesh false)
    pure (st.set_needsTeleport true)
  else
    pure st

/-- The branch `if (state.released && scene.needsTeleport)` of the track-pad loop in `on_update`. -/
def teleport (m : Linalg) (inp : UpdateInput) (st : VirtualRealityAppState) :
    Run VirtualRealityAppState := do
  let st := st.set_needsTeleport false
  st.hmd_call .get_hmd_pose
  let st := st.set_teleportLocation
    (st.teleportLocation.1, (inp.hmd_pose st.world_pose).position.2.1, st.teleportLocation.2.2)
  st.hmd_call .get_hmd_pose
  let teleportPose : Pose := ⟨(inp.hmd_pose st.world_pose).orientation, st.teleportLocation⟩
  st.hmd_call (.set_world_pose m.identity)
  let st := st.set_world_pose m.identity
  st.hmd_call .get_hmd_pose
  let hmd_pose := inp.hmd_pose st.world_pose
  let target := m.pose_mul teleportPose (m.inverse hmd_pose)
  st.hmd_call (.set_world_pose target)
  let st := st.set_world_pose target
  emit (.teleportationArc_set_static_mesh true)
  pure st

/-- One iteration of the track-pad loop in `on_update`. -/
def trackpad_step (m : Linalg) (inp : UpdateInput) (st : VirtualRealityAppState)
    (role : TrackedControllerRole) : Run VirtualRealityAppState := do
  let state := inp.pad role
  let st ← if state.down then aim m inp st role else pure st
  if state.released && st.needsTeleport then teleport m inp st else pure st

/-- The block `if (hmd) { ... }` of `on_update`, entered with `hmd` set. -/
def update_hmd (m : Linalg) (inp : UpdateInput) (st : VirtualRealityAppState) :
    Run VirtualRealityAppState := do
  st.hmd_call (.get_controller .LeftHand)
  st.hmd_call .get_world_pose
  emit (.controller_update .LeftHand (inp.controller_pose .LeftHand st.world_pose))
  st.hmd_call (.get_controller .RightHand)
  st.hmd_call .get_world_pose
  emit (.controller_update .RightHand (inp.controller_pose .RightHand st.world_pose))
  emit .physicsEngine_update
  st.hmd_call (.get_controller .LeftHand)
  st.hmd_call .get_world_pose
  emit (.controller_set_pose .LeftHand (inp.controller_pose .LeftHand st.world_pose))
  st.hmd_call (.get_controller .RightHand)
  st.hmd_call .get_world_pose
  emit (.controller_set_pose .RightHand (inp.controller_pose .RightHand st.world_pose))
  st.hmd_call (.get_controller .LeftHand)
  st.hmd_call (.get_controller .RightHand)
  let st ← trackpad_step m inp st .LeftHand
  trackpad_step m inp st .RightHand

namespace VirtualRealityAppState

/-- `VirtualRealityApp::on_update`. -/
def on_update (m : Linalg) (inp : UpdateInput) (st : VirtualRealityAppState) :
    Run VirtualRealityAppState := do
  emits [.cameraController_update, .shaderMonitor_handle_recompile]
  let st ← match st.hmd with
    | some _ => update_hmd m inp st
    | none => pure st
  let st := st.move_lights inp
  let renderables := inp.renderables
  let lightCollection := inp.lightCollection st.pointLights
  emit (.add_renderables renderables.length)
  let st := st.set_renderer (st.renderer.add_renderables renderables)
  emit .set_lights
  let st := st.set_renderer (st.renderer.set_lights lightCollection)
  emits [.add_debug_renderable, .draw_sphere, .draw_sphere]
  pure st

/-- The textured quad `on_draw` draws for one screen viewport.  The four arguments of `glViewport`
are float expressions converted to `GLint` / `GLsizei`. -/
def viewport_calls (height : Int) (v : ScreenViewport) : List Call :=
  [ .glViewport (toGLint v.bmin.x) (toGLint ((height : ℚ) - v.bmax.y))
      (toGLint (v.bmax.x - v.bmin.x)) (toGLint (v.bmax.y - v.bmin.y)),
    .glActiveTexture0, .glEnable .GL_TEXTURE_2D, .glBindTexture v.texture, .glQuad,
    .glDisable .GL_TEXTURE_2D ]

/-- The branch `if (hmd)` of `on_draw`. -/
def draw_hmd (m : Linalg) (inp : DrawInput) (st : VirtualRealityAppState) :
    Run VirtualRealityAppState := do
  emit .gpuTimer_start
  st.hmd_call (.get_eye_pose .LeftEye)
  st.hmd_call (.get_proj_matrix .LeftEye)
  let left : EyeData := ⟨inp.eye_pose .LeftEye, inp.proj_matrix .LeftEye⟩
  st.hmd_call (.get_eye_pose .RightEye)
  st.hmd_call (.get_proj_matrix .RightEye)
  let right : EyeData := ⟨inp.eye_pose .RightEye, inp.proj_matrix .RightEye⟩
  let r ← render_frame m (st.renderer.set_eye_data left right)
  let st := st.set_renderer r
  emit .gpuTimer_stop
  st.hmd_call .submit
  st.hmd_call .update
  st.hmd_call (.get_eye_pose .LeftEye)
  emit (.debugCam_set_pose (inp.eye_pose .LeftEye))
  pure (st.set_debugCam (inp.eye_pose .LeftEye))

/-- The branch `else` of `on_draw`. -/
def draw_window (m : Linalg) (inp : DrawInput) (st : VirtualRealityAppState) :
    Run VirtualRealityAppState := do
  let projMatrix := inp.debug_projection
  let centerEye : EyeData := ⟨st.debugCam, projMatrix⟩
  let r ← render_frame m (st.renderer.set_eye_data centerEye centerEye)
  pure (st.set_renderer r)

/-- The two screen viewports of `on_draw`. -/
def screen_viewports (inp : DrawInput) : List ScreenViewport :=
  let rect_min : float2 ℚ := ⟨0, 0⟩
  let rect_max : float2 ℚ := ⟨(inp.width : ℚ), (inp.height : ℚ)⟩
  let mid := (rect_min.x + rect_max.x) / 2
  [ ⟨rect_min, ⟨mid - 2, rect_max.y⟩, .eyeTextures .LeftEye⟩,
    ⟨⟨mid + 2, rect_min.y⟩, rect_max, .eyeTextures .RightEye⟩ ]

/-- `VirtualRealityApp::on_draw`. -/
def on_draw (m : Linalg) (inp : DrawInput) (st : VirtualRealityAppState) :
    Run VirtualRealityAppState := do
  emits [.glfwMakeContextCurrent, .igm_begin_frame, .glViewport 0 0 inp.width inp.height, .imgui,
    .debugDrawWorld, .add_debug_renderable]
  let st ← match st.hmd with
    | some _ => draw_hmd m inp st
    | none => draw_window m inp st
  emit .imgui
  let st := st.set_viewports (screen_viewports inp)
  if st.viewports.length ≠ 0 then
    emits [.glUseProgram0, .glBindFramebuffer .GL_FRAMEBUFFER .zero, .glClear]
  emits (st.viewports.map (viewport_calls inp.height)).flatten
  emit .physicsDebugRenderer_clear
  st.hmd_call .get_hmd_pose
  emits [.imgui, .imgui, .igm_end_frame, .glfwSwapBuffers, .gl_check_error]
  pure st

end VirtualRealityAppState

/-- The resolve blit. -/
def Call.isResolve : Call → Bool
  | .glBlitFramebuffer _ _ => true
  | _ => false

/-- The optional stage functions. -/
def optional_stages : List Stage :=
  [.run_bloom_pass, .run_reflection_pass, .run_ssao_pass, .run_smaa_pass, .run_blackout_pass,
   .run_forward_wireframe_pass, .run_shadow_pass]

/-- A stand-in for the linalg functions in examples: poses act as translations, matrices are the
sixteen entries of a 4x4 matrix in column order. -/
def Linalg.translations : Linalg :=
  { inverse := fun p => ⟨p.orientation, (-p.position.1, -p.position.2.1, -p.position.2.2)⟩
    matrix := fun p =>
      [1, 0, 0, 0, 0, 1, 0, 0, 0, 0, 1, 0, p.position.1, p.position.2.1, p.position.2.2, 1]
    mul := fun a b => (List.range 16).map (fun k =>
      ((List.range 4).map (fun i => a.getD (i * 4 + k % 4) 0 * b.getD (k / 4 * 4 + i) 0)).sum)
    make_scaling_matrix := fun s => [s.1, 0, 0, 0, 0, s.2.1, 0, 0, 0, 0, s.2.2, 0, 0, 0, 0, 1]
    pose_mul := fun p q =>
      ⟨p.orientation,
        (p.position.1 + q.position.1, p.position.2.1 + q.position.2.1,
          p.position.2.2 + q.position.2.2)⟩
    qzdir := fun _ => (0, 0, 1)
    identity := ⟨(0, 0, 0, 1), (0, 0, 0)⟩ }

/-- A renderer of size 640 by 800 with two point lights set, an empty render set and every toggle
off. -/
def RendererState.still : RendererState :=
  { renderSize := ⟨640, 800⟩
    eyeTextures := [(.LeftEye, ⟨640, 800⟩), (.RightEye, ⟨640, 800⟩)]
    eyes := (⟨⟨(0, 0, 0, 1), (0, 0, 0)⟩, []⟩, ⟨⟨(0, 0, 0, 1), (0, 0, 0)⟩, []⟩)
    renderSet := []
    lights := ⟨some (0, -1, 0),
      [⟨(88 / 100, 85 / 100, 975 / 1000), (-1, 1, 0), 4⟩, ⟨(67 / 100, 1, 85 / 100), (1, 1, 0), 4⟩]⟩
    renderPost := false, renderBloom := false, renderReflection := false, renderSSAO := false
    renderSMAA := false, renderBlackout := false, renderWireframe := false, renderShadows := false }

/-- The renderer `still` with the wireframe, post and bloom toggles on. -/
def RendererState.wired : RendererState :=
  { RendererState.still with renderWireframe := true, renderPost := true, renderBloom := true }

/-- A render set of three objects of which the second has no material: the cube with the debug
material, the teleportation arc (its material is looked up under a name that was never
registered) and a capsule with the PBR material. -/
def Renderable.arc_set : List Renderable :=
  [ ⟨0, ⟨(0, 0, 0, 1), (0, 2, 0)⟩, (1, 1, 1), some 0⟩,
    ⟨1, ⟨(0, 0, 0, 1), (0, 0, 0)⟩, (1, 1, 1), none⟩,
    ⟨2, ⟨(0, 0, 0, 1), (15 / 10, 33 / 100, 0)⟩, (1, 1, 1), some 1⟩ ]

/-- The renderer `still` after `add_renderables(arc_set)`. -/
def RendererState.arc : RendererState := RendererState.still.add_renderables Renderable.arc_set

/-- The draw call of an object. -/
def Call.isDraw : Call → Bool
  | .draw _ => true
  | _ => false

/-- An access to the head-mounted display. -/
def Call.isHmd : Call → Bool
  | .hmd _ => true
  | _ => false

/-- An upload of the per-view uniform buffer. -/
def Call.isPerView : Call → Bool
  | .perView_set_buffer_data _ => true
  | _ => false

/-- The calls of `on_draw` before the renderer is driven. -/
def draw_head (inp : DrawInput) : List Call :=
  [.glfwMakeContextCurrent, .igm_begin_frame, .glViewport 0 0 inp.width inp.height, .imgui,
   .debugDrawWorld, .add_debug_renderable]

/-- The calls of `on_draw` between the renderer's frame and the statement
`const auto hpose = hmd->get_hmd_pose();`. -/
def draw_screen (inp : DrawInput) : List Call :=
  [.imgui, .glUseProgram0, .glBindFramebuffer .GL_FRAMEBUFFER .zero, .glClear] ++
  ((VirtualRealityAppState.screen_viewports inp).map
    (VirtualRealityAppState.viewport_calls inp.height)).flatten ++
  [.physicsDebugRenderer_clear]

/-- The eye data `on_draw` hands to the renderer without a head-mounted display:
`centerEye = { debugCam.get_pose(), projMatrix }`. -/
def centerEye (inp : DrawInput) (st : VirtualRealityAppState) : EyeData :=
  ⟨st.debugCam, inp.debug_projection⟩

/-- An application without a head-mounted display on a 1280 by 800 window: the renderer `still`,
the debug camera at (0, 1.5, 3). -/
def VirtualRealityAppState.window : VirtualRealityAppState :=
  { hmd := none
    world_pose := ⟨(0, 0, 0, 1), (0, 0, 0)⟩
    renderer := RendererState.still
    debugCam := ⟨(0, 0, 0, 1), (0, 15 / 10, 3)⟩
    needsTeleport := false
    teleportLocation := (0, 0, 0)
    params_position := (0, 0, 0)
    params_forward := (0, 0, 0)
    pointLights := RendererState.still.lights.pointLights
    angle := 0
    viewports := [] }

/-- A draw on a 1280 by 800 window. -/
def DrawInput.window : DrawInput :=
  { width := 1280, height := 800, eye_pose := fun _ => ⟨(0, 0, 0, 1), (0, 0, 0)⟩,
    proj_matrix := fun _ => [], debug_projection := [] }

/-- An update of 16 ms with idle track pads, gathering the two renderables of `arc_set` that have a
material. -/
def UpdateInput.idle : UpdateInput :=
  { timestep_ms := 16
    controller_pose := fun _ p => p
    pad := fun _ => ⟨false, false⟩
    hmd_pose := fun p => p
    make_parabolic_pointer := fun _ _ l => (false, l)
    sin := fun _ => 0
    cos := fun _ => 1
    renderables := Renderable.arc_set.filter (fun o => o.material ≠ none)
    lightCollection := fun l => ⟨some (0, -1, 0), l⟩ }

/-! ## Events of a frame of `ExperimentalApp` -/

/-- What a frame does to the pipeline, in order: a pass, or the read-back `glReadPixels`. -/
inductive FrameEvent
  | pass (p : Pass)
  | readback (x y width height : Int)
deriving DecidableEq, Repr

/-- The read-back event. -/
def FrameEvent.isReadback : FrameEvent → Bool
  | .readback _ _ _ _ => true
  | _ => false

/-- The read-back call. -/
def Cmd.isReadPixels : Cmd → Bool
  | .glReadPixels _ _ _ _ => true
  | _ => false

/-- The events of a call list issued from state `st`, in order. -/
def eventsFrom (st : GlState) : List Cmd → List FrameEvent
  | [] => []
  | c :: cs =>
    (match c with
     | .glReadPixels x y width height => [.readback x y width height]
     | _ =>
       match drawKind c with
       | some k => [.pass ⟨k, st.draw, st.program, st.samplers, st.uniforms⟩]
       | none => []) ++ eventsFrom (st.step c) cs

/-- The events of one frame. -/
def events (cmds : List Cmd) : List FrameEvent := eventsFrom GlState.init cmds

/-- The passes of the five debug views: drawn into the window with no shader of the pipeline bound. -/
def viewPasses (app : ExperimentalApp) : List Pass :=
  (app.views.take 5).enum.map (fun (iv : Nat × Texture) =>
    ⟨.view iv.2 iv.1, .window, none, [], []⟩)

/-- The events of the pipeline proper: its full-screen quad passes and the read-back. -/
def FrameEvent.isPipeline : FrameEvent → Bool
  | .pass p => decide (p.kind = .quad)
  | .readback _ _ _ _ => true

/-! ## `ExperimentalApp`: window sizes, host buffers and callback traces -/

/-- A frame of a 1366 by 768 window, otherwise as `Frame.still`. -/
def Frame.laptop : Frame :=
  { width := 1366, height := 768, eye := (0, 8, 24), viewProj := [], model := fun _ => [],
    modelIT := fun _ => [], stack := fun _ _ => ⟨0, 0, 0, 0⟩, lumValue := ⟨1, 0, 0, 128 / 255⟩,
    exp2 := fun e => 2 ^ ⌊e⌋ }

/-- The number of components of one pixel in a client pixel format of OpenGL. -/
def GLenum.components : GLenum → Nat
  | .GL_BGRA => 4
  | .GL_RGBA => 4
  | .GL_DEPTH_COMPONENT => 1
  | _ => 0

/-- The size in bytes of one component of a client pixel type of OpenGL. -/
def GLenum.bytes : GLenum → Nat
  | .GL_UNSIGNED_BYTE => 1
  | .GL_FLOAT => 4
  | _ => 0

/-- The number of bytes of client memory an image upload reads: `width * height` pixels of the
components of `format`, each of the size of `type` (rows of 4-byte pixels need no padding);
nothing is read for a null pointer.  `GlTexture::load_data` is declared in a header that is not
among the sources; it hands its arguments to `glTexImage2D`. -/
def TexImage.bytes (img : TexImage) : Nat :=
  match img.data with
  | .null => 0
  | _ => (img.width * img.height).toNat * (img.format.components * img.type.bytes)

/-- The uploads that read the vector `white`, with the number of bytes each reads from it. -/
def ExperimentalApp.white_reads (app : Sandbox.ExperimentalApp) : List (Texture × Nat) :=
  (app.textures.filter (fun e => e.2.data = .white)).map (fun e => (e.1, e.2.bytes))

/-- One callback of the main loop on `ExperimentalApp`. -/
inductive Callback
  | on_input
  | on_update (timestep_ms : ℚ)
  | on_draw (f : Frame)

/-- The seconds a callback adds to `time`: `timestep_ms / 1000` for `on_update`, nothing for the
other two. -/
def Callback.elapsed : Callback → ℚ
  | .on_update timestep_ms => timestep_ms / 1000
  | _ => 0

/-- The state after one callback; `none` if `on_draw` does not return. -/
def ExperimentalApp.call (app : Sandbox.ExperimentalApp) : Callback → Option Sandbox.ExperimentalApp
  | .on_input => some (ExperimentalApp.on_input app)
  | .on_update timestep_ms => some (ExperimentalApp.on_update timestep_ms app)
  | .on_draw f => (ExperimentalApp.on_draw f app).map Prod.fst

/-- The state after a sequence of callbacks. -/
def ExperimentalApp.run (app : Sandbox.ExperimentalApp) : List Callback → Option Sandbox.ExperimentalApp
  | [] => some app
  | c :: cs => (ExperimentalApp.call app c).bind (fun app' => ExperimentalApp.run app' cs)

/-- The ToneMapParameters invariant of the spec: `middleGrey > 0`, `whitePoint > 0`,
`threshold >= 0`, `time >= 0`. -/
def ExperimentalApp.paramsValid (app : Sandbox.ExperimentalApp) : Bool :=
  decide (0 < app.middleGrey) && decide (0 < app.whitePoint) && decide (0 ≤ app.threshold) &&
    decide (0 ≤ app.time)

/-- A binding of a framebuffer target. -/
def Call.isBindFramebuffer : Call → Bool
  | .glBindFramebuffer _ _ => true
  | _ => false

/-! ## The teleport state machine of `VirtualRealityApp::on_update` -/

/-- What `make_parabolic_pointer(scene.params, pointerGeom, scene.teleportLocation)` returns in the
iteration of the track-pad loop for controller `role`, entered in state `st`: whether a target was
found, and what is left in `scene.teleportLocation`. -/
def pointer (m : Linalg) (inp : UpdateInput) (st : VirtualRealityAppState)
    (role : TrackedControllerRole) : Bool × (ℚ × ℚ × ℚ) :=
  let pose := inp.controller_pose role st.world_pose
  let fwd := m.qzdir pose.orientation
  inp.make_parabolic_pointer pose.position (-fwd.1, -fwd.2.1, -fwd.2.2) st.teleportLocation

/-- The iteration for `role` aims successfully: `state.down` holds and
`make_parabolic_pointer` returns true. -/
def aimed (m : Linalg) (inp : UpdateInput) (st : VirtualRealityAppState)
    (role : TrackedControllerRole) : Bool :=
  (inp.pad role).down && (pointer m inp st role).1

/-- The value of `scene.needsTeleport` when the iteration for `role` evaluates
`state.released && scene.needsTeleport`. -/
def armed (m : Linalg) (inp : UpdateInput) (st : VirtualRealityAppState)
    (role : TrackedControllerRole) : Bool :=
  aimed m inp st role || st.needsTeleport

/-- The iteration for `role` enters the branch `if (state.released && scene.needsTeleport)`. -/
def fired (m : Linalg) (inp : UpdateInput) (st : VirtualRealityAppState)
    (role : TrackedControllerRole) : Bool :=
  (inp.pad role).released && armed m inp st role

/-- The call that marks a successful aim: `teleportationArc.set_static_mesh(pointerGeom, ...)`. -/
def Call.isAim : Call → Bool
  | .teleportationArc_set_static_mesh false => true
  | _ => false

/-- The call that marks a teleport: `teleportationArc.set_static_mesh(emptyGeom, ...)`. -/
def Call.isTeleport : Call → Bool
  | .teleportationArc_set_static_mesh true => true
  | _ => false

/-- A call `hmd->set_world_pose(...)`. -/
def Call.isSetWorldPose : Call → Bool
  | .hmd (.set_world_pose _) => true
  | _ => false

/-- A sequence of `on_update` calls, one for each input. -/
def updates (m : Linalg) : List UpdateInput → VirtualRealityAppState → Run VirtualRealityAppState
  | [], st => pure st
  | inp :: rest, st => Run.bind (st.on_update m inp) (updates m rest)

/-- The application `window` with a head-mounted display attached. -/
def VirtualRealityAppState.seated : VirtualRealityAppState :=
  { hmd := some ⟨(1512, 1680)⟩
    world_pose := ⟨(0, 0, 0, 1), (0, 0, 0)⟩
    renderer := RendererState.still
    debugCam := ⟨(0, 0, 0, 1), (0, 15 / 10, 3)⟩
    needsTeleport := false
    teleportLocation := (0, 0, 0)
    params_position := (0, 0, 0)
    params_forward := (0, 0, 0)
    pointLights := RendererState.still.lights.pointLights
    angle := 0
    viewports := [] }

/-- An update in which the left track pad is held down and the pointer finds the target
(2, 0, -3); the head is at height 17/10 above the world pose. -/
def UpdateInput.aiming : UpdateInput :=
  { timestep_ms := 16
    controller_pose := fun _ p => p
    pad := fun role => match role with
      | .LeftHand => ⟨true, false⟩
      | .RightHand => ⟨false, false⟩
    hmd_pose := fun p => ⟨p.orientation, (p.position.1, p.position.2.1 + 17 / 10, p.position.2.2)⟩
    make_parabolic_pointer := fun _ _ _ => (true, (2, 0, -3))
    sin := fun _ => 0
    cos := fun _ => 1
    renderables := []
    lightCollection := fun l => ⟨some (0, -1, 0), l⟩ }

/-- An update in which the left track pad is released. -/
def UpdateInput.releasing : UpdateInput :=
  { timestep_ms := 16
    controller_pose := fun _ p => p
    pad := fun role => match role with
      | .LeftHand => ⟨false, true⟩
      | .RightHand => ⟨false, false⟩
    hmd_pose := fun p => ⟨p.orientation, (p.position.1, p.position.2.1 + 17 / 10, p.position.2.2)⟩
    make_parabolic_pointer := fun _ _ l => (false, l)
    sin := fun _ => 0
    cos := fun _ => 1
    renderables := []
    lightCollection := fun l => ⟨some (0, -1, 0), l⟩ }

/-- A call on `scene.teleportationArc`. -/
def Call.isArc : Call → Bool
  | .teleportationArc_set_static_mesh _ => true
  | _ => false

/-! ### The track-pad loop of `src/vr-environment/vr_app.cpp`

The second copy of `VirtualRealityApp::on_update` has the same loop; the two calls of
`scene.teleportationArc.set_static_mesh` are commented out there. -/

/-- The branch `if (state.down)` of the track-pad loop in `src/vr-environment/vr_app.cpp`. -/
def vr_environment.aim (m : Linalg) (inp : UpdateInput) (st : VirtualRealityAppState)
    (role : TrackedControllerRole) : Run VirtualRealityAppState := do
  st.hmd_call (.get_controller role)
  st.hmd_call .get_world_pose
  let pose := inp.controller_pose role st.world_pose
  let fwd := m.qzdir pose.orientation
  let st := st.set_params pose.position (-fwd.1, -fwd.2.1, -fwd.2.2)
  let found := inp.make_parabolic_pointer st.params_position st.params_forward st.teleportLocation
  let st := st.set_teleportLocation found.2
  if found.1 then
    pure (st.set_needsTeleport true)
  else
    pure st

/-- The branch `if (state.released && scene.needsTeleport)` of the track-pad loop in
`src/vr-environment/vr_app.cpp`. -/
def vr_environment.teleport (m : Linalg) (inp : UpdateInput) (st : VirtualRealityAppState) :
    Run VirtualRealityAppState := do
  let st := st.set_needsTeleport false
  st.hmd_call .get_hmd_pose
  let st := st.set_teleportLocation
    (st.teleportLocation.1, (inp.hmd_pose st.world_pose).position.2.1, st.teleportLocation.2.2)
  st.hmd_call .get_hmd_pose
  let teleportPose : Pose := ⟨(inp.hmd_pose st.world_pose).orientation, st.teleportLocation⟩
  st.hmd_call (.set_world_pose m.identity)
  let st := st.set_world_pose m.identity
  st.hmd_call .get_hmd_pose
  let hmd_pose := inp.hmd_pose st.world_pose
  let target := m.pose_mul teleportPose (m.inverse hmd_pose)
  st.hmd_call (.set_world_pose target)
  let st := st.set_world_pose target
  pure st

/-- One iteration of the track-pad loop in `src/vr-environment/vr_app.cpp`. -/
def vr_environment.trackpad_step (m : Linalg) (inp : UpdateInput) (st : VirtualRealityAppState)
    (role : TrackedControllerRole) : Run VirtualRealityAppState := do
  let state := inp.pad role
  let st ← if state.down then vr_environment.aim m inp st role else pure st
  if state.released && st.needsTeleport then vr_environment.teleport m inp st else pure st

/-- A draw on a 1281 by 800 window. -/
def DrawInput.odd : DrawInput :=
  { width := 1281, height := 800, eye_pose := fun _ => ⟨(0, 0, 0, 1), (0, 0, 0)⟩,
    proj_matrix := fun _ => [], debug_projection := [] }

/-- The renderer `arc` with the wireframe and shadow toggles on. -/
def RendererState.arc_toggled : RendererState :=
  { RendererState.arc with renderWireframe := true, renderShadows := true }

/-- An eye at (-1, 0, 0) with an empty projection matrix. -/
def EyeData.leftward : EyeData := ⟨⟨(0, 0, 0, 1), (-1, 0, 0)⟩, []⟩

/-- An eye at (1, 0, 0) with an empty projection matrix. -/
def EyeData.rightward : EyeData := ⟨⟨(0, 0, 0, 1), (1, 0, 0)⟩, []⟩

/-! ## Theorems -/

/-- With every check passing the constructor returns `built`. -/
theorem ExperimentalApp_of_complete (check_complete : Framebuffer → Bool) (width height : Int)
    (h : ∀ fb, check_complete fb = true) :
    ExperimentalApp.ExperimentalApp check_complete width height = .ok (ExperimentalApp.built width height) := by
  simp [ExperimentalApp.ExperimentalApp, check, h, ExperimentalApp.built, ExperimentalApp.members,
    ExperimentalApp.fill_white, ExperimentalApp.load_data, ExperimentalApp.attach,
    ExperimentalApp.reset_views, ExperimentalApp.set_lights, ExperimentalApp.push_back_model,
    bind, Except.bind, pure, Except.pure]

/-- A check followed by more code returns exactly when the check passes and the rest returns. -/
theorem check_bind_ok {α : Type} (complete : Bool) (what : String) (k : PUnit → Except String α) (a : α) :
    (check complete what >>= k) = .ok a ↔ complete = true ∧ k PUnit.unit = .ok a := by
  cases complete
  · simp [check, bind, Except.bind, throw, throwThe, MonadExceptOf.throw]
  · simp [check, bind, Except.bind, pure, Except.pure]

/-- The constructor returns exactly when every check passes, and then returns `built`. -/
theorem ExperimentalApp_ok_iff (check_complete : Framebuffer → Bool) (width height : Int)
    (app : ExperimentalApp) :
    ExperimentalApp.ExperimentalApp check_complete width height = .ok app ↔
      (∀ fb, check_complete fb = true) ∧ app = ExperimentalApp.built width height := by
  constructor
  · intro hok
    have hall : ∀ fb, check_complete fb = true := by
      simp only [ExperimentalApp.ExperimentalApp, check_bind_ok] at hok
      obtain ⟨h1, h2, h3, h4, h5, h6, h7, h8, -⟩ := hok
      intro fb
      cases fb <;> assumption
    refine ⟨hall, ?_⟩
    rw [ExperimentalApp_of_complete check_complete width height hall] at hok
    exact (Except.ok.inj hok).symm
  · rintro ⟨hall, rfl⟩
    exact ExperimentalApp_of_complete check_complete width height hall

/-- The array and counter after the fill loops of `luminance_offset_4x4`. -/
theorem fill_4x4_eq (stack : Nat → float4 ℚ) (size : float2 ℚ) :
    fill_4x4 stack size = some
      { offsets := (List.range 16).map (fun n =>
          ⟨(((n % 4 : ℕ) : ℚ) - 1) * (1 / size.x), (((n / 4 : ℕ) : ℚ) - 1) * (1 / size.y),
            (stack n).z, (stack n).w⟩),
        num := 16 } := by
  simp only [fill_4x4, List.range, List.range.loop, List.map, writeX, writeY, List.foldlM, bind,
    Option.bind, pure, List.getElem?_cons_zero, List.getElem?_cons_succ, List.set_cons_zero,
    List.set_cons_succ, Nat.reduceAdd, Nat.reduceMod, Nat.reduceDiv]

/-- The array and counter after the fill loops of `luminance_offset_2x2`. -/
theorem fill_2x2_eq (stack : Nat → float4 ℚ) (size : float2 ℚ) :
    fill_2x2 stack size = some
      { offsets := (List.range 16).map (fun n =>
          if n < 9 then
            ⟨((n % 3 : ℕ) : ℚ) * (1 / size.x), ((n / 3 : ℕ) : ℚ) * (1 / size.y), (stack n).z, (stack n).w⟩
          else stack n),
        num := 9 } := by
  simp only [fill_2x2, List.range, List.range.loop, List.map, writeX, writeY, List.foldlM, bind,
    Option.bind, pure, List.getElem?_cons_zero, List.getElem?_cons_succ, List.set_cons_zero,
    List.set_cons_succ, Nat.reduceAdd, Nat.reduceMod, Nat.reduceDiv, Nat.reduceLT, if_true, if_false,
    Nat.reduceLTLE]

/-- The uploads of `luminance_offset_4x4`, written out: tap `n` sits in column `n % 4`, row `n / 4`. -/
theorem luminance_offset_4x4_eq (stack : Nat → float4 ℚ) (size : float2 ℚ) :
    luminance_offset_4x4 stack size = some (taps_4x4 stack size) := by
  rw [luminance_offset_4x4, fill_4x4_eq]
  simp only [taps_4x4, uploadOffsets, bind, Option.bind, List.range, List.range.loop, List.map, List.mapM,
    List.mapM.loop, List.getElem?_cons_zero, List.getElem?_cons_succ, Option.map, pure,
    List.reverse_cons, List.reverse_nil, List.nil_append, List.cons_append, Nat.reduceMod,
    Nat.reduceDiv]

/-- The uploads of `luminance_offset_2x2`, written out: tap `n` sits in column `n % 3`, row `n / 3`. -/
theorem luminance_offset_2x2_eq (stack : Nat → float4 ℚ) (size : float2 ℚ) :
    luminance_offset_2x2 stack size = some (taps_2x2 stack size) := by
  rw [luminance_offset_2x2, fill_2x2_eq]
  simp only [taps_2x2, uploadOffsets, bind, Option.bind, List.range, List.range.loop, List.map, List.mapM,
    List.mapM.loop, List.getElem?_cons_zero, List.getElem?_cons_succ, Option.map, pure,
    List.reverse_cons, List.reverse_nil, List.nil_append, List.cons_append, Nat.reduceMod,
    Nat.reduceDiv, Nat.reduceLT, if_true, if_false]

/-! ### Passes of a frame -/

/-- Running a concatenation is running its parts in turn. -/
theorem run_append (st : GlState) (a b : List Cmd) :
    st.run (a ++ b) = (st.run a).run b := by
  simp [GlState.run, List.foldl_append]

/-- The passes of a concatenation: those of the first part, then those of the second from the state
the first part leaves. -/
theorem passesFrom_append (st : GlState) (a b : List Cmd) :
    passesFrom st (a ++ b) = passesFrom st a ++ passesFrom (st.run a) b := by
  induction a generalizing st with
  | nil => simp [passesFrom, GlState.run]
  | cons c cs ih => simp [passesFrom, GlState.run, ih, List.append_assoc]

/-- A call list without `draw_elements` has no quad pass. -/
theorem passesFrom_filter_quad (st : GlState) (cmds : List Cmd)
    (h : ∀ c ∈ cmds, drawKind c ≠ some .quad) :
    (passesFrom st cmds).filter (fun p => p.kind = .quad) = [] := by
  induction cmds generalizing st with
  | nil => simp [passesFrom]
  | cons c cs ih =>
    have hc := h c (List.mem_cons_self _ _)
    have hcs := ih (st.step c) (fun d hd => h d (List.mem_cons_of_mem _ hd))
    simp only [passesFrom, List.filter_append, hcs, List.append_nil]
    cases hk : drawKind c with
    | none => simp
    | some k =>
      have : k ≠ .quad := by
        intro hq; exact hc (by rw [hk, hq])
      simp [this]

/-- Calls that leave the draw target alone leave it alone together. -/
theorem run_draw (st : GlState) (cmds : List Cmd)
    (h : ∀ c ∈ cmds, ∀ s : GlState, (s.step c).draw = s.draw) :
    (st.run cmds).draw = st.draw := by
  induction cmds generalizing st with
  | nil => rfl
  | cons c cs ih =>
    have := ih (st.step c) (fun d hd => h d (List.mem_cons_of_mem _ hd))
    simp only [GlState.run, List.foldl_cons] at this ⊢
    rw [this, h c (List.mem_cons_self _ _)]

/-- Offset uploads on the bound shader only extend its uniform list. -/
theorem run_offsetCmds (st : GlState) (s : Shader) (ups : List UniformUpload)
    (h : st.program = some s) :
    st.run (offsetCmds s ups) = { st with uniforms := st.uniforms ++ offsetUniforms ups } := by
  induction ups generalizing st with
  | nil => simp [GlState.run, offsetCmds, offsetUniforms]
  | cons u us ih =>
    have := ih (st.step (Cmd.uniform s u.name (.f4 u.value))) (by simp [GlState.step, h])
    simp only [GlState.run, offsetCmds, List.map_cons, List.foldl_cons, offsetUniforms] at this ⊢
    rw [this]
    simp [GlState.step, h]

/-- Offset uploads draw nothing. -/
theorem passesFrom_offsetCmds (st : GlState) (s : Shader) (ups : List UniformUpload) :
    passesFrom st (offsetCmds s ups) = [] := by
  induction ups generalizing st with
  | nil => simp [passesFrom, offsetCmds]
  | cons u us ih =>
    have := ih (st.step (Cmd.uniform s u.name (.f4 u.value)))
    simp only [offsetCmds, List.map_cons] at this ⊢
    simp [passesFrom, drawKind, this]

/-- Unfolding of `passesFrom` at a nonempty list. -/
theorem passesFrom_cons (st : GlState) (c : Cmd) (cs : List Cmd) :
    passesFrom st (c :: cs) =
      (match drawKind c with
       | some k => [⟨k, st.draw, st.program, st.samplers, st.uniforms⟩]
       | none => []) ++ passesFrom (st.step c) cs := rfl

/-- Luminance stage 0 draws `lumPass` and leaves `luminance_0` bound with no program. -/
theorem passesFrom_lumStage (st : GlState) (ups : List UniformUpload) (more : List Cmd) :
    passesFrom st (ExperimentalApp.lumStageCmds ups ++ more) =
      lumPass ups :: passesFrom ⟨.fbo .luminance_0, none, [], []⟩ more := by
  simp only [ExperimentalApp.lumStageCmds, List.append_assoc, List.cons_append, List.nil_append]
  rw [passesFrom_cons, passesFrom_cons, passesFrom_append, passesFrom_offsetCmds,
    run_offsetCmds _ _ _ rfl]
  simp [passesFrom, drawKind, GlState.step, lumPass]

/-- An averaging stage draws `avgPass` and leaves its framebuffer bound with no program. -/
theorem passesFrom_avgStage (st : GlState) (fb : Framebuffer) (ups : List UniformUpload)
    (src : Texture) (more : List Cmd) :
    passesFrom st (ExperimentalApp.avgStageCmds fb ups src ++ more) =
      avgPass fb ups src :: passesFrom ⟨.fbo fb, none, [], []⟩ more := by
  simp only [ExperimentalApp.avgStageCmds, List.append_assoc, List.cons_append, List.nil_append]
  rw [passesFrom_cons, passesFrom_cons, passesFrom_append, passesFrom_offsetCmds,
    run_offsetCmds _ _ _ rfl]
  simp [passesFrom, drawKind, GlState.step, avgPass]

/-- Read-back, bright, blur and tonemap draw three passes and leave the window bound. -/
theorem passesFrom_tail (st : GlState) (f : Frame) (app : ExperimentalApp) (more : List Cmd) :
    passesFrom st (ExperimentalApp.readbackCmds ++ (ExperimentalApp.brightCmds app ++
      (ExperimentalApp.blurCmds f ++ (ExperimentalApp.tonemapCmds f app ++ more)))) =
      brightPass app :: blurPass f :: tonemapPass f app :: passesFrom ⟨.window, none, [], []⟩ more := by
  simp [ExperimentalApp.readbackCmds, ExperimentalApp.brightCmds, ExperimentalApp.blurCmds,
    ExperimentalApp.tonemapCmds, passesFrom, drawKind, GlState.step, brightPass, blurPass, tonemapPass]

/-- After the forward part the scene framebuffer is bound and no program is. -/
theorem forwardCmds_run (f : Frame) (app : ExperimentalApp) :
    GlState.init.run (ExperimentalApp.forwardCmds f app) = ⟨.fbo .sceneFramebuffer, none, [], []⟩ := by
  have hl : ∀ c ∈ app.lightCmds ++ ExperimentalApp.modelCmds f app,
      ∀ s : GlState, (s.step c).draw = s.draw := by
    intro c hc s
    simp only [ExperimentalApp.lightCmds, ExperimentalApp.modelCmds, List.mem_append, List.mem_flatten,
      List.mem_map] at hc
    rcases hc with ⟨l, ⟨a, -, rfl⟩, hc⟩ | ⟨l, ⟨a, -, rfl⟩, hc⟩
    · simp only [List.mem_cons, List.mem_singleton, List.not_mem_nil, or_false] at hc
      rcases hc with rfl | rfl <;> (simp only [GlState.step]; split <;> rfl)
    · simp only [List.mem_cons, List.mem_singleton, List.not_mem_nil, or_false] at hc
      rcases hc with rfl | rfl | rfl
      · simp only [GlState.step]; split <;> rfl
      · simp only [GlState.step]; split <;> rfl
      · rfl
  have hd := run_draw ((GlState.init.run [ .glfwMakeContextCurrent, .glEnable .GL_CULL_FACE,
    .glEnable .GL_DEPTH_TEST, .glEnable .GL_FRAMEBUFFER_SRGB, .glEnable .GL_BLEND, .glBlendFunc,
    .glViewport 0 0 f.width f.height, .glClearColor, .glClear, .gl_check_error,
    .bind_to_draw .sceneFramebuffer, .glClear, .skydome_render,
    .bind .hdr_meshShader,
    .uniform .hdr_meshShader "u_eye" (.f3 f.eye),
    .uniform .hdr_meshShader "u_viewProj" (.float4x4 f.viewProj),
    .uniform .hdr_meshShader "u_emissive" (.f3 (1 / 10, 1 / 10, 1 / 10)),
    .uniform .hdr_meshShader "u_diffuse" (.f3 (4 / 10, 425 / 1000, 415 / 1000)),
    .uniform .hdr_meshShader "useNormal" (.int 0) ])) _ hl
  simp only [ExperimentalApp.forwardCmds, List.append_assoc, run_append]
  rw [← run_append _ app.lightCmds]
  generalize GlState.run (GlState.run GlState.init _) (app.lightCmds ++ ExperimentalApp.modelCmds f app) = s at hd ⊢
  have hd' : s.draw = .fbo .sceneFramebuffer := by
    rw [hd]; rfl
  simp [GlState.run, GlState.step, hd']

/-- The forward part issues no `draw_elements`. -/
theorem forwardCmds_noQuad (f : Frame) (app : ExperimentalApp) :
    ∀ c ∈ ExperimentalApp.forwardCmds f app, drawKind c ≠ some .quad := by
  intro c hc
  simp only [ExperimentalApp.forwardCmds, ExperimentalApp.lightCmds, ExperimentalApp.modelCmds,
    List.mem_append, List.mem_flatten, List.mem_map, List.mem_cons, List.mem_singleton,
    List.not_mem_nil, or_false] at hc
  rcases hc with ((hc | ⟨l, ⟨a, -, rfl⟩, hc⟩) | ⟨l, ⟨a, -, rfl⟩, hc⟩) | hc
  · rcases hc with rfl | rfl | rfl | rfl | rfl | rfl | rfl | rfl | rfl | rfl | rfl | rfl | rfl | rfl |
      rfl | rfl | rfl | rfl | rfl <;> simp [drawKind]
  · simp only [List.mem_cons, List.mem_singleton, List.not_mem_nil, or_false] at hc
    rcases hc with rfl | rfl <;> simp [drawKind]
  · simp only [List.mem_cons, List.mem_singleton, List.not_mem_nil, or_false] at hc
    rcases hc with rfl | rfl | rfl <;> simp [drawKind]
  · rcases hc with rfl | rfl | rfl | rfl | rfl | rfl <;> simp [drawKind]

/-- The debug part issues no `draw_elements`. -/
theorem debugCmds_noQuad (f : Frame) (app : ExperimentalApp) :
    ∀ c ∈ ExperimentalApp.debugCmds f app, drawKind c ≠ some .quad := by
  intro c hc
  simp only [ExperimentalApp.debugCmds, List.mem_append, List.mem_map, List.mem_cons,
    List.mem_singleton, List.not_mem_nil, or_false] at hc
  rcases hc with ((rfl | rfl | rfl) | ⟨a, -, rfl⟩) | (rfl | rfl) <;> simp [drawKind]

/-- Every frame draws: `on_draw` returns, with the frame counter advanced and the eight quad passes
of `pipelinePasses`. -/
theorem on_draw_eq (f : Frame) (app : ExperimentalApp) :
    ExperimentalApp.on_draw f app = some (app.next_frame, frameCmds f app) ∧
      quadPasses (frameCmds f app) = pipelinePasses f app := by
  refine ⟨?_, ?_⟩
  · simp only [ExperimentalApp.on_draw, luminance_offset_2x2_eq, luminance_offset_4x4_eq]
    rfl
  · simp only [quadPasses, passes, frameCmds, List.append_assoc]
    rw [passesFrom_append, forwardCmds_run, List.filter_append,
      passesFrom_filter_quad _ _ (forwardCmds_noQuad f app), passesFrom_lumStage,
      passesFrom_avgStage, passesFrom_avgStage, passesFrom_avgStage, passesFrom_avgStage,
      passesFrom_tail]
    simp only [List.nil_append, List.filter_cons, pipelinePasses]
    rw [passesFrom_filter_quad _ _ (debugCmds_noQuad f app)]
    simp [lumPass, avgPass, brightPass, blurPass, tonemapPass]

/-! ### States reached by the callbacks -/

/-- The constructor's textures, attachments and tone-map defaults are never changed by a callback, and
a reachable state exists only if every framebuffer answered complete. -/
theorem Reachable.frozen {check_complete : Framebuffer → Bool} {width height : Int}
    {app : ExperimentalApp} (hr : Reachable check_complete width height app) :
    (∀ fb, check_complete fb = true) ∧
      app.textures = (ExperimentalApp.built width height).textures ∧
      app.attachments = (ExperimentalApp.built width height).attachments ∧
      app.middleGrey = 18 / 100 ∧ app.whitePoint = 11 / 10 ∧ app.threshold = 15 / 10 := by
  induction hr with
  | constructed h =>
    obtain ⟨hall, rfl⟩ := (ExperimentalApp_ok_iff _ _ _ _).mp h
    exact ⟨hall, rfl, rfl, rfl, rfl, rfl⟩
  | on_input _ ih => exact ih
  | on_update _ _ ih => exact ih
  | on_draw f _ h ih =>
    rw [(on_draw_eq f _).1] at h
    cases h
    exact ih

/-! ### The claims -/

/-- C1: for every window size the constructor of `ExperimentalApp`, when it returns, has built a
luminance chain of exactly five square surfaces of sizes 128, 64, 16, 4, 1 in that order: the sizes
do not mention `width` or `height`, are strictly decreasing, and the last surface is 1x1. -/
theorem luminance_chain_shape (check_complete : Framebuffer → Bool) (width height : Int)
    (app : ExperimentalApp)
    (h : ExperimentalApp.ExperimentalApp check_complete width height = .ok app) :
    ∃ imgs : List TexImage, app.luminanceChain = imgs.map some ∧
      imgs.map (fun i => (i.width, i.height)) = [(128, 128), (64, 64), (16, 16), (4, 4), (1, 1)] ∧
      imgs.length = 5 ∧ (∀ i ∈ imgs, i.width = i.height) ∧
      imgs.Pairwise (fun a b => b.width < a.width ∧ b.height < a.height) ∧
      imgs.getLast?.map (fun i => (i.width, i.height)) = some (1, 1) := by
  obtain ⟨-, rfl⟩ := (ExperimentalApp_ok_iff _ _ _ _).mp h
  refine ⟨[⟨128, 128, .GL_SRGB8_ALPHA8, .GL_BGRA, .GL_UNSIGNED_BYTE, .white⟩,
    ⟨64, 64, .GL_SRGB8_ALPHA8, .GL_BGRA, .GL_UNSIGNED_BYTE, .white⟩,
    ⟨16, 16, .GL_SRGB8_ALPHA8, .GL_BGRA, .GL_UNSIGNED_BYTE, .white⟩,
    ⟨4, 4, .GL_SRGB8_ALPHA8, .GL_BGRA, .GL_UNSIGNED_BYTE, .white⟩,
    ⟨1, 1, .GL_SRGB8_ALPHA8, .GL_BGRA, .GL_UNSIGNED_BYTE, .white⟩], ?_, ?_, ?_, ?_, ?_, ?_⟩
  · simp [ExperimentalApp.luminanceChain, ExperimentalApp.image, ExperimentalApp.built]
  · rfl
  · rfl
  · simp
  · simp
  · rfl

/-- At 1280x720 with every framebuffer complete the constructor returns, and the chain is as stated. -/
theorem luminance_chain_shape_witness :
    ExperimentalApp.ExperimentalApp (fun _ => true) 1280 720 = .ok (ExperimentalApp.built 1280 720) ∧
    ∃ imgs : List TexImage, (ExperimentalApp.built 1280 720).luminanceChain = imgs.map some ∧
      imgs.map (fun i => (i.width, i.height)) = [(128, 128), (64, 64), (16, 16), (4, 4), (1, 1)] ∧
      imgs.length = 5 ∧ (∀ i ∈ imgs, i.width = i.height) ∧
      imgs.Pairwise (fun a b => b.width < a.width ∧ b.height < a.height) ∧
      imgs.getLast?.map (fun i => (i.width, i.height)) = some (1, 1) :=
  ⟨ExperimentalApp_of_complete _ _ _ (fun _ => rfl),
   luminance_chain_shape (fun _ => true) 1280 720 _ (ExperimentalApp_of_complete _ _ _ (fun _ => rfl))⟩

/-- C2: in every frame of a constructed `ExperimentalApp`, `on_draw` returns and its eight quad passes
write `luminance_0 .. luminance_4`, bright, blur and the window in that order; stage 0 samples only
the scene colour texture, each stage `k` in `1..4` samples only the texture attached to the
framebuffer stage `k-1` wrote (`luminanceTex_(k-1)`), and the bright and tonemap passes read
`luminanceTex_4`, the 1x1 texture attached to the framebuffer of stage 4. -/
theorem luminance_stage_chaining (check_complete : Framebuffer → Bool) (width height : Int)
    (app : ExperimentalApp) (hr : Reachable check_complete width height app) (f : Frame) :
    ∃ app' cmds, ExperimentalApp.on_draw f app = some (app', cmds) ∧
      (quadPasses cmds).map (fun p => p.target) =
        [.fbo .luminance_0, .fbo .luminance_1, .fbo .luminance_2, .fbo .luminance_3,
         .fbo .luminance_4, .fbo .brightFramebuffer, .fbo .blurFramebuffer, .window] ∧
      (quadPasses cmds).map (fun p => p.samplers.map (fun e => e.2.2)) =
        [[.sceneColorTexture], [.luminanceTex_0], [.luminanceTex_1], [.luminanceTex_2],
         [.luminanceTex_3], [.sceneColorTexture, .luminanceTex_4], [.brightTex],
         [.sceneColorTexture, .luminanceTex_4, .blurTex]] ∧
      (∀ k, 1 ≤ k → k ≤ 4 → ∃ p q fb t, (quadPasses cmds)[k]? = some p ∧
        (quadPasses cmds)[k - 1]? = some q ∧ q.target = .fbo fb ∧
        app.colorAttachment fb = some t ∧ p.samplers = [("s_texColor", 0, t)]) ∧
      (∃ p4 pb pt, (quadPasses cmds)[4]? = some p4 ∧ (quadPasses cmds)[5]? = some pb ∧
        (quadPasses cmds)[7]? = some pt ∧ p4.target = .fbo .luminance_4 ∧
        app.colorAttachment .luminance_4 = some .luminanceTex_4 ∧
        pb.sampler "s_texLum" = some .luminanceTex_4 ∧ pt.sampler "s_texLum" = some .luminanceTex_4 ∧
        (app.image .luminanceTex_4).map (fun i => (i.width, i.height)) = some (1, 1)) := by
  obtain ⟨-, htex, hatt, -⟩ := hr.frozen
  refine ⟨_, _, (on_draw_eq f app).1, ?_⟩
  rw [(on_draw_eq f app).2]
  refine ⟨rfl, rfl, ?_, ?_⟩
  · intro k h1 h4
    have hca : ∀ fb, app.colorAttachment fb = (ExperimentalApp.built width height).colorAttachment fb := by
      intro fb; simp only [ExperimentalApp.colorAttachment, hatt]
    interval_cases k
    · exact ⟨_, _, .luminance_0, .luminanceTex_0, rfl, rfl, rfl, by rw [hca]; rfl, rfl⟩
    · exact ⟨_, _, .luminance_1, .luminanceTex_1, rfl, rfl, rfl, by rw [hca]; rfl, rfl⟩
    · exact ⟨_, _, .luminance_2, .luminanceTex_2, rfl, rfl, rfl, by rw [hca]; rfl, rfl⟩
    · exact ⟨_, _, .luminance_3, .luminanceTex_3, rfl, rfl, rfl, by rw [hca]; rfl, rfl⟩
  · refine ⟨_, _, _, rfl, rfl, rfl, rfl, ?_, ?_, ?_, ?_⟩
    · simp only [ExperimentalApp.colorAttachment, hatt]; rfl
    · rfl
    · rfl
    · simp only [ExperimentalApp.image, htex]; rfl

/-- The first frame after construction at 1280x720 with every framebuffer complete. -/
theorem luminance_stage_chaining_witness :
    Reachable (fun _ => true) 1280 720 (ExperimentalApp.built 1280 720) ∧
    ∃ app' cmds, ExperimentalApp.on_draw Frame.still (ExperimentalApp.built 1280 720) = some (app', cmds) ∧
      (quadPasses cmds).map (fun p => p.target) =
        [.fbo .luminance_0, .fbo .luminance_1, .fbo .luminance_2, .fbo .luminance_3,
         .fbo .luminance_4, .fbo .brightFramebuffer, .fbo .blurFramebuffer, .window] ∧
      (quadPasses cmds).map (fun p => p.samplers.map (fun e => e.2.2)) =
        [[.sceneColorTexture], [.luminanceTex_0], [.luminanceTex_1], [.luminanceTex_2],
         [.luminanceTex_3], [.sceneColorTexture, .luminanceTex_4], [.brightTex],
         [.sceneColorTexture, .luminanceTex_4, .blurTex]] := by
  have hr : Reachable (fun _ => true) 1280 720 (ExperimentalApp.built 1280 720) :=
    Reachable.constructed (ExperimentalApp_of_complete _ _ _ (fun _ => rfl))
  obtain ⟨app', cmds, h1, h2, h3, -⟩ :=
    luminance_stage_chaining (fun _ => true) 1280 720 _ hr Frame.still
  exact ⟨hr, app', cmds, h1, h2, h3⟩

/-- C3: for every size with positive components `luminance_offset_4x4` uploads exactly the sixteen
uniforms `u_offset[0] .. u_offset[15]`; for `xx, yy` in `0..3` the upload with index `4 * yy + xx` has
`x = (xx - 1) / sx` and `y = (yy - 1) / sy`; and measured in texels of the given size the `x` and the
`y` components take exactly the values -1, 0, 1, 2. -/
theorem luminance_offset_4x4_taps (stack : Nat → float4 ℚ) (sx sy : ℚ)
    (hx : 0 < sx) (hy : 0 < sy) :
    ∃ ups, luminance_offset_4x4 stack ⟨sx, sy⟩ = some ups ∧ ups.length = 16 ∧
      ups.map (fun u => u.name) =
        ["u_offset[0]", "u_offset[1]", "u_offset[2]", "u_offset[3]", "u_offset[4]", "u_offset[5]",
         "u_offset[6]", "u_offset[7]", "u_offset[8]", "u_offset[9]", "u_offset[10]", "u_offset[11]",
         "u_offset[12]", "u_offset[13]", "u_offset[14]", "u_offset[15]"] ∧
      (∀ xx yy : Nat, xx < 4 → yy < 4 → ∃ u, ups[4 * yy + xx]? = some u ∧
        u.name = "u_offset[" ++ toString (4 * yy + xx) ++ "]" ∧
        u.value.x = ((xx : ℚ) - 1) / sx ∧ u.value.y = ((yy : ℚ) - 1) / sy) ∧
      (∀ v : ℚ, v ∈ ups.map (fun u => u.value.x * sx) ↔ v = -1 ∨ v = 0 ∨ v = 1 ∨ v = 2) ∧
      (∀ v : ℚ, v ∈ ups.map (fun u => u.value.y * sy) ↔ v = -1 ∨ v = 0 ∨ v = 1 ∨ v = 2) := by
  refine ⟨_, luminance_offset_4x4_eq stack ⟨sx, sy⟩, by simp [taps_4x4], rfl, ?_, ?_, ?_⟩
  · intro xx yy hxx hyy
    interval_cases xx <;> interval_cases yy <;>
      simp [taps_4x4, List.range, List.range.loop, div_eq_mul_inv]
  · intro v
    have hx' : sx ≠ 0 := ne_of_gt hx
    simp [taps_4x4, List.range, List.range.loop, hx']
    constructor
    · rintro (rfl | rfl | rfl | rfl | rfl | rfl | rfl | rfl | rfl | rfl | rfl | rfl | rfl | rfl |
        rfl | rfl) <;> norm_num
    · rintro (rfl | rfl | rfl | rfl) <;> norm_num
  · intro v
    have hy' : sy ≠ 0 := ne_of_gt hy
    simp [taps_4x4, List.range, List.range.loop, hy']
    constructor
    · rintro (rfl | rfl | rfl | rfl | rfl | rfl | rfl | rfl | rfl | rfl | rfl | rfl | rfl | rfl |
        rfl | rfl) <;> norm_num
    · rintro (rfl | rfl | rfl | rfl) <;> norm_num

/-- The call of luminance stage 1, `luminance_offset_4x4(shader, float2(128, 128))`, on a zeroed stack. -/
theorem luminance_offset_4x4_taps_witness :
    (0 : ℚ) < 128 ∧
    ∃ ups, luminance_offset_4x4 (fun _ => ⟨0, 0, 0, 0⟩) ⟨128, 128⟩ = some ups ∧ ups.length = 16 ∧
      (∀ v : ℚ, v ∈ ups.map (fun u => u.value.x * 128) ↔ v = -1 ∨ v = 0 ∨ v = 1 ∨ v = 2) := by
  obtain ⟨ups, h1, h2, -, -, h5, -⟩ :=
    luminance_offset_4x4_taps (fun _ => ⟨0, 0, 0, 0⟩) 128 128 (by norm_num) (by norm_num)
  exact ⟨by norm_num, ups, h1, h2, h5⟩

/-- C4: for every size with positive components `luminance_offset_2x2` uploads exactly the nine
uniforms `u_offset[0] .. u_offset[8]`, a 3x3 grid: for `xx, yy` in `0..2` the upload with index
`3 * yy + xx` has `x = xx / sx` and `y = yy / sy`; every upload carries an index below 9. -/
theorem luminance_offset_2x2_taps (stack : Nat → float4 ℚ) (sx sy : ℚ)
    (hx : 0 < sx) (hy : 0 < sy) :
    ∃ ups, luminance_offset_2x2 stack ⟨sx, sy⟩ = some ups ∧ ups.length = 9 ∧
      ups.map (fun u => u.name) =
        ["u_offset[0]", "u_offset[1]", "u_offset[2]", "u_offset[3]", "u_offset[4]", "u_offset[5]",
         "u_offset[6]", "u_offset[7]", "u_offset[8]"] ∧
      (∀ xx yy : Nat, xx < 3 → yy < 3 → ∃ u, ups[3 * yy + xx]? = some u ∧
        u.name = "u_offset[" ++ toString (3 * yy + xx) ++ "]" ∧
        u.value.x = (xx : ℚ) / sx ∧ u.value.y = (yy : ℚ) / sy) ∧
      (∀ u ∈ ups, ∃ n, n < 9 ∧ u.name = "u_offset[" ++ toString n ++ "]") ∧
      (∀ v : ℚ, v ∈ ups.map (fun u => u.value.x * sx) ↔ v = 0 ∨ v = 1 ∨ v = 2) ∧
      (∀ v : ℚ, v ∈ ups.map (fun u => u.value.y * sy) ↔ v = 0 ∨ v = 1 ∨ v = 2) := by
  refine ⟨_, luminance_offset_2x2_eq stack ⟨sx, sy⟩, by simp [taps_2x2], rfl, ?_, ?_, ?_, ?_⟩
  · intro xx yy hxx hyy
    interval_cases xx <;> interval_cases yy <;>
      simp [taps_2x2, List.range, List.range.loop, div_eq_mul_inv]
  · intro u hu
    simp only [taps_2x2, List.mem_map, List.mem_range] at hu
    obtain ⟨n, hn, rfl⟩ := hu
    exact ⟨n, hn, rfl⟩
  · intro v
    have hx' : sx ≠ 0 := ne_of_gt hx
    simp [taps_2x2, List.range, List.range.loop, hx']
    constructor
    · rintro (rfl | rfl | rfl | rfl | rfl | rfl | rfl | rfl | rfl) <;> norm_num
    · rintro (rfl | rfl | rfl) <;> norm_num
  · intro v
    have hy' : sy ≠ 0 := ne_of_gt hy
    simp [taps_2x2, List.range, List.range.loop, hy']

/-- The call of luminance stage 0, `luminance_offset_2x2(shader, float2(128, 128))`, on a zeroed stack. -/
theorem luminance_offset_2x2_taps_witness :
    (0 : ℚ) < 128 ∧
    ∃ ups, luminance_offset_2x2 (fun _ => ⟨0, 0, 0, 0⟩) ⟨128, 128⟩ = some ups ∧ ups.length = 9 ∧
      (∀ v : ℚ, v ∈ ups.map (fun u => u.value.x * 128) ↔ v = 0 ∨ v = 1 ∨ v = 2) := by
  obtain ⟨ups, h1, h2, -, -, -, h5, -⟩ :=
    luminance_offset_2x2_taps (fun _ => ⟨0, 0, 0, 0⟩) 128 128 (by norm_num) (by norm_num)
  exact ⟨by norm_num, ups, h1, h2, h5⟩

/-- C5: over the reals, with `exp2` the base-2 exponential, `decodeRE8 re8` is
`re8.x * 2 ^ (re8.w * 255 - 128)`; it does not depend on the channels `y` and `z`; and this is the
value `on_draw` prints for the read-back pixel. -/
theorem decodeRE8_formula (re8 : float4 ℝ) :
    decodeRE8 (fun e : ℝ => (2 : ℝ) ^ e) re8 = re8.x * (2 : ℝ) ^ (re8.w * 255 - 128) ∧
    (∀ y z : ℝ, decodeRE8 (fun e : ℝ => (2 : ℝ) ^ e) ⟨re8.x, y, z, re8.w⟩ =
      decodeRE8 (fun e : ℝ => (2 : ℝ) ^ e) re8) ∧
    (∀ (f : Frame) (app : ExperimentalApp),
      Cmd.cout_float (f.lumValue.x * f.exp2 (f.lumValue.w * 255 - 128)) ∈ frameCmds f app) := by
  refine ⟨rfl, fun _ _ => rfl, fun f app => ?_⟩
  simp [frameCmds, ExperimentalApp.debugCmds, decodeRE8]

/-- Inside the representable range the encoder's exponent is the ceiling of the base-2 logarithm. -/
theorem encodeExponent_spec (L : ℚ) (hlo : (2 : ℚ) ^ (-128 : ℤ) ≤ L) (hhi : L ≤ (2 : ℚ) ^ (127 : ℤ)) :
    -128 ≤ encodeExponent L ∧ encodeExponent L ≤ 127 ∧ L ≤ (2 : ℚ) ^ encodeExponent L ∧
      (2 : ℚ) ^ (encodeExponent L - 1) < L := by
  have hpos : (0 : ℚ) < L := lt_of_lt_of_le (by positivity) hlo
  have h127 : Int.clog 2 L ≤ 127 := (Int.le_zpow_iff_clog_le (by norm_num) hpos).mp (by exact_mod_cast hhi)
  have h128 : -128 ≤ Int.clog 2 L := by
    by_contra hlt
    push_neg at hlt
    have h1 : Int.clog 2 L ≤ -129 := by omega
    have h2 : L ≤ ((2 : ℕ) : ℚ) ^ (-129 : ℤ) := (Int.le_zpow_iff_clog_le (by norm_num) hpos).mpr h1
    have h3 : ((2 : ℕ) : ℚ) ^ (-129 : ℤ) < (2 : ℚ) ^ (-128 : ℤ) := by
      norm_num
    linarith
  have he : encodeExponent L = Int.clog 2 L := by
    simp only [encodeExponent]
    rw [min_eq_right h127, max_eq_right h128]
  rw [he]
  refine ⟨h128, h127, ?_, ?_⟩
  · exact_mod_cast Int.self_le_zpow_clog (by norm_num : 1 < 2) L
  · exact_mod_cast Int.zpow_pred_clog_lt_self (by norm_num : 1 < 2) hpos

/-- C6: for every luminance `L` in the representable exponent range `2 ^ (-128) ≤ L ≤ 2 ^ 127`,
decoding the encoded value gives `L` back within one mantissa quantisation step of the 8-bit split:
within `1 / 255` of the scale `2 ^ e` of the stored exponent, and within `L / 255`.  The library
function `exp2` enters only through its values at integers. -/
theorem decodeRE8_encodeRE8 (exp2 : ℚ → ℚ) (hexp2 : ∀ n : ℤ, exp2 (n : ℚ) = (2 : ℚ) ^ n) (L : ℚ)
    (hlo : (2 : ℚ) ^ (-128 : ℤ) ≤ L) (hhi : L ≤ (2 : ℚ) ^ (127 : ℤ)) :
    |decodeRE8 exp2 (encodeRE8 L) - L| ≤ (1 / 255) * (2 : ℚ) ^ encodeExponent L ∧
      |decodeRE8 exp2 (encodeRE8 L) - L| ≤ (1 / 255) * L := by
  obtain ⟨h1, h2, h3, h4⟩ := encodeExponent_spec L hlo hhi
  have hpos : (0 : ℚ) < L := lt_of_lt_of_le (by positivity) hlo
  set e := encodeExponent L with he
  have hp : (0 : ℚ) < (2 : ℚ) ^ e := by positivity
  set m := L / (2 : ℚ) ^ e with hm
  have hm0 : 0 ≤ m := by positivity
  have hm1 : m ≤ 1 := by rw [hm, div_le_one hp]; exact h3
  have hr0 : 0 ≤ round (m * 255) := by
    rw [round_eq, Int.floor_nonneg]
    positivity
  have hr1 : round (m * 255) ≤ 255 := by
    have : round (m * 255) < 256 := by
      rw [round_eq, Int.floor_lt]
      push_cast
      linarith
    omega
  have hdec : decodeRE8 exp2 (encodeRE8 L) = ((round (m * 255) : ℤ) : ℚ) / 255 * (2 : ℚ) ^ e := by
    simp only [decodeRE8, encodeRE8]
    rw [← he, ← hm, max_eq_right hr0, min_eq_right hr1]
    have : (((e + 128 : ℤ) : ℚ) / 255 * 255 - 128) = ((e : ℤ) : ℚ) := by
      push_cast; ring
    rw [this, hexp2]
  have hL : L = m * (2 : ℚ) ^ e := by rw [hm]; field_simp
  have hq : |((round (m * 255) : ℤ) : ℚ) / 255 - m| ≤ 1 / 510 := by
    have := abs_sub_round (m * 255)
    have h' : ((round (m * 255) : ℤ) : ℚ) / 255 - m = -(m * 255 - round (m * 255)) / 255 := by ring
    rw [h', abs_div, abs_neg]
    have : |m * 255 - ↑(round (m * 255))| / |(255 : ℚ)| ≤ (1 / 2) / 255 := by
      rw [abs_of_pos (by norm_num : (0 : ℚ) < 255)]
      exact div_le_div_of_nonneg_right this (by norm_num)
    linarith
  have herr : |decodeRE8 exp2 (encodeRE8 L) - L| ≤ (1 / 510) * (2 : ℚ) ^ e := by
    rw [hdec]
    have : ((round (m * 255) : ℤ) : ℚ) / 255 * (2 : ℚ) ^ e - L =
        (((round (m * 255) : ℤ) : ℚ) / 255 - m) * (2 : ℚ) ^ e := by
      rw [hL]; ring
    rw [this, abs_mul, abs_of_pos hp]
    exact mul_le_mul_of_nonneg_right hq hp.le
  constructor
  · calc |decodeRE8 exp2 (encodeRE8 L) - L| ≤ (1 / 510) * (2 : ℚ) ^ e := herr
      _ ≤ (1 / 255) * (2 : ℚ) ^ e := by
        apply mul_le_mul_of_nonneg_right (by norm_num) hp.le
  · have h5 : (2 : ℚ) ^ e = 2 * (2 : ℚ) ^ (e - 1) := by
      rw [zpow_sub_one₀ (by norm_num : (2 : ℚ) ≠ 0)]; field_simp
    calc |decodeRE8 exp2 (encodeRE8 L) - L| ≤ (1 / 510) * (2 : ℚ) ^ e := herr
      _ = (1 / 255) * (2 : ℚ) ^ (e - 1) := by rw [h5]; ring
      _ ≤ (1 / 255) * L := by
        apply mul_le_mul_of_nonneg_left h4.le (by norm_num)

/-- The round trip at `L = 1`, with `exp2` the power of two of the integer part. -/
theorem decodeRE8_encodeRE8_witness :
    (∀ n : ℤ, (fun q : ℚ => (2 : ℚ) ^ ⌊q⌋) (n : ℚ) = (2 : ℚ) ^ n) ∧
    (2 : ℚ) ^ (-128 : ℤ) ≤ 1 ∧ (1 : ℚ) ≤ (2 : ℚ) ^ (127 : ℤ) ∧
    |decodeRE8 (fun q : ℚ => (2 : ℚ) ^ ⌊q⌋) (encodeRE8 1) - 1| ≤ (1 / 255) * 1 :=
  ⟨fun n => by simp, by norm_num, by norm_num,
   (decodeRE8_encodeRE8 (fun q : ℚ => (2 : ℚ) ^ ⌊q⌋) (fun n => by simp) 1
      (by norm_num) (by norm_num)).2⟩

/-- C7: in every frame the bright pass and the tonemap pass both see, as `u_tonemap`, the vector
`(middleGrey, whitePoint * whitePoint, threshold, time)` of the state the frame starts in; with the
default parameters its first three components are 0.18, 1.21 and 1.5, and the parameters of every
state the callbacks reach from the constructor are the defaults. -/
theorem tonemap_vector (f : Frame) (app : ExperimentalApp) :
    (∃ cmds pb pt, ExperimentalApp.on_draw f app = some (app.next_frame, cmds) ∧
      (quadPasses cmds)[5]? = some pb ∧ (quadPasses cmds)[7]? = some pt ∧
      pb.shader = some .hdr_brightShader ∧ pt.shader = some .hdr_tonemapShader ∧
      pb.uniform "u_tonemap" =
        some (.f4 ⟨app.middleGrey, app.whitePoint * app.whitePoint, app.threshold, app.time⟩) ∧
      pt.uniform "u_tonemap" =
        some (.f4 ⟨app.middleGrey, app.whitePoint * app.whitePoint, app.threshold, app.time⟩) ∧
      (∀ e ∈ pb.uniforms ++ pt.uniforms, e.1 = "u_tonemap" → e.2 = .f4 app.tonemap)) ∧
    (app.middleGrey = 18 / 100 → app.whitePoint = 11 / 10 → app.threshold = 15 / 10 →
      app.tonemap.x = 18 / 100 ∧ app.tonemap.y = 121 / 100 ∧ app.tonemap.z = 15 / 10) ∧
    (∀ check_complete width height, Reachable check_complete width height app →
      app.tonemap.x = 18 / 100 ∧ app.tonemap.y = 121 / 100 ∧ app.tonemap.z = 15 / 10) := by
  have hdef : app.middleGrey = 18 / 100 → app.whitePoint = 11 / 10 → app.threshold = 15 / 10 →
      app.tonemap.x = 18 / 100 ∧ app.tonemap.y = 121 / 100 ∧ app.tonemap.z = 15 / 10 := by
    intro h1 h2 h3
    simp only [ExperimentalApp.tonemap, h1, h2, h3]
    norm_num
  refine ⟨⟨frameCmds f app, brightPass app, tonemapPass f app, (on_draw_eq f app).1, ?_, ?_, rfl, rfl,
    ?_, ?_, ?_⟩, hdef, ?_⟩
  · rw [(on_draw_eq f app).2]; rfl
  · rw [(on_draw_eq f app).2]; rfl
  · simp [Pass.uniform, brightPass, ExperimentalApp.tonemap]
  · simp [Pass.uniform, tonemapPass, ExperimentalApp.tonemap]
  · intro e he hn
    simp only [brightPass, tonemapPass, List.cons_append, List.nil_append, List.mem_cons,
      List.mem_singleton, List.not_mem_nil, or_false] at he
    rcases he with rfl | rfl | rfl | rfl | rfl | rfl
    · rfl
    · exact absurd hn (by simp)
    · rfl
    · exact absurd hn (by simp)
    · exact absurd hn (by simp)
    · rfl
  · intro c w h hr
    obtain ⟨-, -, -, h1, h2, h3⟩ := hr.frozen
    exact hdef h1 h2 h3

/-- C8: the constructor of `ExperimentalApp` throws exactly when one of its eight framebuffers
answers incomplete and returns exactly when all eight answer complete; hence in every state the
callbacks can reach all eight are complete, and every pass `on_draw` then issues into a member
framebuffer targets a complete one. -/
theorem constructor_completeness_gate (check_complete : Framebuffer → Bool) (width height : Int) :
    ((∃ what, ExperimentalApp.ExperimentalApp check_complete width height = .error what) ↔
        ∃ fb, check_complete fb = false) ∧
    ((∃ app, ExperimentalApp.ExperimentalApp check_complete width height = .ok app) ↔
        ∀ fb, check_complete fb = true) ∧
    ∀ app, Reachable check_complete width height app → ∀ f : Frame,
      ∃ app' cmds, ExperimentalApp.on_draw f app = some (app', cmds) ∧
        ∀ p ∈ passes cmds, ∀ fb, p.target = .fbo fb → check_complete fb = true := by
  have hok : (∃ app, ExperimentalApp.ExperimentalApp check_complete width height = .ok app) ↔
      ∀ fb, check_complete fb = true :=
    ⟨fun ⟨app, h⟩ => ((ExperimentalApp_ok_iff _ _ _ _).mp h).1,
     fun h => ⟨_, ExperimentalApp_of_complete _ _ _ h⟩⟩
  refine ⟨?_, hok, ?_⟩
  · constructor
    · rintro ⟨what, hw⟩
      by_contra hne
      push_neg at hne
      have hall : ∀ fb, check_complete fb = true := fun fb => by simpa using hne fb
      rw [ExperimentalApp_of_complete _ _ _ hall] at hw
      cases hw
    · rintro ⟨fb, hfb⟩
      cases hc : ExperimentalApp.ExperimentalApp check_complete width height with
      | error what => exact ⟨what, rfl⟩
      | ok app =>
        have := hok.mp ⟨app, hc⟩ fb
        rw [hfb] at this
        cases this
  · intro app hr f
    exact ⟨_, _, (on_draw_eq f app).1, fun p _ fb _ => hr.frozen.1 fb⟩

/-- With `luminance_2` incomplete the constructor throws; with everything complete it returns and
the first frame is drawn. -/
theorem constructor_completeness_gate_witness :
    (∃ what, ExperimentalApp.ExperimentalApp (fun fb => decide (fb ≠ .luminance_2)) 1280 720 = .error what) ∧
    (∃ app, ExperimentalApp.ExperimentalApp (fun _ => true) 1280 720 = .ok app) :=
  ⟨(constructor_completeness_gate _ 1280 720).1.mpr ⟨.luminance_2, by decide⟩,
   (constructor_completeness_gate _ 1280 720).2.1.mpr (fun _ => rfl)⟩

/-- The conversion leaves a whole number as it is. -/
theorem toGLint_intCast (n : Int) : toGLint (n : ℚ) = n := by
  simp [toGLint]

/-- The conversion of half an integer is the truncated quotient of `int` division. -/
theorem toGLint_half (w : Int) : toGLint ((w : ℚ) / 2) = Int.tdiv w 2 := by
  unfold toGLint
  have h2 : ((w : ℚ) / 2) = (w : ℚ) / ((2 : ℕ) : ℚ) := by norm_num
  split_ifs with h
  · have hw : 0 ≤ w := by
      have : (0 : ℚ) ≤ (w : ℚ) := by linarith
      exact_mod_cast this
    rw [h2, Rat.floor_intCast_div_natCast, Int.tdiv_eq_ediv hw (by norm_num)]
    rfl
  · push_neg at h
    have hw : w < 0 := by
      have : (w : ℚ) < 0 := by linarith
      exact_mod_cast this
    have : ⌈(w : ℚ) / 2⌉ = -⌊((-w : Int) : ℚ) / ((2 : ℕ) : ℚ)⌋ := by
      rw [← Int.ceil_neg]; congr 1; push_cast; ring
    have ht : w.tdiv 2 = -((-w) / 2) := by
      rw [← Int.tdiv_eq_ediv (by omega) (by norm_num), Int.neg_tdiv, neg_neg]
    rw [this, Rat.floor_intCast_div_natCast, ht]
    rfl

/-- The statement `check_complete()` returns exactly when the framebuffer is complete. -/
theorem check_complete_bind_ok {α : Type} (complete : Bool) (k : PUnit → Except String α) (a : α) :
    (GlFramebuffer.check_complete complete >>= k) = .ok a ↔
      complete = true ∧ k PUnit.unit = .ok a := by
  cases complete
  · simp [GlFramebuffer.check_complete, bind, Except.bind, throw, throwThe, MonadExceptOf.throw]
  · simp [GlFramebuffer.check_complete, bind, Except.bind, pure, Except.pure]

/-- With every framebuffer complete `Renderer::Renderer` returns a renderer of the size given, its
eye textures of that size converted to integers. -/
theorem Renderer_of_complete (complete : RendererFramebuffer → Bool) (renderSize : float2 ℚ)
    (h : ∀ fb, complete fb = true) :
    Renderer.Renderer complete renderSize =
      .ok { renderSize := renderSize,
            eyeTextures := [(.LeftEye, ⟨toGLint renderSize.x, toGLint renderSize.y⟩),
                            (.RightEye, ⟨toGLint renderSize.x, toGLint renderSize.y⟩)] } := by
  simp [Renderer.Renderer, check, GlFramebuffer.check_complete, h, bind, Except.bind, pure,
    Except.pure]

/-- `Renderer::Renderer` returns exactly when the multisample framebuffer and both eye framebuffers
are complete. -/
theorem Renderer_ok_iff (complete : RendererFramebuffer → Bool) (renderSize : float2 ℚ)
    (r : Renderer) :
    Renderer.Renderer complete renderSize = .ok r ↔
      (∀ fb, complete fb = true) ∧
      r = { renderSize := renderSize,
            eyeTextures := [(.LeftEye, ⟨toGLint renderSize.x, toGLint renderSize.y⟩),
                            (.RightEye, ⟨toGLint renderSize.x, toGLint renderSize.y⟩)] } := by
  constructor
  · intro hok
    have hall : ∀ fb, complete fb = true := by
      simp only [Renderer.Renderer, check_bind_ok, check_complete_bind_ok] at hok
      obtain ⟨h1, h2, h3, -⟩ := hok
      intro fb
      cases fb with
      | multisampleFramebuffer => exact h1
      | eyeFramebuffers eye => cases eye <;> assumption
    refine ⟨hall, ?_⟩
    rw [Renderer_of_complete complete renderSize hall] at hok
    exact (Except.ok.inj hok).symm
  · rintro ⟨hall, rfl⟩
    exact Renderer_of_complete complete renderSize hall

/-- C10 (the code departs from the claim): the head-mounted display initialises and recommends
1512x1680, the renderer of that size throws on its incomplete multisample framebuffer; the
constructor of `VirtualRealityApp` catches that error, builds a second renderer at 640x800 for the
1280x800 window and returns, with `hmd` still set. -/
theorem VirtualRealityApp_surface_error_caught :
    Renderer.Renderer (fun _ => false) ⟨1512, 1680⟩ = .error "Framebuffer incomplete!" ∧
    VirtualRealityApp.VirtualRealityApp (.ok ⟨(1512, 1680)⟩)
        (fun size _ => decide (size.x ≤ 1000)) 1280 800 =
      .ok { hmd := some ⟨(1512, 1680)⟩,
            renderer := { renderSize := ⟨640, 800⟩,
                          eyeTextures := [(.LeftEye, ⟨640, 800⟩), (.RightEye, ⟨640, 800⟩)] },
            swapInterval0 := false,
            cout := ["OpenVR Exception: Framebuffer incomplete!"] } := by
  constructor
  · rfl
  · have h1 : Renderer.Renderer (fun _ => false) ⟨1512, 1680⟩ =
        .error "Framebuffer incomplete!" := rfl
    have h2 : Renderer.Renderer (fun _ => true) ⟨640, 800⟩ =
        .ok { renderSize := ⟨640, 800⟩,
              eyeTextures := [(.LeftEye, ⟨640, 800⟩), (.RightEye, ⟨640, 800⟩)] } := rfl
    simp only [VirtualRealityApp.VirtualRealityApp, VirtualRealityApp.handler]
    norm_num
    rw [h1]
    simp only [h2]
    rfl

/-! ### Runs -/

/-- A call followed by more code. -/
theorem emit_bind {β : Type} (c : Call) (k : Unit → Run β) :
    (emit c >>= k) = ⟨c :: (k ()).calls, (k ()).result⟩ := rfl

/-- Calls followed by more code. -/
theorem emits_bind {β : Type} (cs : List Call) (k : Unit → Run β) :
    (emits cs >>= k) = ⟨cs ++ (k ()).calls, (k ()).result⟩ := rfl

/-- Code that returned, followed by more code. -/
theorem ok_bind {α β : Type} (cs : List Call) (a : α) (k : α → Run β) :
    ((⟨cs, .ok a⟩ : Run α) >>= k) = ⟨cs ++ (k a).calls, (k a).result⟩ := rfl

/-- Code that faulted, followed by more code. -/
theorem error_bind {α β : Type} (cs : List Call) (e : Fault) (k : α → Run β) :
    ((⟨cs, .error e⟩ : Run α) >>= k) = ⟨cs, .error e⟩ := rfl

/-- The calls of the forward loop when no material is null. -/
theorem forward_objects_ok (m : Linalg) (objs : List Renderable)
    (h : ∀ obj ∈ objs, obj.material ≠ none) :
    forward_objects m objs = ⟨(objs.map (object_calls m)).flatten, .ok ()⟩ := by
  induction objs with
  | nil => rfl
  | cons obj rest ih =>
    have hrest := ih (fun o ho => h o (List.mem_cons_of_mem _ ho))
    have hobj := h obj (List.mem_cons_self _ _)
    cases hm : obj.material with
    | none => exact absurd hm hobj
    | some mat =>
      simp only [forward_objects, hm, hrest, Run.bind, emits, List.map_cons, List.flatten_cons,
        object_calls]

/-- The forward loop issues object calls only, whether it returns or faults. -/
theorem forward_objects_calls (m : Linalg) (objs : List Renderable) :
    ∀ c ∈ (forward_objects m objs).calls, c.isMarker = false := by
  induction objs with
  | nil => intro c hc; simp [forward_objects, pure] at hc
  | cons obj rest ih =>
    intro c hc
    cases hm : obj.material with
    | none => simp [forward_objects, hm, fault] at hc
    | some mat =>
      simp only [forward_objects, hm, Run.bind, emits] at hc
      simp only [List.mem_append, List.mem_cons, List.mem_singleton, List.not_mem_nil,
        or_false] at hc
      rcases hc with (rfl | rfl | rfl) | hc
      · rfl
      · rfl
      · rfl
      · exact ih c hc

/-- The calls of `run_post_pass`. -/
theorem run_post_pass_eq (r : RendererState) : run_post_pass r = ⟨post_calls r, .ok ()⟩ := by
  simp only [run_post_pass, post_calls]
  cases r.renderPost <;> cases r.renderBloom <;> cases r.renderReflection <;>
    cases r.renderSSAO <;> cases r.renderSMAA <;> cases r.renderBlackout <;> rfl

/-- The loop body for one eye when no material is null. -/
theorem eye_pass_ok (m : Linalg) (r : RendererState) (eye : Eye)
    (h : ∀ obj ∈ r.renderSet, obj.material ≠ none) :
    eye_pass m r eye = ⟨eye_calls m r eye, .ok ()⟩ := by
  simp only [eye_pass, run_forward_pass, run_post_pass_eq, forward_objects_ok m _ h, eye_calls,
    eye_head, resolve_calls, run_skybox_pass, run_forward_wireframe_pass, run_shadow_pass]
  cases r.renderWireframe <;> cases r.renderShadows <;>
    simp [bind, Run.bind, emit, emits, pure]

/-- The frame when no material is null: the head, the left eye, the right eye; the render set is
cleared and nothing else changes. -/
theorem render_frame_ok (m : Linalg) (r : RendererState)
    (h : ∀ obj ∈ r.renderSet, obj.material ≠ none) :
    render_frame m r =
      ⟨frame_head ++ eye_calls m r .LeftEye ++ eye_calls m r .RightEye, .ok r.clear_renderSet⟩ := by
  simp only [render_frame, eye_pass_ok m r _ h, frame_head]
  simp [emits_bind, ok_bind, pure]

/-- Object calls are no markers. -/
theorem object_calls_filter (m : Linalg) (objs : List Renderable) :
    ((objs.map (object_calls m)).flatten).filter Call.isMarker = [] := by
  induction objs with
  | nil => rfl
  | cons obj rest ih =>
    simp only [List.map_cons, List.flatten_cons, List.filter_append, ih, List.append_nil]
    cases hm : obj.material <;> simp [object_calls, hm, Call.isMarker]

/-- The post pass issues markers only. -/
theorem post_calls_filter (r : RendererState) :
    (post_calls r).filter Call.isMarker = post_calls r := by
  simp only [post_calls]
  cases r.renderPost <;> cases r.renderBloom <;> cases r.renderReflection <;>
    cases r.renderSSAO <;> cases r.renderSMAA <;> cases r.renderBlackout <;> rfl

/-- The markers of the calls for one eye are its pass sequence. -/
theorem eye_calls_filter (m : Linalg) (r : RendererState) (eye : Eye) :
    (eye_calls m r eye).filter Call.isMarker = eye_sequence r := by
  simp only [eye_calls, List.filter_append, object_calls_filter, post_calls_filter, eye_sequence]
  cases r.renderWireframe <;> cases r.renderShadows <;>
    simp [eye_head, resolve_calls, Call.isMarker]

/-- The forward loop returns exactly when no material is null, and else faults on a null material. -/
theorem forward_objects_result (m : Linalg) (objs : List Renderable) :
    ((forward_objects m objs).result = .ok () ↔ ∀ obj ∈ objs, obj.material ≠ none) ∧
      ((forward_objects m objs).result ≠ .ok () →
        (forward_objects m objs).result = .error .null_material) := by
  induction objs with
  | nil => simp [forward_objects, pure]
  | cons obj rest ih =>
    cases hm : obj.material with
    | none => simp [forward_objects, hm, fault]
    | some mat =>
      simp only [forward_objects, hm, Run.bind, emits]
      simpa [hm] using ih

/-- The loop body for one eye in general: the calls up to the end of the forward loop, and the rest
only if that loop returned. -/
theorem eye_pass_eq (m : Linalg) (r : RendererState) (eye : Eye) :
    eye_pass m r eye =
      Run.bind ⟨eye_head m r eye ++ [.enter .run_skybox_pass, .enter .run_forward_pass] ++
          (forward_objects m r.renderSet).calls, (forward_objects m r.renderSet).result⟩
        (fun _ => ⟨(if r.renderWireframe then [Call.enter .run_forward_wireframe_pass] else []) ++
          (if r.renderShadows then [Call.enter .run_shadow_pass] else []) ++
          resolve_calls r eye ++ post_calls r, .ok ()⟩) := by
  simp only [eye_pass, run_forward_pass, run_post_pass_eq, eye_head, resolve_calls,
    run_skybox_pass, run_forward_wireframe_pass, run_shadow_pass]
  generalize forward_objects m r.renderSet = fo
  obtain ⟨cs, res⟩ := fo
  cases res <;> cases r.renderWireframe <;> cases r.renderShadows <;>
    simp [bind, Run.bind, emit, emits, pure]

/-- Every marker among the calls for one eye belongs to its pass sequence, fault or not. -/
theorem eye_pass_markers (m : Linalg) (r : RendererState) (eye : Eye) :
    ∀ c ∈ (eye_pass m r eye).calls, c.isMarker = true → c ∈ eye_sequence r := by
  intro c hc hmk
  rw [eye_pass_eq] at hc
  have hfo := forward_objects_calls m r.renderSet
  have hseq : ∀ d ∈ eye_head m r eye ++ [.enter .run_skybox_pass, .enter .run_forward_pass] ++
      (forward_objects m r.renderSet).calls ++
      ((if r.renderWireframe then [Call.enter .run_forward_wireframe_pass] else []) ++
          (if r.renderShadows then [Call.enter .run_shadow_pass] else []) ++
          resolve_calls r eye ++ post_calls r), d.isMarker = true → d ∈ eye_sequence r := by
    intro d hd hdm
    simp only [List.mem_append] at hd
    simp only [eye_sequence, List.mem_append]
    rcases hd with ((hd | hd) | hd) | (((hd | hd) | hd) | hd)
    · simp [eye_head] at hd
      rcases hd with rfl | rfl | rfl | rfl <;> simp [Call.isMarker] at hdm
    · exact Or.inl (Or.inl (Or.inl (Or.inl hd)))
    · rw [hfo d hd] at hdm; cases hdm
    · exact Or.inl (Or.inl (Or.inl (Or.inr hd)))
    · exact Or.inl (Or.inl (Or.inr hd))
    · simp [resolve_calls] at hd
      rcases hd with rfl | rfl | rfl | rfl
      · simp [Call.isMarker] at hdm
      · simp [Call.isMarker] at hdm
      · simp [Call.isMarker] at hdm
      · exact Or.inl (Or.inr (by simp))
    · exact Or.inr hd
  cases hres : (forward_objects m r.renderSet).result with
  | error e =>
    simp only [Run.bind, hres] at hc
    exact hseq c (List.mem_append_left _ hc) hmk
  | ok u =>
    simp only [Run.bind, hres] at hc
    exact hseq c hc hmk

/-- The frame in general: its calls lie in the head or in the calls of an eye, and when it returns
it returns the state with the render set cleared. -/
theorem render_frame_general (m : Linalg) (r : RendererState) :
    (∀ c ∈ (render_frame m r).calls,
      c ∈ frame_head ∨ c ∈ (eye_pass m r .LeftEye).calls ∨ c ∈ (eye_pass m r .RightEye).calls) ∧
    (∀ r', (render_frame m r).result = .ok r' → r' = r.clear_renderSet) := by
  simp only [render_frame, frame_head]
  generalize eye_pass m r .LeftEye = el
  generalize eye_pass m r .RightEye = er
  obtain ⟨cl, rl⟩ := el
  obtain ⟨cr, rr⟩ := er
  cases rl <;> cases rr <;> simp [bind, Run.bind, emits, pure] <;> tauto

/-- The stage entries among the calls of `run_post_pass`. -/
theorem mem_post_calls (r : RendererState) (s : Stage) :
    Call.enter s ∈ post_calls r ↔
      s = .run_post_pass ∨ (r.renderPost = true ∧
        ((s = .run_bloom_pass ∧ r.renderBloom = true) ∨
         (s = .run_reflection_pass ∧ r.renderReflection = true) ∨
         (s = .run_ssao_pass ∧ r.renderSSAO = true) ∨
         (s = .run_smaa_pass ∧ r.renderSMAA = true) ∨
         (s = .run_blackout_pass ∧ r.renderBlackout = true))) := by
  simp only [post_calls]
  cases r.renderPost <;> cases r.renderBloom <;> cases r.renderReflection <;>
    cases r.renderSSAO <;> cases r.renderSMAA <;> cases r.renderBlackout <;> simp

/-- The stage entries of the pass sequence of one eye. -/
theorem mem_eye_sequence (r : RendererState) (s : Stage) :
    Call.enter s ∈ eye_sequence r ↔
      s = .run_skybox_pass ∨ s = .run_forward_pass ∨
      (s = .run_forward_wireframe_pass ∧ r.renderWireframe = true) ∨
      (s = .run_shadow_pass ∧ r.renderShadows = true) ∨ Call.enter s ∈ post_calls r := by
  simp only [eye_sequence, List.mem_append]
  cases r.renderWireframe <;> cases r.renderShadows <;> simp <;> tauto

/-- The post pass has no resolve. -/
theorem post_calls_isResolve (r : RendererState) : (post_calls r).countP Call.isResolve = 0 := by
  simp only [post_calls]
  cases r.renderPost <;> cases r.renderBloom <;> cases r.renderReflection <;>
    cases r.renderSSAO <;> cases r.renderSMAA <;> cases r.renderBlackout <;> rfl

/-- Object calls are no resolves. -/
theorem object_calls_isResolve (m : Linalg) (objs : List Renderable) :
    ((objs.map (object_calls m)).flatten).countP Call.isResolve = 0 := by
  induction objs with
  | nil => rfl
  | cons obj rest ih =>
    simp only [List.map_cons, List.flatten_cons, List.countP_append, ih, add_zero]
    cases hm : obj.material <;> simp [object_calls, hm, Call.isResolve]

/-- The pass order of a frame without a null material: for every toggle state `render_frame` issues
its head, then the calls of the left eye, then those of the right eye; the pass markers of each eye
are, in order, sky box, forward geometry, the optional wireframe and shadow passes, the resolve
blit, `run_post_pass` and its optional stages; each eye has exactly one resolve. -/
theorem render_frame_resolve_order (m : Linalg) (r : RendererState)
    (h : ∀ obj ∈ r.renderSet, obj.material ≠ none) :
    (render_frame m r).calls = frame_head ++ eye_calls m r .LeftEye ++ eye_calls m r .RightEye ∧
    frame_head.filter Call.isMarker = [.enter .render_frame] ∧
    ∀ eye, (eye_calls m r eye).filter Call.isMarker =
        [.enter .run_skybox_pass, .enter .run_forward_pass] ++
        (if r.renderWireframe then [Call.enter .run_forward_wireframe_pass] else []) ++
        (if r.renderShadows then [Call.enter .run_shadow_pass] else []) ++
        [.glBlitFramebuffer (toGLint r.renderSize.x) (toGLint r.renderSize.y)] ++ post_calls r ∧
      (eye_calls m r eye).countP Call.isResolve = 1 ∧
      (post_calls r).head? = some (.enter .run_post_pass) ∧
      (∀ c ∈ post_calls r, ∃ s, c = .enter s ∧ s ∈ [Stage.run_post_pass, .run_bloom_pass,
        .run_reflection_pass, .run_ssao_pass, .run_smaa_pass, .run_blackout_pass]) := by
  refine ⟨by rw [render_frame_ok m r h], rfl, fun eye => ⟨?_, ?_, rfl, ?_⟩⟩
  · rw [eye_calls_filter]; rfl
  · simp only [eye_calls, List.countP_append, object_calls_isResolve, post_calls_isResolve]
    cases r.renderWireframe <;> cases r.renderShadows <;> rfl
  · intro c hc
    simp only [post_calls] at hc
    revert hc
    cases r.renderPost <;> cases r.renderBloom <;> cases r.renderReflection <;>
      cases r.renderSSAO <;> cases r.renderSMAA <;> cases r.renderBlackout <;>
      simp <;> (try rintro (rfl | rfl | rfl | rfl | rfl | rfl)) <;> simp

/-- A frame of the renderer with the wireframe, post and bloom toggles on and an empty render set. -/
theorem render_frame_resolve_order_witness :
    (∀ obj ∈ RendererState.wired.renderSet, obj.material ≠ none) ∧
    ∀ eye, (eye_calls Linalg.translations RendererState.wired eye).filter Call.isMarker =
      [.enter .run_skybox_pass, .enter .run_forward_pass, .enter .run_forward_wireframe_pass,
       .glBlitFramebuffer 640 800, .enter .run_post_pass, .enter .run_bloom_pass] :=
  ⟨fun _ ho => by simp [RendererState.wired, RendererState.still] at ho,
   fun eye => ((render_frame_resolve_order Linalg.translations RendererState.wired
      (fun _ ho => by simp [RendererState.wired, RendererState.still] at ho)).2.2 eye).1⟩

/-- The stage entries among the calls of a frame without a null material. -/
theorem mem_render_frame (m : Linalg) (r : RendererState)
    (h : ∀ obj ∈ r.renderSet, obj.material ≠ none) (s : Stage) :
    Call.enter s ∈ (render_frame m r).calls ↔ s = .render_frame ∨ Call.enter s ∈ eye_sequence r := by
  have hmem : ∀ l : List Call, Call.enter s ∈ l ↔ Call.enter s ∈ l.filter Call.isMarker := by
    intro l; simp [List.mem_filter, Call.isMarker]
  rw [hmem, render_frame_ok m r h]
  simp only [List.filter_append, eye_calls_filter, List.mem_append]
  simp [frame_head, Call.isMarker]

/-- Every stage entry among the calls of a frame, fault or not, is `render_frame` or belongs to the
pass sequence of an eye. -/
theorem mem_render_frame_general (m : Linalg) (r : RendererState) (s : Stage)
    (hs : Call.enter s ∈ (render_frame m r).calls) :
    s = .render_frame ∨ Call.enter s ∈ eye_sequence r := by
  rcases (render_frame_general m r).1 _ hs with hh | hl | hr
  · left; simpa [frame_head] using hh
  · right; exact eye_pass_markers m r .LeftEye _ hl rfl
  · right; exact eye_pass_markers m r .RightEye _ hr rfl

/-- The gating of the optional stages: `run_post_pass` returns and enters each of the bloom,
reflection, SSAO, SMAA and blackout stages iff `renderPost` and the stage's own toggle are both true; in a frame without a null
material the wireframe and shadow passes are entered iff `renderWireframe` / `renderShadows` is
true and the post stages iff `renderPost` and their toggle are true; and with the seven optional
toggles false a frame (whatever the render set) enters none of the seven optional stages. -/
theorem optional_stage_gating (m : Linalg) (r : RendererState) :
    (run_post_pass r).result = .ok () ∧
    (Call.enter .run_bloom_pass ∈ (run_post_pass r).calls ↔
      r.renderPost = true ∧ r.renderBloom = true) ∧
    (Call.enter .run_reflection_pass ∈ (run_post_pass r).calls ↔
      r.renderPost = true ∧ r.renderReflection = true) ∧
    (Call.enter .run_ssao_pass ∈ (run_post_pass r).calls ↔
      r.renderPost = true ∧ r.renderSSAO = true) ∧
    (Call.enter .run_smaa_pass ∈ (run_post_pass r).calls ↔
      r.renderPost = true ∧ r.renderSMAA = true) ∧
    (Call.enter .run_blackout_pass ∈ (run_post_pass r).calls ↔
      r.renderPost = true ∧ r.renderBlackout = true) ∧
    ((∀ obj ∈ r.renderSet, obj.material ≠ none) →
      (Call.enter .run_forward_wireframe_pass ∈ (render_frame m r).calls ↔
        r.renderWireframe = true) ∧
      (Call.enter .run_shadow_pass ∈ (render_frame m r).calls ↔ r.renderShadows = true) ∧
      (Call.enter .run_bloom_pass ∈ (render_frame m r).calls ↔
        r.renderPost = true ∧ r.renderBloom = true) ∧
      (Call.enter .run_reflection_pass ∈ (render_frame m r).calls ↔
        r.renderPost = true ∧ r.renderReflection = true) ∧
      (Call.enter .run_ssao_pass ∈ (render_frame m r).calls ↔
        r.renderPost = true ∧ r.renderSSAO = true) ∧
      (Call.enter .run_smaa_pass ∈ (render_frame m r).calls ↔
        r.renderPost = true ∧ r.renderSMAA = true) ∧
      (Call.enter .run_blackout_pass ∈ (render_frame m r).calls ↔
        r.renderPost = true ∧ r.renderBlackout = true)) ∧
    (r.renderBloom = false → r.renderReflection = false → r.renderSSAO = false →
      r.renderSMAA = false → r.renderBlackout = false → r.renderShadows = false →
      r.renderWireframe = false →
      ∀ s ∈ optional_stages, (render_frame m r).calls.count (.enter s) = 0) := by
  refine ⟨by rw [run_post_pass_eq], ?_, ?_, ?_, ?_, ?_, ?_, ?_⟩
  · rw [run_post_pass_eq, mem_post_calls]; simp
  · rw [run_post_pass_eq, mem_post_calls]; simp
  · rw [run_post_pass_eq, mem_post_calls]; simp
  · rw [run_post_pass_eq, mem_post_calls]; simp
  · rw [run_post_pass_eq, mem_post_calls]; simp
  · intro h
    refine ⟨?_, ?_, ?_, ?_, ?_, ?_, ?_⟩ <;>
      rw [mem_render_frame m r h, mem_eye_sequence, mem_post_calls] <;> simp
  · intro h1 h2 h3 h4 h5 h6 h7 s hs
    rw [List.count_eq_zero]
    intro hmem
    have := mem_render_frame_general m r s hmem
    rw [mem_eye_sequence, mem_post_calls, h1, h2, h3, h4, h5, h6, h7] at this
    simp only [optional_stages, List.mem_cons, List.mem_singleton, List.not_mem_nil,
      or_false] at hs
    rcases hs with rfl | rfl | rfl | rfl | rfl | rfl | rfl <;> simp at this

/-- C16: whenever `render_frame` returns, the render set of the renderer it returns is empty,
whatever had been added to it before the call; a frame rendered next on that renderer returns
too and draws no object. -/
theorem render_frame_clears_renderSet (m : Linalg) (r r' : RendererState)
    (h : (render_frame m r).result = .ok r') :
    r'.renderSet = [] ∧ (render_frame m r').result = .ok r' ∧
      (∀ c ∈ (render_frame m r').calls, ∀ o, c ≠ .draw o) ∧
      (∀ (r₀ : RendererState) (set : List Renderable) (r₁ : RendererState),
        (render_frame m (r₀.add_renderables set)).result = .ok r₁ → r₁.renderSet = []) := by
  have hr' := (render_frame_general m r).2 r' h
  have hempty : r'.renderSet = [] := by rw [hr']; rfl
  have hmat : ∀ obj ∈ r'.renderSet, obj.material ≠ none := by
    rw [hempty]; intro obj ho; cases ho
  refine ⟨hempty, ?_, ?_, ?_⟩
  · rw [render_frame_ok m r' hmat]
    simp only [RendererState.clear_renderSet]
    rw [← hempty]
  · rw [render_frame_ok m r' hmat]
    intro c hc o hco
    subst hco
    simp only [eye_calls, hempty, List.map_nil, List.flatten_nil, List.append_nil, List.mem_append,
      frame_head, eye_head, resolve_calls] at hc
    have hp : ∀ o, Call.draw o ∉ post_calls r' := by
      intro o hmem
      have : (Call.draw o).isMarker = true := by
        have := (List.mem_filter.mp (by rw [post_calls_filter]; exact hmem)).2
        exact this
      cases this
    have hp' := hp o
    revert hc
    cases r'.renderWireframe <;> cases r'.renderShadows <;> simp [hp']
  · intro r₀ set r₁ h₁
    rw [(render_frame_general m _).2 r₁ h₁]; rfl

/-- A frame on three renderables with materials returns. -/
theorem render_frame_clears_renderSet_witness :
    (render_frame Linalg.translations
        (RendererState.still.add_renderables (Renderable.arc_set.filter (fun o => o.material ≠ none)))).result =
      .ok RendererState.still ∧ RendererState.still.renderSet = [] :=
  ⟨by rfl,
   (render_frame_clears_renderSet Linalg.translations
      (RendererState.still.add_renderables (Renderable.arc_set.filter (fun o => o.material ≠ none)))
      RendererState.still (by rfl)).1⟩

/-- C17 (as stated, false): a frame on the renderer `still`, whose lights hold a directional light
and two point lights, returns with the lights still set. -/
theorem render_frame_lights_not_cleared :
    ¬ (∀ r', (render_frame Linalg.translations RendererState.still).result = .ok r' →
        r'.lights = ⟨none, []⟩) := by
  intro h
  have h' := h RendererState.still (by rfl)
  simp [RendererState.still] at h'

/-- C17 (amended): whenever `render_frame` returns, the lights of the renderer are what they were
before the call; of the members of the renderer only the render set is changed. -/
theorem render_frame_keeps_lights (m : Linalg) (r r' : RendererState)
    (h : (render_frame m r).result = .ok r') :
    r'.lights = r.lights ∧ r' = { r with renderSet := [] } := by
  have hr' := (render_frame_general m r).2 r' h
  subst hr'
  exact ⟨rfl, rfl⟩

/-- A frame on the renderer `arc` without its null material returns the renderer `still`, with the
lights it had before the call. -/
theorem render_frame_keeps_lights_witness :
    (render_frame Linalg.translations
        (RendererState.still.add_renderables
          (Renderable.arc_set.filter (fun o => o.material ≠ none)))).result =
      .ok RendererState.still ∧
    RendererState.still.lights =
      (RendererState.still.add_renderables
        (Renderable.arc_set.filter (fun o => o.material ≠ none))).lights :=
  ⟨by rfl,
   (render_frame_keeps_lights Linalg.translations
      (RendererState.still.add_renderables (Renderable.arc_set.filter (fun o => o.material ≠ none)))
      RendererState.still (by rfl)).1⟩

/-- C18 (the code departs from the claim): on a render set whose second object has no material,
`run_forward_pass` draws the first object and then dereferences the null material: the third
object is never drawn and `render_frame` does not return. -/
theorem run_forward_pass_null_material :
    (run_forward_pass Linalg.translations RendererState.arc).result = .error .null_material ∧
    (run_forward_pass Linalg.translations RendererState.arc).calls.filter Call.isDraw = [.draw 0] ∧
    Renderable.arc_set.map (fun o => o.object) = [0, 1, 2] ∧
    (render_frame Linalg.translations RendererState.arc).result = .error .null_material := by
  refine ⟨by rfl, by rfl, by rfl, by rfl⟩

/-- Without a head-mounted display `on_update` skips the block guarded by `if (hmd)`: it returns
and issues no call on `hmd`. -/
theorem on_update_window (m : Linalg) (inp : UpdateInput) (st : VirtualRealityAppState)
    (h : st.hmd = none) :
    (∃ st', (st.on_update m inp).result = .ok st' ∧ st'.hmd = none) ∧
      (st.on_update m inp).calls =
        [.cameraController_update, .shaderMonitor_handle_recompile,
         .add_renderables inp.renderables.length, .set_lights, .add_debug_renderable,
         .draw_sphere, .draw_sphere] := by
  simp only [VirtualRealityAppState.on_update, h]
  simp [bind, Run.bind, emit, emits, pure, VirtualRealityAppState.set_renderer,
    VirtualRealityAppState.move_lights, h]

/-- Without a head-mounted display, and with no null material in the render set, `on_draw` renders
the frame, draws the two screen viewports and then dereferences the empty `hmd`. -/
theorem on_draw_window (m : Linalg) (inp : DrawInput) (st : VirtualRealityAppState)
    (h : st.hmd = none) (hmat : ∀ obj ∈ st.renderer.renderSet, obj.material ≠ none) :
    st.on_draw m inp =
      ⟨draw_head inp ++
        (render_frame m (st.renderer.set_eye_data (centerEye inp st) (centerEye inp st))).calls ++
        draw_screen inp, .error (.null_hmd .get_hmd_pose)⟩ := by
  have hmat' : ∀ obj ∈ (st.renderer.set_eye_data (centerEye inp st) (centerEye inp st)).renderSet,
      obj.material ≠ none := hmat
  simp only [VirtualRealityAppState.on_draw, h, VirtualRealityAppState.draw_window]
  rw [show (⟨st.debugCam, inp.debug_projection⟩ : EyeData) = centerEye inp st from rfl]
  rw [render_frame_ok m _ hmat']
  simp [bind, Run.bind, emit, emits, pure, VirtualRealityAppState.set_renderer,
    VirtualRealityAppState.set_viewports, VirtualRealityAppState.hmd_call, h, fault,
    VirtualRealityAppState.screen_viewports, draw_head, draw_screen]

/-- The pass sequence of one eye has one sky box, one forward pass, one resolve and one post pass. -/
theorem eye_sequence_counts (r : RendererState) :
    (eye_sequence r).count (.enter .run_skybox_pass) = 1 ∧
    (eye_sequence r).count (.enter .run_forward_pass) = 1 ∧
    (eye_sequence r).countP Call.isResolve = 1 ∧
    (eye_sequence r).count (.enter .run_post_pass) = 1 ∧
    (eye_sequence r).count (.enter .render_frame) = 0 := by
  have hp : (post_calls r).count (.enter .run_skybox_pass) = 0 ∧
      (post_calls r).count (.enter .run_forward_pass) = 0 ∧
      (post_calls r).count (.enter .run_post_pass) = 1 ∧
      (post_calls r).count (.enter .render_frame) = 0 := by
    simp only [post_calls]
    cases r.renderPost <;> cases r.renderBloom <;> cases r.renderReflection <;>
      cases r.renderSSAO <;> cases r.renderSMAA <;> cases r.renderBlackout <;>
      exact ⟨rfl, rfl, rfl, rfl⟩
  obtain ⟨h1, h2, h3, h4⟩ := hp
  have h5 := post_calls_isResolve r
  simp only [eye_sequence, List.count_append, List.countP_append, h1, h2, h3, h4, h5]
  cases r.renderWireframe <;> cases r.renderShadows <;>
    simp [List.count_cons, List.countP_cons, Call.isResolve]

/-- The constructor of `VirtualRealityApp` after a failed initialisation of the head-mounted
display: what the construction of the renderer at half the window width returns, with `hmd`
empty. -/
theorem VirtualRealityApp_fallback (what : String)
    (complete : float2 ℚ → RendererFramebuffer → Bool) (windowWidth windowHeight : Int) :
    VirtualRealityApp.VirtualRealityApp (.error what) complete windowWidth windowHeight =
      (Renderer.Renderer (complete ⟨(windowWidth : ℚ) / 2, (windowHeight : ℚ)⟩)
          ⟨(windowWidth : ℚ) / 2, (windowHeight : ℚ)⟩).map
        (fun r => { hmd := none, renderer := r, swapInterval0 := false,
                    cout := ["OpenVR Exception: " ++ what] }) := by
  have hhalf : (windowWidth : ℚ) * (1 / 2) = (windowWidth : ℚ) / 2 := by ring
  simp only [VirtualRealityApp.VirtualRealityApp, VirtualRealityApp.handler, hhalf]
  cases Renderer.Renderer (complete ⟨(windowWidth : ℚ) / 2, (windowHeight : ℚ)⟩)
    ⟨(windowWidth : ℚ) / 2, (windowHeight : ℚ)⟩ <;> rfl

/-- C11 (as stated, false): for the window 1281x800 the fallback renderer is constructed with
`renderSize = (1281/2, 800)`, but its eye textures are created 640 wide: `glTextureImage2DEXT`
takes the width as an integer, so the per-eye target is not exactly half the window width. -/
theorem fallback_eye_texture_truncated :
    VirtualRealityApp.VirtualRealityApp (.error "no hmd") (fun _ _ => true) 1281 800 =
      .ok { hmd := none,
            renderer := { renderSize := ⟨1281 / 2, 800⟩,
                          eyeTextures := [(.LeftEye, ⟨640, 800⟩), (.RightEye, ⟨640, 800⟩)] },
            swapInterval0 := false,
            cout := ["OpenVR Exception: no hmd"] } ∧
    ((640 : Int) : ℚ) ≠ 1281 / 2 := by
  refine ⟨?_, by norm_num⟩
  rw [VirtualRealityApp_fallback, Renderer_of_complete _ _ (fun _ => rfl)]
  have e' : toGLint ((800 : Int) : ℚ) = 800 := toGLint_intCast 800
  have e'' : toGLint (((1281 : Int) : ℚ) / 2) = 640 := by rw [toGLint_half]; rfl
  simp only [e', e'']
  norm_num [Except.map]
  rfl

/-- C11 (amended): for every window size, when the head-mounted display fails to initialise the
constructor of `VirtualRealityApp` constructs its renderer with `renderSize` exactly
`(windowWidth / 2, windowHeight)` (a rational half, the argument is not truncated) and returns
what that construction returns, with `hmd` empty; the eye textures of that renderer are created
with the integer size `(windowWidth div 2, windowHeight)`, the quotient truncated, which is exactly
half the window width when `windowWidth` is even; at 1280x800 with every framebuffer complete
this is a renderer of 640x800 with eye textures of 640x800. -/
theorem fallback_render_size (what : String) (complete : float2 ℚ → RendererFramebuffer → Bool)
    (windowWidth windowHeight : Int) :
    VirtualRealityApp.VirtualRealityApp (.error what) complete windowWidth windowHeight =
      (Renderer.Renderer (complete ⟨(windowWidth : ℚ) / 2, (windowHeight : ℚ)⟩)
          ⟨(windowWidth : ℚ) / 2, (windowHeight : ℚ)⟩).map
        (fun r => { hmd := none, renderer := r, swapInterval0 := false,
                    cout := ["OpenVR Exception: " ++ what] }) ∧
    (∀ app, VirtualRealityApp.VirtualRealityApp (.error what) complete windowWidth windowHeight =
        .ok app →
      app.hmd = none ∧ app.renderer.renderSize = ⟨(windowWidth : ℚ) / 2, (windowHeight : ℚ)⟩ ∧
      2 * app.renderer.renderSize.x = (windowWidth : ℚ) ∧
      app.renderer.eyeTextures =
        [(.LeftEye, ⟨Int.tdiv windowWidth 2, windowHeight⟩),
         (.RightEye, ⟨Int.tdiv windowWidth 2, windowHeight⟩)] ∧
      (2 ∣ windowWidth → ((Int.tdiv windowWidth 2 : Int) : ℚ) = (windowWidth : ℚ) / 2)) ∧
    (VirtualRealityApp.VirtualRealityApp (.error what) (fun _ _ => true) 1280 800).map
        (fun app => (app.renderer.renderSize, app.renderer.eyeTextures)) =
      .ok (⟨640, 800⟩, [(.LeftEye, ⟨640, 800⟩), (.RightEye, ⟨640, 800⟩)]) := by
  refine ⟨VirtualRealityApp_fallback what complete windowWidth windowHeight, ?_, ?_⟩
  · intro app happ
    rw [VirtualRealityApp_fallback] at happ
    cases hr : Renderer.Renderer (complete ⟨(windowWidth : ℚ) / 2, (windowHeight : ℚ)⟩)
        ⟨(windowWidth : ℚ) / 2, (windowHeight : ℚ)⟩ with
    | error e => rw [hr] at happ; cases happ
    | ok r =>
      rw [hr] at happ
      obtain ⟨-, rfl⟩ := (Renderer_ok_iff _ _ r).mp hr
      simp only [Except.map, Except.ok.injEq] at happ
      subst happ
      refine ⟨rfl, rfl, ?_, ?_, ?_⟩
      · show 2 * ((windowWidth : ℚ) / 2) = (windowWidth : ℚ)
        ring
      · show [(Eye.LeftEye, (⟨toGLint ((windowWidth : ℚ) / 2), toGLint (windowHeight : ℚ)⟩ : int2)),
            (Eye.RightEye, ⟨toGLint ((windowWidth : ℚ) / 2), toGLint (windowHeight : ℚ)⟩)] = _
        rw [toGLint_half, toGLint_intCast]
      · rintro ⟨k, hk⟩
        subst hk
        simp
  · rw [VirtualRealityApp_fallback, Renderer_of_complete _ _ (fun _ => rfl)]
    have e' : toGLint ((800 : Int) : ℚ) = 800 := toGLint_intCast 800
    have e'' : toGLint (((1280 : Int) : ℚ) / 2) = 640 := by rw [toGLint_half]; rfl
    simp only [e', e'']
    norm_num [Except.map]

/-- C12 (the code departs from the claim): without a head-mounted display `on_update` returns and
issues no call on `hmd`, but `on_draw`, after rendering the frame and drawing the two viewports,
executes `hmd->get_hmd_pose()` outside any test of `hmd` and faults on the empty pointer. -/
theorem on_draw_null_hmd :
    VirtualRealityAppState.window.hmd = none ∧
    (∃ st', (VirtualRealityAppState.window.on_update Linalg.translations UpdateInput.idle).result =
        .ok st' ∧ st'.hmd = none ∧
      (VirtualRealityAppState.window.on_update Linalg.translations UpdateInput.idle).calls.all
        (fun c => !c.isHmd) = true ∧
      (st'.on_draw Linalg.translations DrawInput.window).result =
        .error (.null_hmd .get_hmd_pose)) ∧
    (VirtualRealityAppState.window.on_draw Linalg.translations DrawInput.window).result =
      .error (.null_hmd .get_hmd_pose) := by
  refine ⟨rfl, ⟨_, rfl, rfl, by rfl, by rfl⟩, by rfl⟩

/-- C13 (as stated, false): without a head-mounted display one call of `on_draw` on the renderer
`still` enters the forward pass twice, resolves twice and enters the post pass twice, not once. -/
theorem on_draw_window_two_passes :
    VirtualRealityAppState.window.hmd = none ∧
    (VirtualRealityAppState.window.on_draw Linalg.translations DrawInput.window).calls.count
      (.enter .run_forward_pass) = 2 ∧
    (VirtualRealityAppState.window.on_draw Linalg.translations DrawInput.window).calls.countP
      Call.isResolve = 2 ∧
    (VirtualRealityAppState.window.on_draw Linalg.translations DrawInput.window).calls.count
      (.enter .run_post_pass) = 2 ∧
    ¬ ((VirtualRealityAppState.window.on_draw Linalg.translations DrawInput.window).calls.count
      (.enter .run_forward_pass) = 1) := by
  refine ⟨rfl, by rfl, by rfl, by rfl, ?_⟩
  have h : (VirtualRealityAppState.window.on_draw Linalg.translations DrawInput.window).calls.count
      (.enter .run_forward_pass) = 2 := by rfl
  rw [h]; decide

/-- C13 (amended): without a head-mounted display, and with no null material in the render set, one
call of `on_draw` calls `render_frame` once, and that frame runs the forward / resolve / post
sequence twice, once for each eye slot, both times with the one eye view taken from the debug
camera: the pass markers are `render_frame` followed by two copies of the eye sequence, and the two
per-view uploads are equal and computed from `centerEye`. -/
theorem on_draw_window_sequence (m : Linalg) (inp : DrawInput) (st : VirtualRealityAppState)
    (h : st.hmd = none) (hmat : ∀ obj ∈ st.renderer.renderSet, obj.material ≠ none) :
    (st.on_draw m inp).calls.filter Call.isMarker =
      [.enter .render_frame] ++ eye_sequence st.renderer ++ eye_sequence st.renderer ∧
    (st.on_draw m inp).calls.count (.enter .render_frame) = 1 ∧
    (st.on_draw m inp).calls.count (.enter .run_skybox_pass) = 2 ∧
    (st.on_draw m inp).calls.count (.enter .run_forward_pass) = 2 ∧
    (st.on_draw m inp).calls.countP Call.isResolve = 2 ∧
    (st.on_draw m inp).calls.count (.enter .run_post_pass) = 2 ∧
    (st.on_draw m inp).calls.filter Call.isPerView =
      [ .perView_set_buffer_data
          { view := m.matrix (m.inverse st.debugCam),
            viewProj := m.mul inp.debug_projection (m.matrix (m.inverse st.debugCam)),
            eyePos := st.debugCam.position },
        .perView_set_buffer_data
          { view := m.matrix (m.inverse st.debugCam),
            viewProj := m.mul inp.debug_projection (m.matrix (m.inverse st.debugCam)),
            eyePos := st.debugCam.position } ] := by
  have hmat' : ∀ obj ∈ (st.renderer.set_eye_data (centerEye inp st) (centerEye inp st)).renderSet,
      obj.material ≠ none := hmat
  have hseq : eye_sequence (st.renderer.set_eye_data (centerEye inp st) (centerEye inp st)) =
      eye_sequence st.renderer := rfl
  have hfilter : (st.on_draw m inp).calls.filter Call.isMarker =
      [.enter .render_frame] ++ eye_sequence st.renderer ++ eye_sequence st.renderer := by
    rw [on_draw_window m inp st h hmat, render_frame_ok m _ hmat']
    simp only [List.filter_append, eye_calls_filter, hseq]
    simp [draw_head, draw_screen, frame_head, Call.isMarker,
      VirtualRealityAppState.screen_viewports, VirtualRealityAppState.viewport_calls]
  have hcount : ∀ c : Call, c.isMarker = true →
      (st.on_draw m inp).calls.count c =
        ([Call.enter .render_frame] ++ eye_sequence st.renderer ++ eye_sequence st.renderer).count c := by
    intro c hc
    rw [← hfilter, List.count_filter hc]
  obtain ⟨c1, c2, c3, c4, c5⟩ := eye_sequence_counts st.renderer
  refine ⟨hfilter, ?_, ?_, ?_, ?_, ?_, ?_⟩
  · rw [hcount (Call.enter .render_frame) rfl]; simp [List.count_append, c5]
  · rw [hcount (Call.enter .run_skybox_pass) rfl]; simp [List.count_append, c1, List.count_cons]
  · rw [hcount (Call.enter .run_forward_pass) rfl]; simp [List.count_append, c2, List.count_cons]
  · have : (st.on_draw m inp).calls.countP Call.isResolve =
        ((st.on_draw m inp).calls.filter Call.isMarker).countP Call.isResolve := by
      rw [List.countP_filter]
      congr 1
      funext c
      cases c <;> rfl
    rw [this, hfilter]
    simp [List.countP_append, c3, List.countP_cons, Call.isResolve]
  · rw [hcount (Call.enter .run_post_pass) rfl]; simp [List.count_append, c4, List.count_cons]
  · rw [on_draw_window m inp st h hmat, render_frame_ok m _ hmat']
    have hobj : ∀ objs : List Renderable,
        ((objs.map (object_calls m)).flatten).filter Call.isPerView = [] := by
      intro objs
      induction objs with
      | nil => rfl
      | cons obj rest ih =>
        simp only [List.map_cons, List.flatten_cons, List.filter_append, ih, List.append_nil]
        cases hm : obj.material <;> simp [object_calls, hm, Call.isPerView]
    have hpost : (post_calls (st.renderer.set_eye_data (centerEye inp st) (centerEye inp st))).filter
        Call.isPerView = [] := by
      simp only [post_calls]
      cases (st.renderer.set_eye_data (centerEye inp st) (centerEye inp st)).renderPost <;>
        cases (st.renderer.set_eye_data (centerEye inp st) (centerEye inp st)).renderBloom <;>
        cases (st.renderer.set_eye_data (centerEye inp st) (centerEye inp st)).renderReflection <;>
        cases (st.renderer.set_eye_data (centerEye inp st) (centerEye inp st)).renderSSAO <;>
        cases (st.renderer.set_eye_data (centerEye inp st) (centerEye inp st)).renderSMAA <;>
        cases (st.renderer.set_eye_data (centerEye inp st) (centerEye inp st)).renderBlackout <;> rfl
    simp only [eye_calls, List.filter_append, hobj, hpost]
    cases (st.renderer.set_eye_data (centerEye inp st) (centerEye inp st)).renderWireframe <;>
      cases (st.renderer.set_eye_data (centerEye inp st) (centerEye inp st)).renderShadows <;>
      simp [draw_head, draw_screen, frame_head, eye_head, resolve_calls, Call.isPerView,
        VirtualRealityAppState.screen_viewports, VirtualRealityAppState.viewport_calls,
        RendererState.set_eye_data, RendererState.eye, centerEye]

/-- A draw without a head-mounted display on the renderer `still`. -/
theorem on_draw_window_sequence_witness :
    VirtualRealityAppState.window.hmd = none ∧
    (∀ obj ∈ VirtualRealityAppState.window.renderer.renderSet, obj.material ≠ none) ∧
    (VirtualRealityAppState.window.on_draw Linalg.translations DrawInput.window).calls.filter
        Call.isMarker =
      [.enter .render_frame,
       .enter .run_skybox_pass, .enter .run_forward_pass, .glBlitFramebuffer 640 800,
       .enter .run_post_pass,
       .enter .run_skybox_pass, .enter .run_forward_pass, .glBlitFramebuffer 640 800,
       .enter .run_post_pass] :=
  ⟨rfl, fun _ ho => by simp [VirtualRealityAppState.window, RendererState.still] at ho,
   (on_draw_window_sequence Linalg.translations DrawInput.window VirtualRealityAppState.window rfl
      (fun _ ho => by simp [VirtualRealityAppState.window, RendererState.still] at ho)).1⟩

/-! ### Events of a frame -/

/-- The events of a concatenation. -/
theorem eventsFrom_append (st : GlState) (a b : List Cmd) :
    eventsFrom st (a ++ b) = eventsFrom st a ++ eventsFrom (st.run a) b := by
  induction a generalizing st with
  | nil => simp [eventsFrom, GlState.run]
  | cons c cs ih => simp [eventsFrom, GlState.run, ih, List.append_assoc]

/-- Without a read-back the events are the passes. -/
theorem eventsFrom_eq_passes (st : GlState) (cmds : List Cmd)
    (h : ∀ c ∈ cmds, c.isReadPixels = false) :
    eventsFrom st cmds = (passesFrom st cmds).map .pass := by
  induction cmds generalizing st with
  | nil => rfl
  | cons c cs ih =>
    have hc := h c (List.mem_cons_self _ _)
    have hcs := ih (st.step c) (fun d hd => h d (List.mem_cons_of_mem _ hd))
    simp only [eventsFrom, passesFrom, hcs, List.map_append]
    congr 1
    cases c <;> first | rfl | (simp [Cmd.isReadPixels] at hc)

/-- The kinds of the passes of a call list are the kinds of its draw calls. -/
theorem passesFrom_kinds (st : GlState) (cmds : List Cmd) :
    (passesFrom st cmds).map (fun p => p.kind) = cmds.filterMap drawKind := by
  induction cmds generalizing st with
  | nil => rfl
  | cons c cs ih =>
    simp only [passesFrom, List.map_append, ih, List.filterMap_cons]
    cases drawKind c <;> rfl

/-- Calls that leave the draw target alone draw into the target bound at the start. -/
theorem passesFrom_target (st : GlState) (cmds : List Cmd)
    (h : ∀ c ∈ cmds, ∀ s : GlState, (s.step c).draw = s.draw) :
    ∀ p ∈ passesFrom st cmds, p.target = st.draw := by
  induction cmds generalizing st with
  | nil => intro p hp; cases hp
  | cons c cs ih =>
    intro p hp
    simp only [passesFrom, List.mem_append] at hp
    rcases hp with hp | hp
    · cases hk : drawKind c with
      | none => simp [hk] at hp
      | some k => simp [hk] at hp; subst hp; rfl
    · have := ih (st.step c) (fun d hd => h d (List.mem_cons_of_mem _ hd)) p hp
      rw [this, h c (List.mem_cons_self _ _)]

/-- The draw calls of the light loop: none. -/
theorem lightCmds_kinds (app : ExperimentalApp) : app.lightCmds.filterMap drawKind = [] := by
  simp only [ExperimentalApp.lightCmds]
  generalize app.lights.enum = l
  induction l with
  | nil => rfl
  | cons a rest ih =>
    simp only [List.map_cons, List.flatten_cons, List.filterMap_append, ih]
    rfl

/-- The draw calls of the model loop: one per model, in order. -/
theorem modelCmds_kinds (f : Frame) (app : ExperimentalApp) :
    (ExperimentalApp.modelCmds f app).filterMap drawKind =
      (List.range app.models).map DrawKind.model := by
  simp only [ExperimentalApp.modelCmds]
  generalize List.range app.models = l
  induction l with
  | nil => rfl
  | cons a rest ih =>
    simp only [List.map_cons, List.flatten_cons, List.filterMap_append, ih]
    rfl

/-- The scene passes: the sky dome, the models in order, the grid. -/
theorem forwardCmds_kinds (f : Frame) (app : ExperimentalApp) :
    (ExperimentalApp.forwardCmds f app).filterMap drawKind =
      [.skydome] ++ (List.range app.models).map DrawKind.model ++ [.grid] := by
  simp only [ExperimentalApp.forwardCmds, List.filterMap_append, lightCmds_kinds, modelCmds_kinds]
  rfl

/-- The calls of the light and model loops leave the draw target alone. -/
theorem loops_draw (f : Frame) (app : ExperimentalApp) :
    ∀ c ∈ app.lightCmds ++ ExperimentalApp.modelCmds f app,
      ∀ s : GlState, (s.step c).draw = s.draw := by
  intro c hc s
  simp only [ExperimentalApp.lightCmds, ExperimentalApp.modelCmds, List.mem_append, List.mem_flatten,
    List.mem_map] at hc
  rcases hc with ⟨l, ⟨a, -, rfl⟩, hc⟩ | ⟨l, ⟨a, -, rfl⟩, hc⟩
  · simp only [List.mem_cons, List.mem_singleton, List.not_mem_nil, or_false] at hc
    rcases hc with rfl | rfl <;> (simp only [GlState.step]; split <;> rfl)
  · simp only [List.mem_cons, List.mem_singleton, List.not_mem_nil, or_false] at hc
    rcases hc with rfl | rfl | rfl
    · simp only [GlState.step]; split <;> rfl
    · simp only [GlState.step]; split <;> rfl
    · rfl

/-- Every scene pass draws into the scene framebuffer. -/
theorem forwardCmds_target (f : Frame) (app : ExperimentalApp) :
    ∀ p ∈ passesFrom GlState.init (ExperimentalApp.forwardCmds f app),
      p.target = .fbo .sceneFramebuffer := by
  have hsplit : ExperimentalApp.forwardCmds f app =
      [ .glfwMakeContextCurrent, .glEnable .GL_CULL_FACE, .glEnable .GL_DEPTH_TEST,
        .glEnable .GL_FRAMEBUFFER_SRGB, .glEnable .GL_BLEND, .glBlendFunc,
        .glViewport 0 0 f.width f.height, .glClearColor, .glClear, .gl_check_error,
        .bind_to_draw .sceneFramebuffer ] ++
      ([ .glClear, .skydome_render, .bind .hdr_meshShader,
        .uniform .hdr_meshShader "u_eye" (.f3 f.eye),
        .uniform .hdr_meshShader "u_viewProj" (.float4x4 f.viewProj),
        .uniform .hdr_meshShader "u_emissive" (.f3 (1 / 10, 1 / 10, 1 / 10)),
        .uniform .hdr_meshShader "u_diffuse" (.f3 (4 / 10, 425 / 1000, 415 / 1000)),
        .uniform .hdr_meshShader "useNormal" (.int 0) ] ++
       (app.lightCmds ++ (ExperimentalApp.modelCmds f app ++
        [ .gl_check_error, .unbind .hdr_meshShader, .grid_render, .gl_check_error,
          .glDisable .GL_CULL_FACE, .glDisable .GL_DEPTH_TEST ]))) := by
    simp [ExperimentalApp.forwardCmds]
  intro p hp
  rw [hsplit, passesFrom_append] at hp
  rw [show passesFrom GlState.init [ .glfwMakeContextCurrent, .glEnable .GL_CULL_FACE,
        .glEnable .GL_DEPTH_TEST, .glEnable .GL_FRAMEBUFFER_SRGB, .glEnable .GL_BLEND, .glBlendFunc,
        .glViewport 0 0 f.width f.height, .glClearColor, .glClear, .gl_check_error,
        .bind_to_draw .sceneFramebuffer ] = [] from rfl, List.nil_append] at hp
  refine passesFrom_target _ _ ?_ p hp
  intro c hc s
  simp only [List.mem_cons, List.mem_append] at hc
  rcases hc with (rfl | rfl | rfl | rfl | rfl | rfl | rfl | rfl | hc) | hc | hc | hc
  · rfl
  · rfl
  · rfl
  · simp only [GlState.step]; split <;> rfl
  · simp only [GlState.step]; split <;> rfl
  · simp only [GlState.step]; split <;> rfl
  · simp only [GlState.step]; split <;> rfl
  · simp only [GlState.step]; split <;> rfl
  · cases hc
  · exact loops_draw f app c (List.mem_append_left _ hc) s
  · exact loops_draw f app c (List.mem_append_right _ hc) s
  · simp only [List.mem_cons, List.mem_singleton, List.not_mem_nil, or_false] at hc
    rcases hc with rfl | rfl | rfl | rfl | rfl | rfl <;> rfl

/-- The debug part draws the five views into whatever is bound, with no program. -/
theorem debugCmds_passes (f : Frame) (app : ExperimentalApp) :
    passesFrom ⟨.window, none, [], []⟩ (ExperimentalApp.debugCmds f app) = viewPasses app := by
  simp only [ExperimentalApp.debugCmds, List.append_assoc, List.cons_append, List.nil_append,
    passesFrom_cons, drawKind, GlState.step, viewPasses]
  generalize (app.views.take 5).enum = l
  induction l with
  | nil => rfl
  | cons a rest ih =>
    simp only [List.map_cons, List.cons_append, passesFrom_cons, drawKind, GlState.step,
      List.nil_append] at ih ⊢
    rw [ih]

/-- The passes of a frame: the scene passes, the eight pipeline passes, the five debug views. -/
theorem passes_frameCmds (f : Frame) (app : ExperimentalApp) :
    passes (frameCmds f app) =
      passesFrom GlState.init (ExperimentalApp.forwardCmds f app) ++ pipelinePasses f app ++
        viewPasses app := by
  simp only [passes, frameCmds, List.append_assoc]
  rw [passesFrom_append, forwardCmds_run, passesFrom_lumStage, passesFrom_avgStage,
    passesFrom_avgStage, passesFrom_avgStage, passesFrom_avgStage, passesFrom_tail,
    debugCmds_passes]
  rfl

/-- A part without a read-back contributes its passes. -/
theorem eventsFrom_part (st : GlState) (part more : List Cmd)
    (h : ∀ c ∈ part, c.isReadPixels = false) :
    eventsFrom st (part ++ more) =
      (passesFrom st part).map .pass ++ eventsFrom (st.run part) more := by
  rw [eventsFrom_append, eventsFrom_eq_passes st part h]

/-- Offset uploads are no read-back. -/
theorem offsetCmds_noRead (s : Shader) (ups : List UniformUpload) :
    ∀ c ∈ offsetCmds s ups, c.isReadPixels = false := by
  intro c hc
  simp only [offsetCmds, List.mem_map] at hc
  obtain ⟨u, -, rfl⟩ := hc
  rfl

/-- Luminance stage 0 has no read-back. -/
theorem lumStageCmds_noRead (ups : List UniformUpload) :
    ∀ c ∈ ExperimentalApp.lumStageCmds ups, c.isReadPixels = false := by
  intro c hc
  simp only [ExperimentalApp.lumStageCmds, List.mem_append, List.mem_cons, List.mem_singleton,
    List.not_mem_nil, or_false] at hc
  rcases hc with ((rfl | rfl) | hc) | (rfl | rfl | rfl | rfl | rfl)
  · rfl
  · rfl
  · exact offsetCmds_noRead _ _ c hc
  · rfl
  · rfl
  · rfl
  · rfl
  · rfl

/-- An averaging stage has no read-back. -/
theorem avgStageCmds_noRead (fb : Framebuffer) (ups : List UniformUpload) (src : Texture) :
    ∀ c ∈ ExperimentalApp.avgStageCmds fb ups src, c.isReadPixels = false := by
  intro c hc
  simp only [ExperimentalApp.avgStageCmds, List.mem_append, List.mem_cons, List.mem_singleton,
    List.not_mem_nil, or_false] at hc
  rcases hc with ((rfl | rfl) | hc) | (rfl | rfl | rfl | rfl | rfl)
  · rfl
  · rfl
  · exact offsetCmds_noRead _ _ c hc
  · rfl
  · rfl
  · rfl
  · rfl
  · rfl

/-- The forward part has no read-back. -/
theorem forwardCmds_noRead (f : Frame) (app : ExperimentalApp) :
    ∀ c ∈ ExperimentalApp.forwardCmds f app, c.isReadPixels = false := by
  intro c hc
  simp only [ExperimentalApp.forwardCmds, ExperimentalApp.lightCmds, ExperimentalApp.modelCmds,
    List.mem_append, List.mem_flatten, List.mem_map, List.mem_cons, List.mem_singleton,
    List.not_mem_nil, or_false] at hc
  rcases hc with ((hc | ⟨l, ⟨a, -, rfl⟩, hc⟩) | ⟨l, ⟨a, -, rfl⟩, hc⟩) | hc
  · rcases hc with rfl | rfl | rfl | rfl | rfl | rfl | rfl | rfl | rfl | rfl | rfl | rfl | rfl | rfl |
      rfl | rfl | rfl | rfl | rfl <;> rfl
  · simp only [List.mem_cons, List.mem_singleton, List.not_mem_nil, or_false] at hc
    rcases hc with rfl | rfl <;> rfl
  · simp only [List.mem_cons, List.mem_singleton, List.not_mem_nil, or_false] at hc
    rcases hc with rfl | rfl | rfl <;> rfl
  · rcases hc with rfl | rfl | rfl | rfl | rfl | rfl <;> rfl

/-- The part after the read-back has no read-back. -/
theorem tailCmds_noRead (f : Frame) (app : ExperimentalApp) :
    ∀ c ∈ ExperimentalApp.brightCmds app ++ (ExperimentalApp.blurCmds f ++
      (ExperimentalApp.tonemapCmds f app ++ ExperimentalApp.debugCmds f app)),
      c.isReadPixels = false := by
  intro c hc
  simp only [ExperimentalApp.brightCmds, ExperimentalApp.blurCmds, ExperimentalApp.tonemapCmds,
    ExperimentalApp.debugCmds, List.mem_append, List.mem_map, List.mem_cons, List.mem_singleton,
    List.not_mem_nil, or_false] at hc
  rcases hc with hc | hc | hc | ((hc | ⟨a, -, rfl⟩) | hc)
  · rcases hc with rfl | rfl | rfl | rfl | rfl | rfl | rfl | rfl | rfl | rfl <;> rfl
  · rcases hc with rfl | rfl | rfl | rfl | rfl | rfl | rfl | rfl <;> rfl
  · rcases hc with rfl | rfl | rfl | rfl | rfl | rfl | rfl | rfl | rfl | rfl | rfl | rfl | rfl <;> rfl
  · rcases hc with rfl | rfl | rfl <;> rfl
  · rfl
  · rcases hc with rfl | rfl <;> rfl

/-- The state luminance stage 0 leaves. -/
theorem lumStageCmds_run (st : GlState) (ups : List UniformUpload) :
    st.run (ExperimentalApp.lumStageCmds ups) = ⟨.fbo .luminance_0, none, [], []⟩ := by
  simp only [ExperimentalApp.lumStageCmds, run_append]
  rw [run_offsetCmds _ _ _ rfl]
  rfl

/-- The state an averaging stage leaves. -/
theorem avgStageCmds_run (st : GlState) (fb : Framebuffer) (ups : List UniformUpload)
    (src : Texture) :
    st.run (ExperimentalApp.avgStageCmds fb ups src) = ⟨.fbo fb, none, [], []⟩ := by
  simp only [ExperimentalApp.avgStageCmds, run_append]
  rw [run_offsetCmds _ _ _ rfl]
  rfl

/-- The passes of the part after the read-back. -/
theorem passesFrom_after_readback (st : GlState) (f : Frame) (app : ExperimentalApp) :
    passesFrom st (ExperimentalApp.brightCmds app ++ (ExperimentalApp.blurCmds f ++
      (ExperimentalApp.tonemapCmds f app ++ ExperimentalApp.debugCmds f app))) =
      brightPass app :: blurPass f :: tonemapPass f app :: viewPasses app := by
  have h := passesFrom_tail st f app (ExperimentalApp.debugCmds f app)
  rw [debugCmds_passes] at h
  rw [← h]
  rfl

/-- The events of a frame: the scene passes, the five luminance stages, the read-back, the bright,
blur and tonemap passes, the five debug views. -/
theorem events_frameCmds (f : Frame) (app : ExperimentalApp) :
    events (frameCmds f app) =
      (passesFrom GlState.init (ExperimentalApp.forwardCmds f app)).map .pass ++
      [ .pass (lumPass (taps_2x2 (f.stack 0) ⟨128, 128⟩)),
        .pass (avgPass .luminance_1 (taps_4x4 (f.stack 1) ⟨128, 128⟩) .luminanceTex_0),
        .pass (avgPass .luminance_2 (taps_4x4 (f.stack 2) ⟨64, 64⟩) .luminanceTex_1),
        .pass (avgPass .luminance_3 (taps_4x4 (f.stack 3) ⟨16, 16⟩) .luminanceTex_2),
        .pass (avgPass .luminance_4 (taps_4x4 (f.stack 4) ⟨4, 4⟩) .luminanceTex_3),
        .readback 0 0 1 1,
        .pass (brightPass app), .pass (blurPass f), .pass (tonemapPass f app) ] ++
      (viewPasses app).map .pass := by
  have hl : ∀ (st : GlState) (ups : List UniformUpload),
      passesFrom st (ExperimentalApp.lumStageCmds ups) = [lumPass ups] := by
    intro st ups
    have := passesFrom_lumStage st ups []
    simpa [passesFrom] using this
  have ha : ∀ (st : GlState) (fb : Framebuffer) (ups : List UniformUpload) (src : Texture),
      passesFrom st (ExperimentalApp.avgStageCmds fb ups src) = [avgPass fb ups src] := by
    intro st fb ups src
    have := passesFrom_avgStage st fb ups src []
    simpa [passesFrom] using this
  simp only [events, frameCmds, List.append_assoc]
  rw [eventsFrom_part _ _ _ (forwardCmds_noRead f app), forwardCmds_run,
    eventsFrom_part _ _ _ (lumStageCmds_noRead _), lumStageCmds_run, hl,
    eventsFrom_part _ _ _ (avgStageCmds_noRead _ _ _), avgStageCmds_run, ha,
    eventsFrom_part _ _ _ (avgStageCmds_noRead _ _ _), avgStageCmds_run, ha,
    eventsFrom_part _ _ _ (avgStageCmds_noRead _ _ _), avgStageCmds_run, ha,
    eventsFrom_part _ _ _ (avgStageCmds_noRead _ _ _), avgStageCmds_run, ha]
  have hrb : ∀ (st : GlState) (more : List Cmd),
      eventsFrom st (ExperimentalApp.readbackCmds ++ more) =
        .readback 0 0 1 1 :: eventsFrom st more := by
    intro st more
    simp [ExperimentalApp.readbackCmds, eventsFrom, drawKind, GlState.step]
  rw [hrb, eventsFrom_eq_passes _ _ (tailCmds_noRead f app), passesFrom_after_readback]
  simp

/-- The debug views are no quad passes. -/
theorem viewPasses_filter_quad (app : ExperimentalApp) :
    (viewPasses app).filter (fun p => p.kind = .quad) = [] := by
  simp only [viewPasses]
  generalize (app.views.take 5).enum = l
  induction l with
  | nil => rfl
  | cons a rest ih => simp [List.filter_cons, ih]

/-- Passes as events: the pipeline events among them are the quad passes. -/
theorem map_pass_filter (l : List Pass) :
    (l.map FrameEvent.pass).filter FrameEvent.isPipeline =
      (l.filter (fun p => p.kind = .quad)).map .pass := by
  induction l with
  | nil => rfl
  | cons p rest ih =>
    by_cases hp : p.kind = .quad <;> simp [List.filter_cons, FrameEvent.isPipeline, hp, ih]

/-- Passes as events: no read-back among them. -/
theorem map_pass_countP (l : List Pass) :
    (l.map FrameEvent.pass).countP FrameEvent.isReadback = 0 := by
  induction l with
  | nil => rfl
  | cons p rest ih => simp [List.countP_cons, FrameEvent.isReadback, ih]

/-- C19: every call of `ExperimentalApp::on_draw` returns, and the events of its frame are, in
order: the scene passes (sky dome, the models, the grid, all into the scene framebuffer), luminance
stages 0 to 4, the read-back `glReadPixels(0, 0, 1, 1)`, the bright pass, the blur, the tonemap
pass, and last the five debug views.  The quad passes and read-backs of the frame are exactly these
nine, once each, and the frame has exactly one read-back, right after luminance stage 4. -/
theorem on_draw_pass_order (f : Frame) (app : ExperimentalApp) :
    ∃ scene : List Pass,
      ExperimentalApp.on_draw f app = some (app.next_frame, frameCmds f app) ∧
      events (frameCmds f app) =
        scene.map .pass ++
        [ .pass (lumPass (taps_2x2 (f.stack 0) ⟨128, 128⟩)),
          .pass (avgPass .luminance_1 (taps_4x4 (f.stack 1) ⟨128, 128⟩) .luminanceTex_0),
          .pass (avgPass .luminance_2 (taps_4x4 (f.stack 2) ⟨64, 64⟩) .luminanceTex_1),
          .pass (avgPass .luminance_3 (taps_4x4 (f.stack 3) ⟨16, 16⟩) .luminanceTex_2),
          .pass (avgPass .luminance_4 (taps_4x4 (f.stack 4) ⟨4, 4⟩) .luminanceTex_3),
          .readback 0 0 1 1,
          .pass (brightPass app), .pass (blurPass f), .pass (tonemapPass f app) ] ++
        (viewPasses app).map .pass ∧
      scene.map (fun p => p.kind) =
        [.skydome] ++ (List.range app.models).map DrawKind.model ++ [.grid] ∧
      (∀ p ∈ scene, p.target = .fbo .sceneFramebuffer) ∧
      (events (frameCmds f app)).filter FrameEvent.isPipeline =
        [ .pass (lumPass (taps_2x2 (f.stack 0) ⟨128, 128⟩)),
          .pass (avgPass .luminance_1 (taps_4x4 (f.stack 1) ⟨128, 128⟩) .luminanceTex_0),
          .pass (avgPass .luminance_2 (taps_4x4 (f.stack 2) ⟨64, 64⟩) .luminanceTex_1),
          .pass (avgPass .luminance_3 (taps_4x4 (f.stack 3) ⟨16, 16⟩) .luminanceTex_2),
          .pass (avgPass .luminance_4 (taps_4x4 (f.stack 4) ⟨4, 4⟩) .luminanceTex_3),
          .readback 0 0 1 1,
          .pass (brightPass app), .pass (blurPass f), .pass (tonemapPass f app) ] ∧
      (events (frameCmds f app)).countP FrameEvent.isReadback = 1 := by
  refine ⟨passesFrom GlState.init (ExperimentalApp.forwardCmds f app), (on_draw_eq f app).1,
    events_frameCmds f app, ?_, forwardCmds_target f app, ?_, ?_⟩
  · rw [passesFrom_kinds, forwardCmds_kinds]
  · rw [events_frameCmds]
    simp only [List.filter_append, map_pass_filter,
      passesFrom_filter_quad _ _ (forwardCmds_noQuad f app), viewPasses_filter_quad,
      List.map_nil, List.nil_append, List.append_nil]
    rfl
  · rw [events_frameCmds]
    simp only [List.countP_append, map_pass_countP]
    rfl

/-- C20: in every frame of `ExperimentalApp::on_draw` the passes are the scene passes, the eight
pipeline passes and the five debug views; every scene pass draws into the scene framebuffer; the
luminance stages, the bright pass and the blur draw into `luminance_0 .. luminance_4`,
`brightFramebuffer` and `blurFramebuffer`, which are pairwise different and different from the scene
framebuffer; and among the scene and pipeline passes the tonemap pass is the one and only pass
whose target is the window.  (The debug views that follow it are drawn into the window as well.) -/
theorem tonemap_only_window_pass (f : Frame) (app : ExperimentalApp) :
    ∃ scene : List Pass,
      ExperimentalApp.on_draw f app = some (app.next_frame, frameCmds f app) ∧
      passes (frameCmds f app) = scene ++ pipelinePasses f app ++ viewPasses app ∧
      scene.map (fun p => p.kind) =
        [.skydome] ++ (List.range app.models).map DrawKind.model ++ [.grid] ∧
      (∀ p ∈ scene, p.target = .fbo .sceneFramebuffer) ∧
      (pipelinePasses f app).map (fun p => (p.shader, p.target)) =
        [ (some .hdr_lumShader, .fbo .luminance_0), (some .hdr_avgLumShader, .fbo .luminance_1),
          (some .hdr_avgLumShader, .fbo .luminance_2), (some .hdr_avgLumShader, .fbo .luminance_3),
          (some .hdr_avgLumShader, .fbo .luminance_4),
          (some .hdr_brightShader, .fbo .brightFramebuffer),
          (some .hdr_blurShader, .fbo .blurFramebuffer), (some .hdr_tonemapShader, .window) ] ∧
      ((pipelinePasses f app).map (fun p => p.target)).Nodup ∧
      Target.fbo .sceneFramebuffer ∉ (pipelinePasses f app).map (fun p => p.target) ∧
      (∀ p ∈ scene ++ pipelinePasses f app, p.target = .window ↔ p = tonemapPass f app) ∧
      tonemapPass f app ∈ pipelinePasses f app ∧
      (∀ p ∈ viewPasses app, p.target = .window ∧ p.shader = none ∧ p.kind ≠ .quad) := by
  refine ⟨passesFrom GlState.init (ExperimentalApp.forwardCmds f app), (on_draw_eq f app).1,
    passes_frameCmds f app, ?_, forwardCmds_target f app, rfl, ?_, ?_, ?_, ?_, ?_⟩
  · rw [passesFrom_kinds, forwardCmds_kinds]
  · simp [pipelinePasses, lumPass, avgPass, brightPass, blurPass, tonemapPass]
  · simp [pipelinePasses, lumPass, avgPass, brightPass, blurPass, tonemapPass]
  · intro p hp
    rcases List.mem_append.mp hp with hs | hq
    · have ht := forwardCmds_target f app p hs
      constructor
      · intro hw; rw [ht] at hw; cases hw
      · intro hp'; rw [hp'] at ht; cases ht
    · simp only [pipelinePasses, List.mem_cons, List.mem_singleton, List.not_mem_nil,
        or_false] at hq
      rcases hq with rfl | rfl | rfl | rfl | rfl | rfl | rfl | rfl
      · constructor
        · intro hw; cases hw
        · intro hp'; have := congrArg Pass.target hp'; cases this
      · constructor
        · intro hw; cases hw
        · intro hp'; have := congrArg Pass.target hp'; cases this
      · constructor
        · intro hw; cases hw
        · intro hp'; have := congrArg Pass.target hp'; cases this
      · constructor
        · intro hw; cases hw
        · intro hp'; have := congrArg Pass.target hp'; cases this
      · constructor
        · intro hw; cases hw
        · intro hp'; have := congrArg Pass.target hp'; cases this
      · constructor
        · intro hw; cases hw
        · intro hp'; have := congrArg Pass.target hp'; cases this
      · constructor
        · intro hw; cases hw
        · intro hp'; have := congrArg Pass.target hp'; cases this
      · exact ⟨fun _ => rfl, fun _ => rfl⟩
  · simp [pipelinePasses]
  · intro p hp
    simp only [viewPasses, List.mem_map] at hp
    obtain ⟨a, -, rfl⟩ := hp
    exact ⟨rfl, rfl, by simp⟩

/-! ### Per-view uniforms and the resolve target -/

/-- Object calls are no per-view uploads and no framebuffer bindings. -/
theorem object_calls_plain (m : Linalg) (objs : List Renderable) :
    ((objs.map (object_calls m)).flatten).filter Call.isPerView = [] ∧
    ((objs.map (object_calls m)).flatten).filter Call.isBindFramebuffer = [] := by
  induction objs with
  | nil => exact ⟨rfl, rfl⟩
  | cons obj rest ih =>
    simp only [List.map_cons, List.flatten_cons, List.filter_append, ih.1, ih.2, List.append_nil]
    cases hm : obj.material <;>
      simp [object_calls, hm, Call.isPerView, Call.isBindFramebuffer]

/-- The post pass issues no per-view upload and no framebuffer binding. -/
theorem post_calls_plain (r : RendererState) :
    (post_calls r).filter Call.isPerView = [] ∧
    (post_calls r).filter Call.isBindFramebuffer = [] := by
  simp only [post_calls]
  cases r.renderPost <;> cases r.renderBloom <;> cases r.renderReflection <;>
    cases r.renderSSAO <;> cases r.renderSMAA <;> cases r.renderBlackout <;> exact ⟨rfl, rfl⟩

/-- The per-view uploads and the framebuffer bindings among the calls for one eye. -/
theorem eye_calls_plain (m : Linalg) (r : RendererState) (eye : Eye) :
    (eye_calls m r eye).filter Call.isPerView =
      [ .perView_set_buffer_data
          { view := m.matrix (m.inverse (r.eye eye).pose),
            viewProj := m.mul (r.eye eye).projectionMatrix (m.matrix (m.inverse (r.eye eye).pose)),
            eyePos := (r.eye eye).pose.position } ] ∧
    (eye_calls m r eye).filter Call.isBindFramebuffer =
      [ .glBindFramebuffer .GL_DRAW_FRAMEBUFFER .multisampleFramebuffer,
        .glBindFramebuffer .GL_READ_FRAMEBUFFER .multisampleFramebuffer,
        .glBindFramebuffer .GL_DRAW_FRAMEBUFFER (.eyeTextures eye) ] := by
  simp only [eye_calls, List.filter_append, (object_calls_plain m r.renderSet).1,
    (object_calls_plain m r.renderSet).2, (post_calls_plain r).1, (post_calls_plain r).2]
  cases r.renderWireframe <;> cases r.renderShadows <;>
    simp [eye_head, resolve_calls, Call.isPerView, Call.isBindFramebuffer]

/-- The per-view uploads of a frame: for every pair of eye views given to `set_eye_data`,
`eyes[0]` is the left argument and `eyes[1]` the right one, and the `render_frame` that follows (on a render set without a null
material) issues its head, the calls of the left eye and the calls of the right eye; the calls of
an eye open with the one per-view upload of that eye, so the frame has exactly two per-view
uploads, the left one first; the upload of an eye has `view` the matrix of the inverse of that
eye's pose, `viewProj` that eye's projection matrix times that view matrix, and `eyePos` that
eye's pose position, and mentions nothing of the other eye. -/
theorem per_view_uniforms (m : Linalg) (r : RendererState) (left right : EyeData)
    (h : ∀ obj ∈ r.renderSet, obj.material ≠ none) :
    (r.set_eye_data left right).eyes = (left, right) ∧
    (r.set_eye_data left right).eye .LeftEye = left ∧
    (r.set_eye_data left right).eye .RightEye = right ∧
    (render_frame m (r.set_eye_data left right)).calls =
      frame_head ++ eye_calls m (r.set_eye_data left right) .LeftEye ++
        eye_calls m (r.set_eye_data left right) .RightEye ∧
    (eye_calls m (r.set_eye_data left right) .LeftEye).head? =
      some (.perView_set_buffer_data
        { view := m.matrix (m.inverse left.pose),
          viewProj := m.mul left.projectionMatrix (m.matrix (m.inverse left.pose)),
          eyePos := left.pose.position }) ∧
    (eye_calls m (r.set_eye_data left right) .RightEye).head? =
      some (.perView_set_buffer_data
        { view := m.matrix (m.inverse right.pose),
          viewProj := m.mul right.projectionMatrix (m.matrix (m.inverse right.pose)),
          eyePos := right.pose.position }) ∧
    (render_frame m (r.set_eye_data left right)).calls.filter Call.isPerView =
      [ .perView_set_buffer_data
          { view := m.matrix (m.inverse left.pose),
            viewProj := m.mul left.projectionMatrix (m.matrix (m.inverse left.pose)),
            eyePos := left.pose.position },
        .perView_set_buffer_data
          { view := m.matrix (m.inverse right.pose),
            viewProj := m.mul right.projectionMatrix (m.matrix (m.inverse right.pose)),
            eyePos := right.pose.position } ] := by
  have h' : ∀ obj ∈ (r.set_eye_data left right).renderSet, obj.material ≠ none := h
  refine ⟨rfl, rfl, rfl, by rw [render_frame_ok m _ h'], rfl, rfl, ?_⟩
  rw [render_frame_ok m _ h']
  simp only [List.filter_append, (eye_calls_plain m _ _).1]
  rfl

/-- The renderer `still` given a left eye at (-1, 0, 0) and a right eye at (1, 0, 0): the two
uploads carry the eye positions in that order. -/
theorem per_view_uniforms_witness :
    (∀ obj ∈ RendererState.still.renderSet, obj.material ≠ none) ∧
    ((render_frame Linalg.translations
        (RendererState.still.set_eye_data ⟨⟨(0, 0, 0, 1), (-1, 0, 0)⟩, []⟩
          ⟨⟨(0, 0, 0, 1), (1, 0, 0)⟩, []⟩)).calls.filter Call.isPerView).map
      (fun c => match c with
        | .perView_set_buffer_data v => v.eyePos
        | _ => (0, 0, 0)) = [(-1, 0, 0), (1, 0, 0)] := by
  have hmat : ∀ obj ∈ RendererState.still.renderSet, obj.material ≠ none :=
    fun _ ho => by simp [RendererState.still] at ho
  refine ⟨hmat, ?_⟩
  rw [(per_view_uniforms Linalg.translations RendererState.still ⟨⟨(0, 0, 0, 1), (-1, 0, 0)⟩, []⟩
    ⟨⟨(0, 0, 0, 1), (1, 0, 0)⟩, []⟩ hmat).2.2.2.2.2.2]
  rfl

/-- C14 (the code departs from the claim): on the render set `arc`, whose second object has a null
material, `render_frame` faults in the forward pass of the left eye: its pass markers are
`render_frame`, the sky box and the forward pass of the left eye and nothing more, so neither eye
sees a resolve and no post pass is entered.  On every render set without a null material, for
every toggle state, the frame is as claimed: the head, then the left eye, then the right eye, each
eye with sky box, forward geometry, optional wireframe and shadow, exactly one resolve blit, then
`run_post_pass` and its optional stages. -/
theorem render_frame_resolve_missing :
    (render_frame Linalg.translations RendererState.arc).result = .error .null_material ∧
    (render_frame Linalg.translations RendererState.arc).calls.filter Call.isMarker =
      [.enter .render_frame, .enter .run_skybox_pass, .enter .run_forward_pass] ∧
    (render_frame Linalg.translations RendererState.arc).calls.countP Call.isResolve = 0 ∧
    (render_frame Linalg.translations RendererState.arc).calls.count (.enter .run_post_pass) = 0 ∧
    (∀ (m : Linalg) (r : RendererState), (∀ obj ∈ r.renderSet, obj.material ≠ none) →
      (render_frame m r).calls = frame_head ++ eye_calls m r .LeftEye ++ eye_calls m r .RightEye ∧
      frame_head.filter Call.isMarker = [.enter .render_frame] ∧
      ∀ eye, (eye_calls m r eye).filter Call.isMarker =
          [.enter .run_skybox_pass, .enter .run_forward_pass] ++
          (if r.renderWireframe then [Call.enter .run_forward_wireframe_pass] else []) ++
          (if r.renderShadows then [Call.enter .run_shadow_pass] else []) ++
          [.glBlitFramebuffer (toGLint r.renderSize.x) (toGLint r.renderSize.y)] ++
          post_calls r ∧
        (eye_calls m r eye).countP Call.isResolve = 1 ∧
        (post_calls r).head? = some (.enter .run_post_pass) ∧
        (∀ c ∈ post_calls r, ∃ s, c = .enter s ∧ s ∈ [Stage.run_post_pass, .run_bloom_pass,
          .run_reflection_pass, .run_ssao_pass, .run_smaa_pass, .run_blackout_pass])) := by
  exact ⟨by rfl, by rfl, by rfl, by rfl, fun m r h => render_frame_resolve_order m r h⟩

/-- C15 (the code departs from the claim): on the render set `arc` with `renderWireframe` and
`renderShadows` true, `render_frame` faults on the null material before it reaches the two tests:
neither `run_forward_wireframe_pass` nor `run_shadow_pass` is invoked although both toggles are
true.  The rest is as claimed: for every toggle state `run_post_pass` invokes each post stage iff
`renderPost` and the stage's toggle are true; on a render set without a null material
`render_frame` invokes the wireframe and shadow passes iff their toggle is true; and with the seven
optional toggles false a frame invokes none of the seven optional stages, whatever the render
set. -/
theorem optional_stage_skipped :
    RendererState.arc_toggled.renderWireframe = true ∧
    RendererState.arc_toggled.renderShadows = true ∧
    (render_frame Linalg.translations RendererState.arc_toggled).result =
      .error .null_material ∧
    (render_frame Linalg.translations RendererState.arc_toggled).calls.count
      (.enter .run_forward_wireframe_pass) = 0 ∧
    (render_frame Linalg.translations RendererState.arc_toggled).calls.count
      (.enter .run_shadow_pass) = 0 ∧
    (∀ (m : Linalg) (r : RendererState),
      (run_post_pass r).result = .ok () ∧
      (Call.enter .run_bloom_pass ∈ (run_post_pass r).calls ↔
        r.renderPost = true ∧ r.renderBloom = true) ∧
      (Call.enter .run_reflection_pass ∈ (run_post_pass r).calls ↔
        r.renderPost = true ∧ r.renderReflection = true) ∧
      (Call.enter .run_ssao_pass ∈ (run_post_pass r).calls ↔
        r.renderPost = true ∧ r.renderSSAO = true) ∧
      (Call.enter .run_smaa_pass ∈ (run_post_pass r).calls ↔
        r.renderPost = true ∧ r.renderSMAA = true) ∧
      (Call.enter .run_blackout_pass ∈ (run_post_pass r).calls ↔
        r.renderPost = true ∧ r.renderBlackout = true) ∧
      ((∀ obj ∈ r.renderSet, obj.material ≠ none) →
        (Call.enter .run_forward_wireframe_pass ∈ (render_frame m r).calls ↔
          r.renderWireframe = true) ∧
        (Call.enter .run_shadow_pass ∈ (render_frame m r).calls ↔ r.renderShadows = true) ∧
        (Call.enter .run_bloom_pass ∈ (render_frame m r).calls ↔
          r.renderPost = true ∧ r.renderBloom = true) ∧
        (Call.enter .run_reflection_pass ∈ (render_frame m r).calls ↔
          r.renderPost = true ∧ r.renderReflection = true) ∧
        (Call.enter .run_ssao_pass ∈ (render_frame m r).calls ↔
          r.renderPost = true ∧ r.renderSSAO = true) ∧
        (Call.enter .run_smaa_pass ∈ (render_frame m r).calls ↔
          r.renderPost = true ∧ r.renderSMAA = true) ∧
        (Call.enter .run_blackout_pass ∈ (render_frame m r).calls ↔
          r.renderPost = true ∧ r.renderBlackout = true)) ∧
      (r.renderBloom = false → r.renderReflection = false → r.renderSSAO = false →
        r.renderSMAA = false → r.renderBlackout = false → r.renderShadows = false →
        r.renderWireframe = false →
        ∀ s ∈ optional_stages, (render_frame m r).calls.count (.enter s) = 0)) := by
  exact ⟨rfl, rfl, by rfl, by rfl, by rfl, fun m r => optional_stage_gating m r⟩

/-- C21 (the code departs from the claim): on the render set `arc`, given a left eye at (-1, 0, 0)
and a right eye at (1, 0, 0), `render_frame` uploads the per-view uniforms of the left eye, faults
on the null material in the forward pass of that eye and never uploads those of the right eye:
one upload instead of two.  On every render set without a null material the frame is as claimed:
`eyes[0]` is the left argument and `eyes[1]` the right one, the calls of each eye open with the
one per-view upload of that eye, left eye first, and the upload of an eye has `view` the matrix of
the inverse of that eye's pose, `viewProj` that eye's projection matrix times that view matrix and
`eyePos` that eye's pose position. -/
theorem per_view_upload_missing :
    (render_frame Linalg.translations
      (RendererState.arc.set_eye_data EyeData.leftward EyeData.rightward)).result =
      .error .null_material ∧
    (render_frame Linalg.translations
      (RendererState.arc.set_eye_data EyeData.leftward EyeData.rightward)).calls.filter
        Call.isPerView =
      [ .perView_set_buffer_data
          { view := Linalg.translations.matrix (Linalg.translations.inverse EyeData.leftward.pose),
            viewProj := Linalg.translations.mul EyeData.leftward.projectionMatrix
              (Linalg.translations.matrix (Linalg.translations.inverse EyeData.leftward.pose)),
            eyePos := (-1, 0, 0) } ] ∧
    (∀ (m : Linalg) (r : RendererState) (left right : EyeData),
      (∀ obj ∈ r.renderSet, obj.material ≠ none) →
      (r.set_eye_data left right).eyes = (left, right) ∧
      (r.set_eye_data left right).eye .LeftEye = left ∧
      (r.set_eye_data left right).eye .RightEye = right ∧
      (render_frame m (r.set_eye_data left right)).calls =
        frame_head ++ eye_calls m (r.set_eye_data left right) .LeftEye ++
          eye_calls m (r.set_eye_data left right) .RightEye ∧
      (eye_calls m (r.set_eye_data left right) .LeftEye).head? =
        some (.perView_set_buffer_data
          { view := m.matrix (m.inverse left.pose),
            viewProj := m.mul left.projectionMatrix (m.matrix (m.inverse left.pose)),
            eyePos := left.pose.position }) ∧
      (eye_calls m (r.set_eye_data left right) .RightEye).head? =
        some (.perView_set_buffer_data
          { view := m.matrix (m.inverse right.pose),
            viewProj := m.mul right.projectionMatrix (m.matrix (m.inverse right.pose)),
            eyePos := right.pose.position }) ∧
      (render_frame m (r.set_eye_data left right)).calls.filter Call.isPerView =
        [ .perView_set_buffer_data
            { view := m.matrix (m.inverse left.pose),
              viewProj := m.mul left.projectionMatrix (m.matrix (m.inverse left.pose)),
              eyePos := left.pose.position },
          .perView_set_buffer_data
            { view := m.matrix (m.inverse right.pose),
              viewProj := m.mul right.projectionMatrix (m.matrix (m.inverse right.pose)),
              eyePos := right.pose.position } ]) := by
  exact ⟨by rfl, by rfl, fun m r left right h => per_view_uniforms m r left right h⟩

/-- Every framebuffer binding among the calls for one eye, fault or not, binds the multisample
framebuffer or, as draw target, the name `eyeTextures[eye]`. -/
theorem eye_pass_bindings (m : Linalg) (r : RendererState) (eye : Eye) :
    ∀ c ∈ (eye_pass m r eye).calls, c.isBindFramebuffer = true →
      c = .glBindFramebuffer .GL_DRAW_FRAMEBUFFER .multisampleFramebuffer ∨
      c = .glBindFramebuffer .GL_READ_FRAMEBUFFER .multisampleFramebuffer ∨
      c = .glBindFramebuffer .GL_DRAW_FRAMEBUFFER (.eyeTextures eye) := by
  intro c hc hb
  rw [eye_pass_eq] at hc
  have hfo : ∀ d ∈ (forward_objects m r.renderSet).calls, d.isBindFramebuffer = false := by
    generalize r.renderSet = objs
    induction objs with
    | nil => intro d hd; simp [forward_objects, pure] at hd
    | cons obj rest ih =>
      intro d hd
      cases hm : obj.material with
      | none => simp [forward_objects, hm, fault] at hd
      | some mat =>
        simp only [forward_objects, hm, Run.bind, emits] at hd
        simp only [List.mem_append, List.mem_cons, List.mem_singleton, List.not_mem_nil,
          or_false] at hd
        rcases hd with (rfl | rfl | rfl) | hd
        · rfl
        · rfl
        · rfl
        · exact ih d hd
  have hseq : ∀ d ∈ eye_head m r eye ++ [.enter .run_skybox_pass, .enter .run_forward_pass] ++
      (forward_objects m r.renderSet).calls ++
      ((if r.renderWireframe then [Call.enter .run_forward_wireframe_pass] else []) ++
          (if r.renderShadows then [Call.enter .run_shadow_pass] else []) ++
          resolve_calls r eye ++ post_calls r), d.isBindFramebuffer = true →
      d = .glBindFramebuffer .GL_DRAW_FRAMEBUFFER .multisampleFramebuffer ∨
      d = .glBindFramebuffer .GL_READ_FRAMEBUFFER .multisampleFramebuffer ∨
      d = .glBindFramebuffer .GL_DRAW_FRAMEBUFFER (.eyeTextures eye) := by
    intro d hd hdb
    simp only [List.mem_append] at hd
    rcases hd with ((hd | hd) | hd) | (((hd | hd) | hd) | hd)
    · simp [eye_head] at hd
      rcases hd with rfl | rfl | rfl | rfl <;> simp [Call.isBindFramebuffer] at hdb ⊢
    · simp at hd
      rcases hd with rfl | rfl <;> simp [Call.isBindFramebuffer] at hdb
    · rw [hfo d hd] at hdb; cases hdb
    · revert hd; cases r.renderWireframe <;> simp
      rintro rfl; simp [Call.isBindFramebuffer] at hdb
    · revert hd; cases r.renderShadows <;> simp
      rintro rfl; simp [Call.isBindFramebuffer] at hdb
    · simp [resolve_calls] at hd
      rcases hd with rfl | rfl | rfl | rfl <;> simp [Call.isBindFramebuffer] at hdb ⊢
    · have := (List.mem_filter.mpr ⟨hd, hdb⟩)
      rw [(post_calls_plain r).2] at this
      cases this
  cases hres : (forward_objects m r.renderSet).result with
  | error e =>
    simp only [Run.bind, hres] at hc
    exact hseq c (List.mem_append_left _ hc) hb
  | ok u =>
    simp only [Run.bind, hres] at hc
    exact hseq c hc hb

/-- C25 (the code departs from the claim): in a frame of the renderer `still` the framebuffer
bindings are, for each eye, the multisample framebuffer as draw target, then for the resolve the
multisample framebuffer as read target and the name of the texture `eyeTextures[eye]` as draw
target.  In no frame of any renderer is the framebuffer `eyeFramebuffers[eye]`, the one the
constructor attached that texture to, bound as draw target: the blit of the resolve is issued
with a texture name bound where the framebuffer was meant. -/
theorem resolve_binds_texture_name :
    (render_frame Linalg.translations RendererState.still).result = .ok RendererState.still ∧
    (render_frame Linalg.translations RendererState.still).calls.filter Call.isBindFramebuffer =
      [ .glBindFramebuffer .GL_DRAW_FRAMEBUFFER .multisampleFramebuffer,
        .glBindFramebuffer .GL_READ_FRAMEBUFFER .multisampleFramebuffer,
        .glBindFramebuffer .GL_DRAW_FRAMEBUFFER (.eyeTextures .LeftEye),
        .glBindFramebuffer .GL_DRAW_FRAMEBUFFER .multisampleFramebuffer,
        .glBindFramebuffer .GL_READ_FRAMEBUFFER .multisampleFramebuffer,
        .glBindFramebuffer .GL_DRAW_FRAMEBUFFER (.eyeTextures .RightEye) ] ∧
    (∀ eye, resolve_calls RendererState.still eye =
      [ .glDisable .GL_MULTISAMPLE,
        .glBindFramebuffer .GL_READ_FRAMEBUFFER .multisampleFramebuffer,
        .glBindFramebuffer .GL_DRAW_FRAMEBUFFER (.eyeTextures eye),
        .glBlitFramebuffer 640 800 ]) ∧
    (∀ eye, GLName.eyeTextures eye ≠ GLName.eyeFramebuffers eye) ∧
    (∀ (m : Linalg) (r : RendererState) (eye : Eye),
      Call.glBindFramebuffer .GL_DRAW_FRAMEBUFFER (.eyeFramebuffers eye) ∉
        (render_frame m r).calls) := by
  refine ⟨by rfl, by rfl, fun eye => rfl, fun eye h => (by cases h), ?_⟩
  intro m r eye hmem
  rcases (render_frame_general m r).1 _ hmem with hh | hl | hr
  · simp [frame_head] at hh
  · rcases eye_pass_bindings m r .LeftEye _ hl rfl with h | h | h <;> cases h
  · rcases eye_pass_bindings m r .RightEye _ hr rfl with h | h | h <;> cases h

/-! ### Luminance stages: offset sizes, tap span, array bounds -/

/-- C22: in every frame of a constructed `ExperimentalApp`, for every `k` in `1..4` the quad pass of
luminance stage `k` samples one texture, the one of stage `k - 1`, and the offsets it uploads are
those of `luminance_offset_4x4` called with the width and height of that sampled texture (128, 64,
16, 4 for `k` = 1, 2, 3, 4); the surface the stage draws into is smaller than the one it samples, so
the size passed is that of the source and not that of the destination. -/
theorem luminance_stage_offset_size (check_complete : Framebuffer → Bool) (width height : Int)
    (app : ExperimentalApp) (hr : Reachable check_complete width height app) (f : Frame) :
    ∃ app' cmds, ExperimentalApp.on_draw f app = some (app', cmds) ∧
      ∀ k, 1 ≤ k → k ≤ 4 → ∃ p src img fb dst dimg ups,
        (quadPasses cmds)[k]? = some p ∧ p.samplers = [("s_texColor", 0, src)] ∧
        app.image src = some img ∧
        ([128, 64, 16, 4] : List Int)[k - 1]? = some img.width ∧ img.height = img.width ∧
        luminance_offset_4x4 (f.stack k) ⟨(img.width : ℚ), (img.height : ℚ)⟩ = some ups ∧
        p.uniforms = offsetUniforms ups ++ [("u_modelViewProj", .Identity4x4)] ∧
        p.target = .fbo fb ∧ app.colorAttachment fb = some dst ∧ app.image dst = some dimg ∧
        dimg.width < img.width ∧ dimg.height < img.height := by
  obtain ⟨-, htex, hatt, -⟩ := hr.frozen
  refine ⟨_, _, (on_draw_eq f app).1, ?_⟩
  rw [(on_draw_eq f app).2]
  have hca : ∀ fb, app.colorAttachment fb = (ExperimentalApp.built width height).colorAttachment fb := by
    intro fb; simp only [ExperimentalApp.colorAttachment, hatt]
  have him : ∀ t, app.image t = (ExperimentalApp.built width height).image t := by
    intro t; simp only [ExperimentalApp.image, htex]
  have hcast : ∀ (stack : Nat → float4 ℚ) (n : Nat),
      luminance_offset_4x4 stack ⟨((n : Int) : ℚ), ((n : Int) : ℚ)⟩ =
        some (taps_4x4 stack ⟨(n : ℚ), (n : ℚ)⟩) := by
    intro stack n
    rw [luminance_offset_4x4_eq]
    simp only [Int.cast_natCast]
  intro k h1 h4
  interval_cases k
  · exact ⟨_, .luminanceTex_0, ⟨128, 128, .GL_SRGB8_ALPHA8, .GL_BGRA, .GL_UNSIGNED_BYTE, .white⟩,
      .luminance_1, .luminanceTex_1, ⟨64, 64, .GL_SRGB8_ALPHA8, .GL_BGRA, .GL_UNSIGNED_BYTE, .white⟩,
      _, rfl, rfl, by rw [him]; rfl, rfl, rfl, hcast (f.stack 1) 128, rfl, rfl,
      by rw [hca]; rfl, by rw [him]; rfl, by decide, by decide⟩
  · exact ⟨_, .luminanceTex_1, ⟨64, 64, .GL_SRGB8_ALPHA8, .GL_BGRA, .GL_UNSIGNED_BYTE, .white⟩,
      .luminance_2, .luminanceTex_2, ⟨16, 16, .GL_SRGB8_ALPHA8, .GL_BGRA, .GL_UNSIGNED_BYTE, .white⟩,
      _, rfl, rfl, by rw [him]; rfl, rfl, rfl, hcast (f.stack 2) 64, rfl, rfl,
      by rw [hca]; rfl, by rw [him]; rfl, by decide, by decide⟩
  · exact ⟨_, .luminanceTex_2, ⟨16, 16, .GL_SRGB8_ALPHA8, .GL_BGRA, .GL_UNSIGNED_BYTE, .white⟩,
      .luminance_3, .luminanceTex_3, ⟨4, 4, .GL_SRGB8_ALPHA8, .GL_BGRA, .GL_UNSIGNED_BYTE, .white⟩,
      _, rfl, rfl, by rw [him]; rfl, rfl, rfl, hcast (f.stack 3) 16, rfl, rfl,
      by rw [hca]; rfl, by rw [him]; rfl, by decide, by decide⟩
  · exact ⟨_, .luminanceTex_3, ⟨4, 4, .GL_SRGB8_ALPHA8, .GL_BGRA, .GL_UNSIGNED_BYTE, .white⟩,
      .luminance_4, .luminanceTex_4, ⟨1, 1, .GL_SRGB8_ALPHA8, .GL_BGRA, .GL_UNSIGNED_BYTE, .white⟩,
      _, rfl, rfl, by rw [him]; rfl, rfl, rfl, hcast (f.stack 4) 4, rfl, rfl,
      by rw [hca]; rfl, by rw [him]; rfl, by decide, by decide⟩

/-- The first frame after construction at 1280x720 with every framebuffer complete: stage 1 samples
a texture 128 wide and uploads the offsets computed for that size. -/
theorem luminance_stage_offset_size_witness :
    Reachable (fun _ => true) 1280 720 (ExperimentalApp.built 1280 720) ∧
    ∃ app' cmds, ExperimentalApp.on_draw Frame.still (ExperimentalApp.built 1280 720) =
        some (app', cmds) ∧
      ∃ p src img ups, (quadPasses cmds)[1]? = some p ∧ p.samplers = [("s_texColor", 0, src)] ∧
        (ExperimentalApp.built 1280 720).image src = some img ∧ img.width = 128 ∧
        luminance_offset_4x4 (Frame.still.stack 1) ⟨(img.width : ℚ), (img.height : ℚ)⟩ = some ups ∧
        p.uniforms = offsetUniforms ups ++ [("u_modelViewProj", .Identity4x4)] := by
  have hr : Reachable (fun _ => true) 1280 720 (ExperimentalApp.built 1280 720) :=
    Reachable.constructed (ExperimentalApp_of_complete _ _ _ (fun _ => rfl))
  obtain ⟨app', cmds, h1, h2⟩ :=
    luminance_stage_offset_size (fun _ => true) 1280 720 _ hr Frame.still
  obtain ⟨p, src, img, fb, dst, dimg, ups, hp, hs, hi, hw, hh, hu, hpu, -⟩ :=
    h2 1 (by norm_num) (by norm_num)
  have hw' : img.width = 128 := by
    simp at hw
    exact hw.symm
  exact ⟨hr, app', cmds, h1, p, src, img, ups, hp, hs, hi, hw', hu, hpu⟩

/-- The `x` and `y` components the nine uploads of `luminance_offset_2x2` take. -/
theorem taps_2x2_components (stack : Nat → float4 ℚ) (sx sy : ℚ) :
    (taps_2x2 stack ⟨sx, sy⟩).map (fun u => u.value.x) =
      [0 * (1 / sx), 1 * (1 / sx), 2 * (1 / sx), 0 * (1 / sx), 1 * (1 / sx), 2 * (1 / sx),
       0 * (1 / sx), 1 * (1 / sx), 2 * (1 / sx)] ∧
    (taps_2x2 stack ⟨sx, sy⟩).map (fun u => u.value.y) =
      [0 * (1 / sy), 0 * (1 / sy), 0 * (1 / sy), 1 * (1 / sy), 1 * (1 / sy), 1 * (1 / sy),
       2 * (1 / sy), 2 * (1 / sy), 2 * (1 / sy)] := by
  constructor <;>
    simp [taps_2x2, List.range, List.range.loop]

/-- The extremes of a list of the shape `0, d, 2 d` repeated, for `d` positive. -/
theorem span_of_grid (l : List ℚ) (d : ℚ) (hd : 0 < d)
    (hl : ∀ v, v ∈ l ↔ v = 0 * d ∨ v = 1 * d ∨ v = 2 * d) :
    IsGreatest {v | v ∈ l} (2 * d) ∧ IsLeast {v | v ∈ l} 0 := by
  refine ⟨⟨(hl _).mpr (Or.inr (Or.inr rfl)), ?_⟩, ⟨(hl _).mpr (Or.inl (by ring)), ?_⟩⟩
  · intro v hv
    rcases (hl v).mp hv with rfl | rfl | rfl <;> nlinarith
  · intro v hv
    rcases (hl v).mp hv with rfl | rfl | rfl <;> nlinarith

/-- C23 (as stated, false): for the size (128, 128) of luminance stage 0 the largest `x` offset of
`luminance_offset_2x2` is 2/128 = 1/64 and the smallest is 0: they differ by two texels, not by
the one texel 1/128. -/
theorem luminance_offset_2x2_span_two_texels :
    ∃ ups, luminance_offset_2x2 (fun _ => ⟨0, 0, 0, 0⟩) ⟨128, 128⟩ = some ups ∧
      IsGreatest {v | v ∈ ups.map (fun u => u.value.x)} (1 / 64) ∧
      IsLeast {v | v ∈ ups.map (fun u => u.value.x)} 0 ∧
      (1 / 64 : ℚ) - 0 ≠ 1 / 128 := by
  refine ⟨_, luminance_offset_2x2_eq _ _, ?_, ?_, by norm_num⟩
  · have h := (span_of_grid ((taps_2x2 (fun _ => ⟨0, 0, 0, 0⟩) ⟨128, 128⟩).map (fun u => u.value.x))
      (1 / 128) (by norm_num) (by
        intro v; rw [(taps_2x2_components _ 128 128).1]; simp; tauto)).1
    norm_num at h ⊢
    exact h
  · exact (span_of_grid ((taps_2x2 (fun _ => ⟨0, 0, 0, 0⟩) ⟨128, 128⟩).map (fun u => u.value.x))
      (1 / 128) (by norm_num) (by
        intro v; rw [(taps_2x2_components _ 128 128).1]; simp; tauto)).2

/-- C23 (amended): for every size with positive components the nine taps of `luminance_offset_2x2`
span two texels in each axis: the largest `x` offset is `2 / sx` and the smallest 0, the largest
`y` offset is `2 / sy` and the smallest 0, so the differences are `2 / sx` and `2 / sy`. -/
theorem luminance_offset_2x2_span (stack : Nat → float4 ℚ) (sx sy : ℚ)
    (hx : 0 < sx) (hy : 0 < sy) :
    ∃ ups, luminance_offset_2x2 stack ⟨sx, sy⟩ = some ups ∧
      IsGreatest {v | v ∈ ups.map (fun u => u.value.x)} (2 / sx) ∧
      IsLeast {v | v ∈ ups.map (fun u => u.value.x)} 0 ∧
      IsGreatest {v | v ∈ ups.map (fun u => u.value.y)} (2 / sy) ∧
      IsLeast {v | v ∈ ups.map (fun u => u.value.y)} 0 ∧
      (2 / sx - 0 = 2 * (1 / sx)) ∧ (2 / sy - 0 = 2 * (1 / sy)) := by
  have hgx := span_of_grid ((taps_2x2 stack ⟨sx, sy⟩).map (fun u => u.value.x)) (1 / sx)
    (by positivity) (by intro v; rw [(taps_2x2_components _ sx sy).1]; simp; tauto)
  have hgy := span_of_grid ((taps_2x2 stack ⟨sx, sy⟩).map (fun u => u.value.y)) (1 / sy)
    (by positivity) (by intro v; rw [(taps_2x2_components _ sx sy).2]; simp; try tauto)
  have ex : 2 * (1 / sx) = 2 / sx := by ring
  have ey : 2 * (1 / sy) = 2 / sy := by ring
  rw [ex] at hgx
  rw [ey] at hgy
  exact ⟨_, luminance_offset_2x2_eq _ _, hgx.1, hgx.2, hgy.1, hgy.2, by ring, by ring⟩

/-- The call of luminance stage 0, `luminance_offset_2x2(shader, float2(128, 128))`. -/
theorem luminance_offset_2x2_span_witness :
    (0 : ℚ) < 128 ∧
    ∃ ups, luminance_offset_2x2 (fun _ => ⟨0, 0, 0, 0⟩) ⟨128, 128⟩ = some ups ∧
      IsGreatest {v | v ∈ ups.map (fun u => u.value.x)} (2 / 128) ∧
      IsLeast {v | v ∈ ups.map (fun u => u.value.x)} 0 := by
  obtain ⟨ups, h1, h2, h3, -⟩ :=
    luminance_offset_2x2_span (fun _ => ⟨0, 0, 0, 0⟩) 128 128 (by norm_num) (by norm_num)
  exact ⟨by norm_num, ups, h1, h2, h3⟩

/-- A write to component 0 fails exactly when the index is outside the array. -/
theorem writeX_eq_none (offsets : List (float4 ℚ)) (i : Nat) (v : ℚ) :
    writeX offsets i v = none ↔ offsets.length ≤ i := by
  unfold writeX
  cases h : offsets[i]? with
  | none => simpa using List.getElem?_eq_none_iff.mp h
  | some e =>
    have := List.getElem?_eq_some_iff.mp h
    obtain ⟨hi, -⟩ := this
    simp
    exact hi

/-- A write to component 1 fails exactly when the index is outside the array. -/
theorem writeY_eq_none (offsets : List (float4 ℚ)) (i : Nat) (v : ℚ) :
    writeY offsets i v = none ↔ offsets.length ≤ i := by
  unfold writeY
  cases h : offsets[i]? with
  | none => simpa using List.getElem?_eq_none_iff.mp h
  | some e =>
    have := List.getElem?_eq_some_iff.mp h
    obtain ⟨hi, -⟩ := this
    simp
    exact hi

/-- A loop of fallible steps returns exactly when every step does. -/
theorem mapM_isSome {α β : Type} (f : α → Option β) (l : List α) :
    (l.mapM f).isSome = l.all (fun a => (f a).isSome) := by
  rw [← List.mapM'_eq_mapM]
  induction l with
  | nil => rfl
  | cons a rest ih =>
    simp only [List.mapM', List.all_cons]
    cases hfa : f a with
    | none => rfl
    | some b =>
      rw [← ih]
      cases hrest : List.mapM' f rest <;> rfl

/-- The upload loop fails exactly when `num` exceeds the length of the array. -/
theorem uploadOffsets_eq_none (st : OffsetFill) :
    uploadOffsets st = none ↔ st.offsets.length < st.num := by
  have h := mapM_isSome (fun n =>
      (st.offsets[n]?).map (fun v => ({ name := "u_offset[" ++ toString n ++ "]", value := v } : UniformUpload)))
      (List.range st.num)
  unfold uploadOffsets
  rw [← Option.not_isSome_iff_eq_none, h]
  simp only [List.all_eq_true, List.mem_range, Option.isSome_map', not_forall]
  constructor
  · rintro ⟨n, hn, hnone⟩
    have : st.offsets[n]? = none := by simpa using hnone
    have := List.getElem?_eq_none_iff.mp this
    omega
  · intro hlt
    refine ⟨st.offsets.length, hlt, ?_⟩
    simp

/-- A loop of steps that all return, returns the list of their results. -/
theorem mapM_some {α β : Type} (f : α → Option β) (g : α → β) (l : List α)
    (h : ∀ a ∈ l, f a = some (g a)) : l.mapM f = some (l.map g) := by
  rw [← List.mapM'_eq_mapM]
  induction l with
  | nil => rfl
  | cons a rest ih =>
    have ha := h a (List.mem_cons_self a rest)
    have hrest := ih (fun b hb => h b (List.mem_cons_of_mem a hb))
    simp only [List.mapM', ha, hrest, List.map_cons]
    rfl

/-- The upload loop after the fill loops of `luminance_offset_4x4`. -/
theorem uploadOffsets_fill_4x4 (stack : Nat → float4 ℚ) (size : float2 ℚ) :
    uploadOffsets
      { offsets := (List.range 16).map (fun n =>
          (⟨(((n % 4 : ℕ) : ℚ) - 1) * (1 / size.x), (((n / 4 : ℕ) : ℚ) - 1) * (1 / size.y),
            (stack n).z, (stack n).w⟩ : float4 ℚ)),
        num := 16 } = some (taps_4x4 stack size) := by
  unfold uploadOffsets taps_4x4
  apply mapM_some
  intro n hn
  have hn' : n < 16 := List.mem_range.mp hn
  simp only [List.getElem?_map, List.getElem?_range hn', Option.map_some']

/-- The upload loop after the fill loops of `luminance_offset_2x2`. -/
theorem uploadOffsets_fill_2x2 (stack : Nat → float4 ℚ) (size : float2 ℚ) :
    uploadOffsets
      { offsets := (List.range 16).map (fun n =>
          if n < 9 then
            (⟨((n % 3 : ℕ) : ℚ) * (1 / size.x), ((n / 3 : ℕ) : ℚ) * (1 / size.y), (stack n).z,
              (stack n).w⟩ : float4 ℚ)
          else stack n),
        num := 9 } = some (taps_2x2 stack size) := by
  unfold uploadOffsets taps_2x2
  apply mapM_some
  intro n hn
  have hn' : n < 9 := List.mem_range.mp hn
  have h16 : n < 16 := by omega
  simp only [List.getElem?_map, List.getElem?_range h16, Option.map_some', if_pos hn']

/-- A write keeps the length of the array. -/
theorem write_length (offsets o : List (float4 ℚ)) (i : Nat) (v : ℚ) :
    (writeX offsets i v = some o → o.length = offsets.length) ∧
    (writeY offsets i v = some o → o.length = offsets.length) := by
  constructor
  · unfold writeX
    cases offsets[i]? with
    | none => intro h; cases h
    | some e => intro h; cases h; simp
  · unfold writeY
    cases offsets[i]? with
    | none => intro h; cases h
    | some e => intro h; cases h; simp

/-- C27: in the model of the two functions an access to `offsets` outside the array of 16 elements
makes the function fail: a write fails exactly when its index is not below the length, writes keep
the length, and the upload loop fails exactly when `num` exceeds the length.  For every size and
every initial content of the array both functions return: the fill loops of
`luminance_offset_2x2` end with `num = 9` and those of `luminance_offset_4x4` with `num = 16`, on
an array of length 16; the upload loop issues `num` uploads, upload `n` reading `offsets[n]`, and
every element it reads has had its components 0 and 1 written by the fill loop (components 2 and
3 are never written and keep their indeterminate initial content). -/
theorem luminance_offset_index_bounds (stack : Nat → float4 ℚ) (size : float2 ℚ) :
    (∀ (offsets : List (float4 ℚ)) (i : Nat) (v : ℚ),
      (writeX offsets i v = none ↔ offsets.length ≤ i) ∧
      (writeY offsets i v = none ↔ offsets.length ≤ i) ∧
      (∀ o, writeX offsets i v = some o ∨ writeY offsets i v = some o →
        o.length = offsets.length)) ∧
    (∀ st : OffsetFill, uploadOffsets st = none ↔ st.offsets.length < st.num) ∧
    (∃ st ups, fill_2x2 stack size = some st ∧ st.offsets.length = 16 ∧ st.num = 9 ∧
      uploadOffsets st = some ups ∧ luminance_offset_2x2 stack size = some ups ∧
      ups.length = st.num ∧
      ∀ n, n < st.num → n < 16 ∧ ∃ v, st.offsets[n]? = some v ∧
        ups[n]? = some ⟨"u_offset[" ++ toString n ++ "]", v⟩ ∧
        v.x = ((n % 3 : ℕ) : ℚ) * (1 / size.x) ∧ v.y = ((n / 3 : ℕ) : ℚ) * (1 / size.y) ∧
        v.z = (stack n).z ∧ v.w = (stack n).w) ∧
    (∃ st ups, fill_4x4 stack size = some st ∧ st.offsets.length = 16 ∧ st.num = 16 ∧
      uploadOffsets st = some ups ∧ luminance_offset_4x4 stack size = some ups ∧
      ups.length = st.num ∧
      ∀ n, n < st.num → n < 16 ∧ ∃ v, st.offsets[n]? = some v ∧
        ups[n]? = some ⟨"u_offset[" ++ toString n ++ "]", v⟩ ∧
        v.x = (((n % 4 : ℕ) : ℚ) - 1) * (1 / size.x) ∧
        v.y = (((n / 4 : ℕ) : ℚ) - 1) * (1 / size.y) ∧
        v.z = (stack n).z ∧ v.w = (stack n).w) := by
  refine ⟨fun offsets i v => ⟨writeX_eq_none offsets i v, writeY_eq_none offsets i v, ?_⟩,
    uploadOffsets_eq_none, ?_, ?_⟩
  · intro o ho
    rcases ho with ho | ho
    · exact (write_length offsets o i v).1 ho
    · exact (write_length offsets o i v).2 ho
  · have hup := uploadOffsets_fill_2x2 stack size
    refine ⟨_, _, fill_2x2_eq stack size, by simp, rfl, hup, luminance_offset_2x2_eq stack size,
      by simp [taps_2x2], ?_⟩
    intro n hn
    have hn' : n < 9 := hn
    have h16 : n < 16 := by omega
    refine ⟨h16, ⟨((n % 3 : ℕ) : ℚ) * (1 / size.x), ((n / 3 : ℕ) : ℚ) * (1 / size.y), (stack n).z,
      (stack n).w⟩, ?_, ?_, rfl, rfl, rfl, rfl⟩
    · rw [List.getElem?_map, List.getElem?_range h16]
      simp only [Option.map_some', if_pos hn']
    · simp only [taps_2x2]
      rw [List.getElem?_map, List.getElem?_range hn']
      simp only [Option.map_some']
  · have hup := uploadOffsets_fill_4x4 stack size
    refine ⟨_, _, fill_4x4_eq stack size, by simp, rfl, hup, luminance_offset_4x4_eq stack size,
      by simp [taps_4x4], ?_⟩
    intro n hn
    have hn' : n < 16 := hn
    refine ⟨hn', ⟨(((n % 4 : ℕ) : ℚ) - 1) * (1 / size.x), (((n / 4 : ℕ) : ℚ) - 1) * (1 / size.y),
      (stack n).z, (stack n).w⟩, ?_, ?_, rfl, rfl, rfl, rfl⟩
    · rw [List.getElem?_map, List.getElem?_range hn']
      simp only [Option.map_some']
    · simp only [taps_4x4]
      rw [List.getElem?_map, List.getElem?_range hn']
      simp only [Option.map_some']

/-! ### Blur texel size, tone-map parameters, the `white` buffer -/

/-- When the window width and height are multiples of 8 the texel size handed to the blur pass is
the reciprocal of the size of the blur texture. -/
theorem blur_viewTexel_of_dvd (f : Frame) (h8w : 8 ∣ f.width) (h8h : 8 ∣ f.height) :
    (blurPass f).uniform "u_viewTexel" =
      some (.f2 ⟨1 / ((Int.tdiv f.width 8 : Int) : ℚ), 1 / ((Int.tdiv f.height 8 : Int) : ℚ)⟩) := by
  obtain ⟨a, ha⟩ := h8w
  obtain ⟨b, hb⟩ := h8h
  have hw : Int.tdiv f.width 8 = a := by rw [ha]; simp
  have hh : Int.tdiv f.height 8 = b := by rw [hb]; simp
  have hw' : (f.width : ℚ) / 8 = (a : ℚ) := by rw [ha]; push_cast; ring
  have hh' : (f.height : ℚ) / 8 = (b : ℚ) := by rw [hb]; push_cast; ring
  simp [Pass.uniform, blurPass, hw, hh, hw', hh']

/-- C24 (the code departs from the claim): for a window of 1366 by 768, the same at construction and
at draw time, the constructor makes the blur texture 170 by 96 (`width / 8` on `int`), while the
blur pass, which draws into the framebuffer holding that texture, is handed
`u_viewTexel = (1 / (1366 / 8.f), 1 / (768 / 8.f)) = (4/683, 1/96)`; its first component is not
1/170.  The two agree whenever width and height are multiples of 8. -/
theorem blur_viewTexel_mismatch :
    ExperimentalApp.ExperimentalApp (fun _ => true) 1366 768 =
      .ok (ExperimentalApp.built 1366 768) ∧
    ((ExperimentalApp.built 1366 768).image .blurTex).map (fun i => (i.width, i.height)) =
      some (170, 96) ∧
    (ExperimentalApp.built 1366 768).colorAttachment .blurFramebuffer = some .blurTex ∧
    (∃ app' cmds p, ExperimentalApp.on_draw Frame.laptop (ExperimentalApp.built 1366 768) =
        some (app', cmds) ∧ (quadPasses cmds)[6]? = some p ∧ p.target = .fbo .blurFramebuffer ∧
      p.uniform "u_viewTexel" = some (.f2 ⟨4 / 683, 1 / 96⟩) ∧
      p.uniform "u_viewTexel" ≠ some (.f2 ⟨1 / 170, 1 / 96⟩)) ∧
    (∀ f : Frame, 8 ∣ f.width → 8 ∣ f.height →
      (blurPass f).uniform "u_viewTexel" =
        some (.f2 ⟨1 / ((Int.tdiv f.width 8 : Int) : ℚ), 1 / ((Int.tdiv f.height 8 : Int) : ℚ)⟩)) := by
  have hu : (blurPass Frame.laptop).uniform "u_viewTexel" = some (.f2 ⟨4 / 683, 1 / 96⟩) := by
    simp [Pass.uniform, blurPass, Frame.laptop]
    constructor <;> norm_num
  refine ⟨ExperimentalApp_of_complete _ _ _ (fun _ => rfl), by rfl, by rfl, ?_,
    blur_viewTexel_of_dvd⟩
  refine ⟨_, _, blurPass Frame.laptop, (on_draw_eq _ _).1, ?_, rfl, hu, ?_⟩
  · rw [(on_draw_eq _ _).2]
    rfl
  · rw [hu]
    intro h
    have h' := congrArg (fun o => match o with
      | some (UniformValue.f2 v) => v.x
      | _ => 0) h
    simp at h'
    norm_num at h'

/-- What the three callbacks do to the tone-map parameters: `on_input` and `on_draw` change none of
them, `on_update` adds `timestep_ms / 1000` to `time` and changes nothing else. -/
theorem call_params (app app' : ExperimentalApp) (c : Callback)
    (h : ExperimentalApp.call app c = some app') :
    app'.middleGrey = app.middleGrey ∧ app'.whitePoint = app.whitePoint ∧
    app'.threshold = app.threshold ∧
    app'.time = app.time + c.elapsed := by
  cases c with
  | on_input =>
    simp only [ExperimentalApp.call, ExperimentalApp.on_input, Option.some.injEq] at h
    subst h
    simp [Callback.elapsed]
  | on_update t =>
    simp only [ExperimentalApp.call, ExperimentalApp.on_update, Option.some.injEq] at h
    subst h
    simp [Callback.elapsed]
  | on_draw f =>
    simp only [ExperimentalApp.call, (on_draw_eq f app).1, Option.map_some',
      Option.some.injEq] at h
    subst h
    simp [ExperimentalApp.next_frame, Callback.elapsed]

/-- Every callback returns. -/
theorem call_isSome (app : ExperimentalApp) (c : Callback) :
    ∃ app', ExperimentalApp.call app c = some app' := by
  cases c with
  | on_input => exact ⟨_, rfl⟩
  | on_update t => exact ⟨_, rfl⟩
  | on_draw f =>
    exact ⟨app.next_frame, by simp only [ExperimentalApp.call, (on_draw_eq f app).1, Option.map_some']⟩

/-- A sequence of callbacks with non-negative time steps returns, keeps the first three tone-map
parameters and does not decrease `time`. -/
theorem run_params (trace : List Callback) (app : ExperimentalApp)
    (ht : ∀ t, Callback.on_update t ∈ trace → 0 ≤ t) :
    ∃ app', ExperimentalApp.run app trace = some app' ∧
      app'.middleGrey = app.middleGrey ∧ app'.whitePoint = app.whitePoint ∧
      app'.threshold = app.threshold ∧ app.time ≤ app'.time := by
  induction trace generalizing app with
  | nil => exact ⟨app, rfl, rfl, rfl, rfl, le_refl _⟩
  | cons c cs ih =>
    obtain ⟨app₁, h₁⟩ := call_isSome app c
    obtain ⟨hm, hw, hth, htime⟩ := call_params app app₁ c h₁
    obtain ⟨app', hrun, hm', hw', hth', htime'⟩ :=
      ih app₁ (fun t hmem => ht t (List.mem_cons_of_mem c hmem))
    refine ⟨app', ?_, hm'.trans hm, hw'.trans hw, hth'.trans hth, ?_⟩
    · simp only [ExperimentalApp.run, h₁, Option.bind]
      exact hrun
    · refine le_trans ?_ htime'
      rw [htime]
      cases c with
      | on_input => simp [Callback.elapsed]
      | on_draw f => simp [Callback.elapsed]
      | on_update t =>
        have := ht t (List.mem_cons_self _ _)
        simp only [Callback.elapsed]
        have h0 : 0 ≤ t / 1000 := by positivity
        linarith

/-- C26: whenever the constructor of `ExperimentalApp` returns, the state it returns satisfies the
ToneMapParameters invariant (`middleGrey > 0`, `whitePoint > 0`, `threshold >= 0`, `time >= 0`),
and every sequence of `on_input`, `on_update` and `on_draw` calls whose update time steps are all
non-negative returns in a state that satisfies it, with `middleGrey`, `whitePoint` and `threshold`
still 0.18, 1.1 and 1.5.  `on_input` and `on_draw` change none of the four parameters and
`on_update` changes only `time`, by `timestep_ms / 1000`. -/
theorem tonemap_parameters_invariant (check_complete : Framebuffer → Bool) (width height : Int)
    (app : ExperimentalApp)
    (h : ExperimentalApp.ExperimentalApp check_complete width height = .ok app)
    (trace : List Callback) (ht : ∀ t, Callback.on_update t ∈ trace → 0 ≤ t) :
    app.paramsValid = true ∧
    (∃ app', ExperimentalApp.run app trace = some app' ∧ app'.paramsValid = true ∧
      app'.middleGrey = 18 / 100 ∧ app'.whitePoint = 11 / 10 ∧ app'.threshold = 15 / 10 ∧
      0 ≤ app'.time) ∧
    (∀ (a a' : ExperimentalApp) (c : Callback), ExperimentalApp.call a c = some a' →
      a'.middleGrey = a.middleGrey ∧ a'.whitePoint = a.whitePoint ∧ a'.threshold = a.threshold ∧
      a'.time = a.time + c.elapsed) := by
  obtain ⟨-, rfl⟩ := (ExperimentalApp_ok_iff _ _ _ _).mp h
  obtain ⟨app', hrun, hm, hw, hth, htime⟩ := run_params trace (ExperimentalApp.built width height) ht
  have hm0 : (ExperimentalApp.built width height).middleGrey = 18 / 100 := rfl
  have hw0 : (ExperimentalApp.built width height).whitePoint = 11 / 10 := rfl
  have hth0 : (ExperimentalApp.built width height).threshold = 15 / 10 := rfl
  have ht0 : (ExperimentalApp.built width height).time = 0 := rfl
  rw [hm0] at hm
  rw [hw0] at hw
  rw [hth0] at hth
  rw [ht0] at htime
  refine ⟨?_, ⟨app', hrun, ?_, hm, hw, hth, htime⟩, call_params⟩
  · simp only [ExperimentalApp.paramsValid, hm0, hw0, hth0, ht0]
    norm_num
  · simp only [ExperimentalApp.paramsValid, hm, hw, hth]
    simp only [Bool.and_eq_true, decide_eq_true_eq]
    refine ⟨⟨⟨by norm_num, by norm_num⟩, by norm_num⟩, htime⟩

/-- At 1280x720: an input event, an update of 16 ms, a frame, and an update of 0 ms. -/
theorem tonemap_parameters_invariant_witness :
    ExperimentalApp.ExperimentalApp (fun _ => true) 1280 720 =
      .ok (ExperimentalApp.built 1280 720) ∧
    (∀ t, Callback.on_update t ∈
      [Callback.on_input, .on_update 16, .on_draw Frame.still, .on_update 0] → 0 ≤ t) ∧
    ∃ app', ExperimentalApp.run (ExperimentalApp.built 1280 720)
        [Callback.on_input, .on_update 16, .on_draw Frame.still, .on_update 0] = some app' ∧
      app'.paramsValid = true := by
  have hc : ExperimentalApp.ExperimentalApp (fun _ => true) 1280 720 =
      .ok (ExperimentalApp.built 1280 720) := ExperimentalApp_of_complete _ _ _ (fun _ => rfl)
  have ht : ∀ t, Callback.on_update t ∈
      [Callback.on_input, .on_update 16, .on_draw Frame.still, .on_update 0] → 0 ≤ t := by
    intro t hmem
    simp only [List.mem_cons, List.mem_singleton, Callback.on_update.injEq, List.not_mem_nil,
      or_false] at hmem
    rcases hmem with h | h | h | h
    · cases h
    · rw [h]; norm_num
    · cases h
    · rw [h]
  obtain ⟨-, ⟨app', hrun, hvalid, -⟩, -⟩ :=
    tonemap_parameters_invariant (fun _ => true) 1280 720 _ hc _ ht
  exact ⟨hc, ht, app', hrun, hvalid⟩

/-- The uploads of the constructor that read `white`, with their byte counts. -/
theorem built_white_reads (width height : Int) :
    (ExperimentalApp.built width height).white_reads =
      [ (.sceneColorTexture, (width * height).toNat * 4),
        (.sceneDepthTexture, (width * height).toNat * 4),
        (.luminanceTex_0, 65536), (.luminanceTex_1, 16384), (.luminanceTex_2, 1024),
        (.luminanceTex_3, 64), (.luminanceTex_4, 4),
        (.brightTex, (Int.tdiv width 2 * Int.tdiv height 2).toNat * 4),
        (.blurTex, (Int.tdiv width 8 * Int.tdiv height 8).toNat * 4) ] := by
  simp [ExperimentalApp.white_reads, ExperimentalApp.built, TexImage.bytes, GLenum.components,
    GLenum.bytes, List.filter]

/-- A product of truncated quotients of non-negative numbers is at most the product. -/
theorem tdiv_mul_le (width height : Int) (hw : 0 ≤ width) (hh : 0 ≤ height) (d : Int)
    (hd : 0 < d) :
    (Int.tdiv width d * Int.tdiv height d).toNat ≤ (width * height).toNat := by
  have h1 : Int.tdiv width d ≤ width := by
    rw [Int.tdiv_eq_ediv hw (le_of_lt hd)]
    exact Int.ediv_le_self d hw
  have h2 : Int.tdiv height d ≤ height := by
    rw [Int.tdiv_eq_ediv hh (le_of_lt hd)]
    exact Int.ediv_le_self d hh
  have h3 : 0 ≤ Int.tdiv height d := by
    rw [Int.tdiv_eq_ediv hh (le_of_lt hd)]
    exact Int.ediv_nonneg hh (le_of_lt hd)
  apply Int.toNat_le_toNat
  calc Int.tdiv width d * Int.tdiv height d ≤ width * Int.tdiv height d :=
        mul_le_mul_of_nonneg_right h1 h3
    _ ≤ width * height := mul_le_mul_of_nonneg_left h2 hw

/-- C28 (the code departs from the claim): for a window of 100 by 100 the constructor returns with
`white` holding 4 * 100 * 100 = 40000 bytes, and the upload of `luminanceTex_0` reads
4 * 128 * 128 = 65536 bytes from it (those of `luminanceTex_1` 16384, within the buffer): the read
runs past the end of the buffer.  For non-negative sizes every upload from `white` stays within
the buffer exactly when `width * height >= 16384`; the uploads of the scene colour, depth, bright
and blur textures always do. -/
theorem white_too_small_for_luminance :
    ExperimentalApp.ExperimentalApp (fun _ => true) 100 100 =
      .ok (ExperimentalApp.built 100 100) ∧
    (ExperimentalApp.built 100 100).white = 40000 ∧
    (ExperimentalApp.built 100 100).white_reads =
      [ (.sceneColorTexture, 40000), (.sceneDepthTexture, 40000), (.luminanceTex_0, 65536),
        (.luminanceTex_1, 16384), (.luminanceTex_2, 1024), (.luminanceTex_3, 64),
        (.luminanceTex_4, 4), (.brightTex, 10000), (.blurTex, 576) ] ∧
    ¬ (∀ e ∈ (ExperimentalApp.built 100 100).white_reads,
        e.2 ≤ (ExperimentalApp.built 100 100).white) ∧
    (∀ width height : Int, 0 ≤ width → 0 ≤ height →
      (ExperimentalApp.built width height).white = 4 * (width * height).toNat ∧
      ((∀ e ∈ (ExperimentalApp.built width height).white_reads,
          e.2 ≤ (ExperimentalApp.built width height).white) ↔ 16384 ≤ width * height) ∧
      (∀ e ∈ (ExperimentalApp.built width height).white_reads,
        e.1 ∈ [Texture.sceneColorTexture, .sceneDepthTexture, .brightTex, .blurTex] →
        e.2 ≤ (ExperimentalApp.built width height).white)) := by
  refine ⟨ExperimentalApp_of_complete _ _ _ (fun _ => rfl), by rfl, ?_, ?_, ?_⟩
  · rw [built_white_reads]
    rfl
  · intro h
    have := h (.luminanceTex_0, 65536) (by rw [built_white_reads]; simp)
    have hw : (ExperimentalApp.built 100 100).white = 40000 := by rfl
    rw [hw] at this
    omega
  · intro width height hw hh
    have hwhite : (ExperimentalApp.built width height).white = 4 * (width * height).toNat := by
      simp [ExperimentalApp.built]
    have h2 := tdiv_mul_le width height hw hh 2 (by norm_num)
    have h8 := tdiv_mul_le width height hw hh 8 (by norm_num)
    have hnn : 0 ≤ width * height := mul_nonneg hw hh
    refine ⟨hwhite, ?_, ?_⟩
    · rw [built_white_reads, hwhite]
      constructor
      · intro h
        have := h (.luminanceTex_0, 65536) (by simp)
        simp only at this
        omega
      · intro h e he
        simp only [List.mem_cons, List.mem_singleton, List.not_mem_nil, or_false] at he
        rcases he with rfl | rfl | rfl | rfl | rfl | rfl | rfl | rfl | rfl <;> simp only <;> omega
    · rw [built_white_reads, hwhite]
      intro e he ht
      simp only [List.mem_cons, List.mem_singleton, List.not_mem_nil, or_false] at he
      rcases he with rfl | rfl | rfl | rfl | rfl | rfl | rfl | rfl | rfl <;>
        first
        | (simp only; omega)
        | (simp at ht)

/-! ### Screen viewports -/

/-- With a head-mounted display, and with no null material in the render set, `on_draw` returns:
it renders the frame with the eye data the display reports, draws the two screen viewports and
leaves them in `viewports`. -/
theorem on_draw_hmd (m : Linalg) (inp : DrawInput) (st : VirtualRealityAppState) (d : OpenVR_HMD)
    (h : st.hmd = some d) (hmat : ∀ obj ∈ st.renderer.renderSet, obj.material ≠ none) :
    (st.on_draw m inp).calls =
      draw_head inp ++
        ([.gpuTimer_start, .hmd (.get_eye_pose .LeftEye), .hmd (.get_proj_matrix .LeftEye),
          .hmd (.get_eye_pose .RightEye), .hmd (.get_proj_matrix .RightEye)] ++
        (render_frame m (st.renderer.set_eye_data
          ⟨inp.eye_pose .LeftEye, inp.proj_matrix .LeftEye⟩
          ⟨inp.eye_pose .RightEye, inp.proj_matrix .RightEye⟩)).calls ++
        [.gpuTimer_stop, .hmd .submit, .hmd .update, .hmd (.get_eye_pose .LeftEye),
          .debugCam_set_pose (inp.eye_pose .LeftEye)]) ++
        draw_screen inp ++
        [.hmd .get_hmd_pose, .imgui, .imgui, .igm_end_frame, .glfwSwapBuffers, .gl_check_error] ∧
    ∃ st', (st.on_draw m inp).result = .ok st' ∧
      st'.viewports = VirtualRealityAppState.screen_viewports inp := by
  have hmat' : ∀ obj ∈ (st.renderer.set_eye_data
      ⟨inp.eye_pose .LeftEye, inp.proj_matrix .LeftEye⟩
      ⟨inp.eye_pose .RightEye, inp.proj_matrix .RightEye⟩).renderSet, obj.material ≠ none := hmat
  simp only [VirtualRealityAppState.on_draw, h, VirtualRealityAppState.draw_hmd]
  rw [render_frame_ok m _ hmat']
  simp [bind, Run.bind, emit, emits, pure, VirtualRealityAppState.set_renderer,
    VirtualRealityAppState.set_viewports, VirtualRealityAppState.hmd_call, h,
    VirtualRealityAppState.set_debugCam,
    VirtualRealityAppState.screen_viewports, draw_head, draw_screen]

/-- The calls that draw the two screen viewports are among the calls of `on_draw`, with or without
a head-mounted display, when no material of the render set is null. -/
theorem on_draw_screen (m : Linalg) (inp : DrawInput) (st : VirtualRealityAppState)
    (hmat : ∀ obj ∈ st.renderer.renderSet, obj.material ≠ none) :
    ∃ pre post, (st.on_draw m inp).calls = pre ++ draw_screen inp ++ post := by
  cases h : st.hmd with
  | none =>
    rw [on_draw_window m inp st h hmat]
    exact ⟨_, [], (List.append_nil _).symm⟩
  | some d =>
    rw [(on_draw_hmd m inp st d h hmat).1]
    exact ⟨_, _, rfl⟩

/-- The conversion of half an integer moved by a whole number: `toGLint (w / 2 + n)` for a
non-negative result. -/
theorem toGLint_half_add (w n : Int) (h : 0 ≤ w / 2 + n) :
    toGLint ((w : ℚ) / 2 + (n : ℚ)) = w / 2 + n := by
  have hfloor : ⌊(w : ℚ) / 2 + (n : ℚ)⌋ = w / 2 + n := by
    rw [Int.floor_add_int]
    have h2 : ((w : ℚ) / 2) = (w : ℚ) / ((2 : ℕ) : ℚ) := by norm_num
    rw [h2, Rat.floor_intCast_div_natCast]
    rfl
  unfold toGLint
  split_ifs with h0
  · exact hfloor
  · exfalso
    apply h0
    have : ((w / 2 + n : Int) : ℚ) ≤ (w : ℚ) / 2 + (n : ℚ) := by
      rw [← hfloor]; exact Int.floor_le _
    have h' : (0 : ℚ) ≤ ((w / 2 + n : Int) : ℚ) := by exact_mod_cast h
    linarith

/-- The `glViewport` arguments of the two screen viewports for a window wider than 4: with
`k = width div 2` the left one is `(0, 0, k - 2, height)` and the right one
`(k + 2, 0, k - 2, height)`. -/
theorem viewport_calls_screen (inp : DrawInput) (hw : 4 < inp.width) :
    (VirtualRealityAppState.screen_viewports inp).map
        (VirtualRealityAppState.viewport_calls inp.height) =
      [ [ .glViewport 0 0 (inp.width / 2 - 2) inp.height, .glActiveTexture0,
          .glEnable .GL_TEXTURE_2D, .glBindTexture (.eyeTextures .LeftEye), .glQuad,
          .glDisable .GL_TEXTURE_2D ],
        [ .glViewport (inp.width / 2 + 2) 0 (inp.width / 2 - 2) inp.height, .glActiveTexture0,
          .glEnable .GL_TEXTURE_2D, .glBindTexture (.eyeTextures .RightEye), .glQuad,
          .glDisable .GL_TEXTURE_2D ] ] := by
  have h1 : toGLint ((0 + (inp.width : ℚ)) / 2 - 2 - 0) = inp.width / 2 - 2 := by
    have e : (0 + (inp.width : ℚ)) / 2 - 2 - 0 = (inp.width : ℚ) / 2 + ((-2 : Int) : ℚ) := by
      push_cast; ring
    rw [e, toGLint_half_add _ _ (by omega)]
    ring
  have h2 : toGLint ((0 + (inp.width : ℚ)) / 2 + 2) = inp.width / 2 + 2 := by
    have e : (0 + (inp.width : ℚ)) / 2 + 2 = (inp.width : ℚ) / 2 + ((2 : Int) : ℚ) := by
      push_cast; ring
    rw [e, toGLint_half_add _ _ (by omega)]
  have h3 : toGLint ((inp.width : ℚ) - ((0 + (inp.width : ℚ)) / 2 + 2)) = inp.width / 2 - 2 := by
    have e : (inp.width : ℚ) - ((0 + (inp.width : ℚ)) / 2 + 2) =
        (inp.width : ℚ) / 2 + ((-2 : Int) : ℚ) := by
      push_cast; ring
    rw [e, toGLint_half_add _ _ (by omega)]
    ring
  have h4 : toGLint ((inp.height : ℚ) - (inp.height : ℚ)) = 0 := by
    rw [sub_self]; exact toGLint_intCast 0
  have h5 : toGLint ((inp.height : ℚ) - 0) = inp.height := by
    rw [sub_zero]; exact toGLint_intCast _
  have h6 : toGLint (0 : ℚ) = 0 := toGLint_intCast 0
  simp only [VirtualRealityAppState.screen_viewports, VirtualRealityAppState.viewport_calls,
    List.map_cons, List.map_nil, h1, h2, h3, h4, h5, h6]

/-- C29 (as stated, false): on a window of 1281 by 800 the screen viewports have the float bounds
`[0, 1277/2]` and `[1285/2, 1281]`, but `glViewport` takes integers: the left viewport is drawn
at `x = 0` with width 638 and the right one at `x = 642` with width 638.  The widths are not
`1281/2 - 2`, the right viewport ends at 1280 and not at the window width, and the gap between
them is centred on 640 and not on the middle of the window. -/
theorem screen_viewports_odd_width :
    (4 : Int) < DrawInput.odd.width ∧
    VirtualRealityAppState.screen_viewports DrawInput.odd =
      [ ⟨⟨0, 0⟩, ⟨1277 / 2, 800⟩, .eyeTextures .LeftEye⟩,
        ⟨⟨1285 / 2, 0⟩, ⟨1281, 800⟩, .eyeTextures .RightEye⟩ ] ∧
    (VirtualRealityAppState.screen_viewports DrawInput.odd).map
        (VirtualRealityAppState.viewport_calls DrawInput.odd.height) =
      [ [ .glViewport 0 0 638 800, .glActiveTexture0, .glEnable .GL_TEXTURE_2D,
          .glBindTexture (.eyeTextures .LeftEye), .glQuad, .glDisable .GL_TEXTURE_2D ],
        [ .glViewport 642 0 638 800, .glActiveTexture0, .glEnable .GL_TEXTURE_2D,
          .glBindTexture (.eyeTextures .RightEye), .glQuad, .glDisable .GL_TEXTURE_2D ] ] ∧
    ((638 : Int) : ℚ) ≠ (DrawInput.odd.width : ℚ) / 2 - 2 ∧
    (642 + 638 : Int) ≠ DrawInput.odd.width ∧
    (((0 + 638) + 642 : Int) : ℚ) / 2 ≠ (DrawInput.odd.width : ℚ) / 2 := by
  refine ⟨by decide, ?_, ?_, ?_, by decide, ?_⟩
  · simp [VirtualRealityAppState.screen_viewports, DrawInput.odd]
    norm_num
  · rw [viewport_calls_screen DrawInput.odd (by decide)]
    rfl
  · simp [DrawInput.odd]; norm_num
  · simp [DrawInput.odd]; norm_num

/-- C29 (amended): for every window wider than 4, with `k = width div 2`, the two screen viewports
of `on_draw` are drawn with `glViewport(0, 0, k - 2, height)` and the left eye texture, and
`glViewport(k + 2, 0, k - 2, height)` and the right eye texture (the float bounds
`[0, width/2 - 2]` and `[width/2 + 2, width]` converted to integers): they cover `[0, k - 2]` and
`[k + 2, 2 k]` horizontally and `[0, height]` vertically, do not overlap, are separated by a gap of
4 centred on `k`, are both `k - 2` wide and lie inside the window.  For an even width `k` is
exactly `width / 2` and the right viewport ends at `width`; for an odd width it ends at
`width - 1`.  `on_draw` issues these calls, left viewport first, when no material of the render
set is null, with or without a head-mounted display. -/
theorem screen_viewports_layout (m : Linalg) (inp : DrawInput) (st : VirtualRealityAppState)
    (hw : 4 < inp.width) :
    ∃ l r : ScreenViewport, VirtualRealityAppState.screen_viewports inp = [l, r] ∧
      l.bmin = ⟨0, 0⟩ ∧ l.bmax = ⟨(inp.width : ℚ) / 2 - 2, (inp.height : ℚ)⟩ ∧
      r.bmin = ⟨(inp.width : ℚ) / 2 + 2, 0⟩ ∧ r.bmax = ⟨(inp.width : ℚ), (inp.height : ℚ)⟩ ∧
      l.texture = .eyeTextures .LeftEye ∧ r.texture = .eyeTextures .RightEye ∧
      VirtualRealityAppState.viewport_calls inp.height l =
        [ .glViewport 0 0 (inp.width / 2 - 2) inp.height, .glActiveTexture0,
          .glEnable .GL_TEXTURE_2D, .glBindTexture (.eyeTextures .LeftEye), .glQuad,
          .glDisable .GL_TEXTURE_2D ] ∧
      VirtualRealityAppState.viewport_calls inp.height r =
        [ .glViewport (inp.width / 2 + 2) 0 (inp.width / 2 - 2) inp.height, .glActiveTexture0,
          .glEnable .GL_TEXTURE_2D, .glBindTexture (.eyeTextures .RightEye), .glQuad,
          .glDisable .GL_TEXTURE_2D ] ∧
      0 ≤ inp.width / 2 - 2 ∧
      0 + (inp.width / 2 - 2) < inp.width / 2 + 2 ∧
      (inp.width / 2 + 2) - (0 + (inp.width / 2 - 2)) = 4 ∧
      (0 + (inp.width / 2 - 2)) + (inp.width / 2 + 2) = 2 * (inp.width / 2) ∧
      (inp.width / 2 + 2) + (inp.width / 2 - 2) ≤ inp.width ∧
      (2 ∣ inp.width → ((inp.width / 2 : Int) : ℚ) = (inp.width : ℚ) / 2 ∧
        (inp.width / 2 + 2) + (inp.width / 2 - 2) = inp.width) ∧
      (¬ 2 ∣ inp.width → (inp.width / 2 + 2) + (inp.width / 2 - 2) = inp.width - 1) ∧
      ((∀ obj ∈ st.renderer.renderSet, obj.material ≠ none) →
        ∃ pre post, (st.on_draw m inp).calls =
          pre ++ (VirtualRealityAppState.viewport_calls inp.height l ++
            VirtualRealityAppState.viewport_calls inp.height r) ++ post) := by
  have hcalls := viewport_calls_screen inp hw
  refine ⟨⟨⟨0, 0⟩, ⟨(inp.width : ℚ) / 2 - 2, (inp.height : ℚ)⟩, .eyeTextures .LeftEye⟩,
    ⟨⟨(inp.width : ℚ) / 2 + 2, 0⟩, ⟨(inp.width : ℚ), (inp.height : ℚ)⟩, .eyeTextures .RightEye⟩,
    ?_, rfl, rfl, rfl, rfl, rfl, rfl, ?_, ?_, by omega, by omega, by omega, by omega, by omega,
    ?_, by omega, ?_⟩
  · simp [VirtualRealityAppState.screen_viewports]
  · have h := congrArg (fun l => l[0]?) hcalls
    simp [VirtualRealityAppState.screen_viewports, zero_add] at h
    exact h
  · have h := congrArg (fun l => l[1]?) hcalls
    simp [VirtualRealityAppState.screen_viewports, zero_add] at h
    exact h
  · rintro ⟨k, hk⟩
    refine ⟨?_, by omega⟩
    rw [hk]
    simp
  · intro hmat
    obtain ⟨pre, post, hc⟩ := on_draw_screen m inp st hmat
    refine ⟨pre ++ [.imgui, .glUseProgram0, .glBindFramebuffer .GL_FRAMEBUFFER .zero, .glClear],
      [.physicsDebugRenderer_clear] ++ post, ?_⟩
    rw [hc]
    simp [draw_screen, VirtualRealityAppState.screen_viewports]

/-- The 1280 by 800 window: the viewports are drawn at `x = 0` and `x = 642`, both 638 wide. -/
theorem screen_viewports_layout_witness :
    (4 : Int) < DrawInput.window.width ∧
    ∃ l r : ScreenViewport, VirtualRealityAppState.screen_viewports DrawInput.window = [l, r] ∧
      VirtualRealityAppState.viewport_calls DrawInput.window.height l =
        [ .glViewport 0 0 638 800, .glActiveTexture0, .glEnable .GL_TEXTURE_2D,
          .glBindTexture (.eyeTextures .LeftEye), .glQuad, .glDisable .GL_TEXTURE_2D ] ∧
      VirtualRealityAppState.viewport_calls DrawInput.window.height r =
        [ .glViewport 642 0 638 800, .glActiveTexture0, .glEnable .GL_TEXTURE_2D,
          .glBindTexture (.eyeTextures .RightEye), .glQuad, .glDisable .GL_TEXTURE_2D ] := by
  obtain ⟨l, r, h, -, -, -, -, -, -, hl, hr, -⟩ :=
    screen_viewports_layout Linalg.translations DrawInput.window VirtualRealityAppState.window
      (by decide)
  exact ⟨by decide, l, r, h, hl, hr⟩

/-! ### The teleport state machine -/

/-- One iteration of the track-pad loop with a head-mounted display: it returns; `needsTeleport`
ends true exactly when it was armed and did not fire; the arc calls count the successful aim and
the teleport; the world pose is set only when it fired. -/
theorem trackpad_step_spec (m : Linalg) (inp : UpdateInput) (st : VirtualRealityAppState)
    (role : TrackedControllerRole) (d : OpenVR_HMD) (h : st.hmd = some d) :
    ∃ st', (trackpad_step m inp st role).result = .ok st' ∧ st'.hmd = st.hmd ∧
      st'.needsTeleport = (armed m inp st role && !fired m inp st role) ∧
      (trackpad_step m inp st role).calls.countP Call.isAim =
        (if aimed m inp st role then 1 else 0) ∧
      (trackpad_step m inp st role).calls.countP Call.isTeleport =
        (if fired m inp st role then 1 else 0) ∧
      (trackpad_step m inp st role).calls.countP Call.isSetWorldPose =
        (if fired m inp st role then 2 else 0) ∧
      (fired m inp st role = false → st'.world_pose = st.world_pose) ∧
      (trackpad_step m inp st role).calls.countP Call.isTeleport + st'.needsTeleport.toNat ≤
        (trackpad_step m inp st role).calls.countP Call.isAim + st.needsTeleport.toNat ∧
      ((trackpad_step m inp st role).calls.countP Call.isAim = 0 → st'.needsTeleport = true →
        st.needsTeleport = true) := by
  simp only [trackpad_step, aim, teleport, armed, fired, aimed, pointer]
  rcases Bool.eq_false_or_eq_true (inp.pad role).down with hd | hd <;>
  rcases Bool.eq_false_or_eq_true (inp.pad role).released with hr | hr <;>
  rcases Bool.eq_false_or_eq_true st.needsTeleport with hn | hn <;>
  rcases Bool.eq_false_or_eq_true (inp.make_parabolic_pointer
      (inp.controller_pose role st.world_pose).position
      (-(m.qzdir (inp.controller_pose role st.world_pose).orientation).1,
        -(m.qzdir (inp.controller_pose role st.world_pose).orientation).2.1,
        -(m.qzdir (inp.controller_pose role st.world_pose).orientation).2.2)
      st.teleportLocation).1 with hf | hf <;>
    simp [bind, Run.bind, emit, emits, pure, VirtualRealityAppState.hmd_call, h, hd, hr, hn, hf,
      VirtualRealityAppState.set_params, VirtualRealityAppState.set_teleportLocation,
      VirtualRealityAppState.set_needsTeleport, VirtualRealityAppState.set_world_pose,
      Call.isAim, Call.isTeleport, Call.isSetWorldPose, List.countP_cons]

/-- The track-pad loop of `src/vr-environment/vr_app.cpp` is that of
`src/virtual-reality/vr_app.cpp` without the calls on the teleportation arc: same outcome, same
state, and the same calls but for those. -/
theorem vr_environment_trackpad_step (m : Linalg) (inp : UpdateInput)
    (st : VirtualRealityAppState) (role : TrackedControllerRole) :
    (vr_environment.trackpad_step m inp st role).result = (trackpad_step m inp st role).result ∧
    (vr_environment.trackpad_step m inp st role).calls =
      (trackpad_step m inp st role).calls.filter (fun c => !c.isArc) := by
  simp only [vr_environment.trackpad_step, vr_environment.aim, vr_environment.teleport,
    trackpad_step, aim, teleport]
  rcases Bool.eq_false_or_eq_true (inp.pad role).down with hd | hd <;>
  rcases Bool.eq_false_or_eq_true (inp.pad role).released with hr | hr <;>
  rcases Bool.eq_false_or_eq_true st.needsTeleport with hn | hn <;>
  rcases Bool.eq_false_or_eq_true (inp.make_parabolic_pointer
      (inp.controller_pose role st.world_pose).position
      (-(m.qzdir (inp.controller_pose role st.world_pose).orientation).1,
        -(m.qzdir (inp.controller_pose role st.world_pose).orientation).2.1,
        -(m.qzdir (inp.controller_pose role st.world_pose).orientation).2.2)
      st.teleportLocation).1 with hf | hf <;>
  cases h : st.hmd <;>
    simp [bind, Run.bind, emit, emits, pure, fault, VirtualRealityAppState.hmd_call, h, hd, hr,
      hn, hf, VirtualRealityAppState.set_params, VirtualRealityAppState.set_teleportLocation,
      VirtualRealityAppState.set_needsTeleport, VirtualRealityAppState.set_world_pose,
      Call.isArc]

/-- One `on_update`: it returns with `hmd` as it was; every teleport uses up `needsTeleport`, which
only a successful aim sets; `hmd->set_world_pose` is called twice per teleport and the world pose
is left alone without one. -/
theorem on_update_teleport (m : Linalg) (inp : UpdateInput) (st : VirtualRealityAppState) :
    ∃ st', (st.on_update m inp).result = .ok st' ∧ st'.hmd = st.hmd ∧
      (st.on_update m inp).calls.countP Call.isTeleport + st'.needsTeleport.toNat ≤
        (st.on_update m inp).calls.countP Call.isAim + st.needsTeleport.toNat ∧
      (st.on_update m inp).calls.countP Call.isSetWorldPose =
        2 * (st.on_update m inp).calls.countP Call.isTeleport ∧
      ((st.on_update m inp).calls.countP Call.isTeleport = 0 → st'.world_pose = st.world_pose) ∧
      ((st.on_update m inp).calls.countP Call.isAim = 0 → st'.needsTeleport = true →
        st.needsTeleport = true) := by
  cases h : st.hmd with
  | none =>
    simp only [VirtualRealityAppState.on_update, h]
    simp [bind, Run.bind, emit, emits, pure, VirtualRealityAppState.set_renderer,
      VirtualRealityAppState.move_lights, h, Call.isAim, Call.isTeleport, Call.isSetWorldPose,
      List.countP_cons]
  | some d =>
    obtain ⟨st1, hr1, hh1, -, -, ht1, hs1, hw1, hi1, hj1⟩ :=
      trackpad_step_spec m inp st .LeftHand d h
    obtain ⟨st2, hr2, hh2, -, -, ht2, hs2, hw2, hi2, hj2⟩ :=
      trackpad_step_spec m inp st1 .RightHand d (hh1.trans h)
    have e1 : trackpad_step m inp st .LeftHand =
        ⟨(trackpad_step m inp st .LeftHand).calls, .ok st1⟩ := by rw [← hr1]
    have e2 : trackpad_step m inp st1 .RightHand =
        ⟨(trackpad_step m inp st1 .RightHand).calls, .ok st2⟩ := by rw [← hr2]
    generalize (trackpad_step m inp st .LeftHand).calls = c1 at e1 ht1 hs1 hi1 hj1
    generalize (trackpad_step m inp st1 .RightHand).calls = c2 at e2 ht2 hs2 hi2 hj2
    have hcalls : (st.on_update m inp).calls =
        [.cameraController_update, .shaderMonitor_handle_recompile,
         .hmd (.get_controller .LeftHand), .hmd .get_world_pose,
         .controller_update .LeftHand (inp.controller_pose .LeftHand st.world_pose),
         .hmd (.get_controller .RightHand), .hmd .get_world_pose,
         .controller_update .RightHand (inp.controller_pose .RightHand st.world_pose),
         .physicsEngine_update,
         .hmd (.get_controller .LeftHand), .hmd .get_world_pose,
         .controller_set_pose .LeftHand (inp.controller_pose .LeftHand st.world_pose),
         .hmd (.get_controller .RightHand), .hmd .get_world_pose,
         .controller_set_pose .RightHand (inp.controller_pose .RightHand st.world_pose),
         .hmd (.get_controller .LeftHand), .hmd (.get_controller .RightHand)] ++ c1 ++ c2 ++
        [.add_renderables inp.renderables.length, .set_lights, .add_debug_renderable,
         .draw_sphere, .draw_sphere] ∧
        (st.on_update m inp).result =
          .ok (((st2.move_lights inp).set_renderer
            ((st2.move_lights inp).renderer.add_renderables inp.renderables)).set_renderer
            ((((st2.move_lights inp).set_renderer
              ((st2.move_lights inp).renderer.add_renderables inp.renderables)).renderer).set_lights
              (inp.lightCollection (st2.move_lights inp).pointLights))) := by
      simp only [VirtualRealityAppState.on_update, h, update_hmd]
      simp [bind, Run.bind, emit, emits, pure, VirtualRealityAppState.hmd_call, h, e1, e2]
    obtain ⟨hc, hres⟩ := hcalls
    refine ⟨_, hres, ?_, ?_, ?_, ?_, ?_⟩
    · simp [VirtualRealityAppState.set_renderer, VirtualRealityAppState.move_lights, hh2, hh1, h]
    · rw [hc]
      simp only [List.countP_append, List.countP_cons, List.countP_nil, Call.isAim,
        Call.isTeleport, VirtualRealityAppState.set_renderer, VirtualRealityAppState.move_lights]
      simp only [Bool.false_eq_true, if_false, add_zero, zero_add]
      omega
    · rw [hc]
      simp only [List.countP_append, List.countP_cons, List.countP_nil, Call.isSetWorldPose,
        Call.isTeleport, hs1, hs2, ht1, ht2]
      simp only [Bool.false_eq_true, if_false, add_zero, zero_add]
      split_ifs <;> rfl
    · rw [hc]
      simp only [List.countP_append, List.countP_cons, List.countP_nil, Call.isTeleport, ht1, ht2]
      simp only [Bool.false_eq_true, if_false, add_zero, zero_add]
      intro h0
      have hf1 : fired m inp st .LeftHand = false := by
        cases hf : fired m inp st .LeftHand
        · rfl
        · simp [hf] at h0
      have hf2 : fired m inp st1 .RightHand = false := by
        cases hf : fired m inp st1 .RightHand
        · rfl
        · simp [hf] at h0
      simp [VirtualRealityAppState.set_renderer, VirtualRealityAppState.move_lights,
        hw2 hf2, hw1 hf1]
    · rw [hc]
      simp only [List.countP_append, List.countP_cons, List.countP_nil, Call.isAim,
        VirtualRealityAppState.set_renderer, VirtualRealityAppState.move_lights]
      simp only [Bool.false_eq_true, if_false, add_zero, zero_add]
      intro h0 hn
      exact hj1 (by omega) (hj2 (by omega) hn)

/-- A sequence of `on_update` calls returns, and over it the teleports plus a pending
`needsTeleport` at the end number at most the successful aims plus a pending `needsTeleport` at
the start. -/
theorem updates_teleport (m : Linalg) (inps : List UpdateInput) (st : VirtualRealityAppState) :
    ∃ st', (updates m inps st).result = .ok st' ∧ st'.hmd = st.hmd ∧
      (updates m inps st).calls.countP Call.isTeleport + st'.needsTeleport.toNat ≤
        (updates m inps st).calls.countP Call.isAim + st.needsTeleport.toNat ∧
      (updates m inps st).calls.countP Call.isSetWorldPose =
        2 * (updates m inps st).calls.countP Call.isTeleport ∧
      ((updates m inps st).calls.countP Call.isTeleport = 0 → st'.world_pose = st.world_pose) := by
  induction inps generalizing st with
  | nil => exact ⟨st, rfl, rfl, by simp [updates, pure], by simp [updates, pure], fun _ => rfl⟩
  | cons inp rest ih =>
    obtain ⟨st1, hr1, hh1, hc1, hs1, hw1, -⟩ := on_update_teleport m inp st
    obtain ⟨st2, hr2, hh2, hc2, hs2, hw2⟩ := ih st1
    have e1 : st.on_update m inp = ⟨(st.on_update m inp).calls, .ok st1⟩ := by rw [← hr1]
    generalize (st.on_update m inp).calls = c1 at e1 hc1 hs1 hw1
    have hcalls : (updates m (inp :: rest) st).calls = c1 ++ (updates m rest st1).calls ∧
        (updates m (inp :: rest) st).result = (updates m rest st1).result := by
      simp [updates, e1, Run.bind]
    rw [hcalls.1, hcalls.2]
    refine ⟨st2, hr2, hh2.trans hh1, ?_, ?_, ?_⟩
    · simp only [List.countP_append]; omega
    · simp only [List.countP_append]; omega
    · simp only [List.countP_append]
      intro h0
      rw [hw2 (by omega), hw1 (by omega)]

/-- C30: in the block `if (hmd)` of `on_update`, one iteration of the track-pad loop returns, and
(1) `needsTeleport` goes from false to true only if the track pad of that controller is down and
`make_parabolic_pointer` returned true; (2) `hmd->set_world_pose` is called, or the world pose
differs afterwards, only if the track pad is released and `needsTeleport` is true when
`state.released && scene.needsTeleport` is evaluated; (3) an iteration that teleports does so
once and leaves `needsTeleport` false, and one that does not leaves the world pose alone.  Over any
sequence of `on_update` calls from any state (with or without a head-mounted display) the run
returns, and the number of teleports plus a `needsTeleport` still pending at the end is at most the
number of successful aims plus a `needsTeleport` pending at the start: one successful aim yields
at most one teleport.  The copy of the loop in `src/vr-environment/vr_app.cpp` has the same
outcome and, but for the calls on the teleportation arc, the same calls. -/
theorem teleport_state_machine (m : Linalg) (inp : UpdateInput) (st : VirtualRealityAppState)
    (role : TrackedControllerRole) (d : OpenVR_HMD) (h : st.hmd = some d) :
    (∃ st', (trackpad_step m inp st role).result = .ok st' ∧
      (st.needsTeleport = false → st'.needsTeleport = true →
        (inp.pad role).down = true ∧ (pointer m inp st role).1 = true ∧
        (trackpad_step m inp st role).calls.countP Call.isAim = 1) ∧
      ((trackpad_step m inp st role).calls.countP Call.isSetWorldPose ≠ 0 ∨
          st'.world_pose ≠ st.world_pose →
        (inp.pad role).released = true ∧ armed m inp st role = true ∧
        (trackpad_step m inp st role).calls.countP Call.isTeleport = 1) ∧
      (fired m inp st role = true →
        (trackpad_step m inp st role).calls.countP Call.isTeleport = 1 ∧
        st'.needsTeleport = false) ∧
      (fired m inp st role = false →
        (trackpad_step m inp st role).calls.countP Call.isTeleport = 0 ∧
        (trackpad_step m inp st role).calls.countP Call.isSetWorldPose = 0 ∧
        st'.world_pose = st.world_pose)) ∧
    (∀ (inps : List UpdateInput) (st₀ : VirtualRealityAppState),
      ∃ st', (updates m inps st₀).result = .ok st' ∧
        (updates m inps st₀).calls.countP Call.isTeleport + st'.needsTeleport.toNat ≤
          (updates m inps st₀).calls.countP Call.isAim + st₀.needsTeleport.toNat ∧
        (updates m inps st₀).calls.countP Call.isSetWorldPose =
          2 * (updates m inps st₀).calls.countP Call.isTeleport ∧
        ((updates m inps st₀).calls.countP Call.isTeleport = 0 →
          st'.world_pose = st₀.world_pose)) ∧
    ((vr_environment.trackpad_step m inp st role).result = (trackpad_step m inp st role).result ∧
      (vr_environment.trackpad_step m inp st role).calls =
        (trackpad_step m inp st role).calls.filter (fun c => !c.isArc)) := by
  refine ⟨?_, ?_, vr_environment_trackpad_step m inp st role⟩
  · obtain ⟨st', hr, -, hn, ha, ht, hs, hw, -, -⟩ := trackpad_step_spec m inp st role d h
    refine ⟨st', hr, ?_, ?_, ?_, ?_⟩
    · intro hn0 hn1
      rw [hn] at hn1
      simp only [armed, hn0, Bool.or_false, Bool.and_eq_true] at hn1
      have haimed := hn1.1
      rw [ha, haimed]
      simp only [aimed, Bool.and_eq_true] at haimed
      exact ⟨haimed.1, haimed.2, rfl⟩
    · intro hch
      have hf : fired m inp st role = true := by
        cases hfc : fired m inp st role
        · rw [hfc] at hs
          rcases hch with hc | hc
          · exact absurd (by simpa using hs) hc
          · exact absurd (hw hfc) hc
        · rfl
      rw [ht, hf]
      simp only [fired, Bool.and_eq_true] at hf
      exact ⟨hf.1, hf.2, rfl⟩
    · intro hf
      rw [ht, hn, hf]
      simp
    · intro hf
      rw [ht, hs, hf]
      exact ⟨rfl, rfl, hw hf⟩
  · intro inps st₀
    obtain ⟨st', hr, -, hc, hs, hw⟩ := updates_teleport m inps st₀
    exact ⟨st', hr, hc, hs, hw⟩

/-- With a head-mounted display: an update with the left track pad down and a target found, then
two updates with it released.  The first arms, the second teleports, the third does nothing: one
aim, one teleport, two calls of `set_world_pose`. -/
theorem teleport_state_machine_witness :
    VirtualRealityAppState.seated.hmd = some ⟨(1512, 1680)⟩ ∧
    (∃ st', (updates Linalg.translations
        [UpdateInput.aiming, UpdateInput.releasing, UpdateInput.releasing]
        VirtualRealityAppState.seated).result = .ok st' ∧
      (updates Linalg.translations [UpdateInput.aiming, UpdateInput.releasing, UpdateInput.releasing]
        VirtualRealityAppState.seated).calls.countP Call.isTeleport + st'.needsTeleport.toNat ≤
      (updates Linalg.translations [UpdateInput.aiming, UpdateInput.releasing, UpdateInput.releasing]
        VirtualRealityAppState.seated).calls.countP Call.isAim +
        VirtualRealityAppState.seated.needsTeleport.toNat) ∧
    (updates Linalg.translations [UpdateInput.aiming, UpdateInput.releasing, UpdateInput.releasing]
      VirtualRealityAppState.seated).calls.countP Call.isAim = 1 ∧
    (updates Linalg.translations [UpdateInput.aiming, UpdateInput.releasing, UpdateInput.releasing]
      VirtualRealityAppState.seated).calls.countP Call.isTeleport = 1 ∧
    (updates Linalg.translations [UpdateInput.aiming, UpdateInput.releasing, UpdateInput.releasing]
      VirtualRealityAppState.seated).calls.countP Call.isSetWorldPose = 2 := by
  obtain ⟨st', hr, hc, -⟩ :=
    (teleport_state_machine Linalg.translations UpdateInput.aiming VirtualRealityAppState.seated
      .LeftHand ⟨(1512, 1680)⟩ rfl).2.1
      [UpdateInput.aiming, UpdateInput.releasing, UpdateInput.releasing]
      VirtualRealityAppState.seated
  exact ⟨rfl, ⟨st', hr, hc⟩, by rfl, by rfl, by rfl⟩

end Sandbox
